import Mathlib

/-!
# mrpt_navigation: localization core lifecycle and node adapters

A shallow embedding of the particle-filter localization node
(`mrpt_pf_localization_node.cpp`), of the transform helper it shares with the
reactive navigation node, and of the localization core those nodes drive.

Conventions of the embedding:

* times are exact integers counted in a fixed tick (the examples use
  milliseconds); the source stores them as `double` seconds and only ever
  compares and subtracts them;
* poses are records of exact numbers; the functions embedded here copy them
  and never compute with them;
* the effects of a callback (calls made on the core, log lines, messages sent)
  are recorded in ghost fields of the node state, in program order;
* a C++ exception leaving a function is the `Except.error` branch.
-/

namespace MrptNav

/-! ## Data model -/

/-- Timestamps and durations, in integer ticks. -/
abbrev Time := Int

/-- Pose in SE(3), the six scalars of `mrpt::poses::CPose3D`. -/
structure CPose3D where
  x : Int
  y : Int
  z : Int
  yaw : Int
  pitch : Int
  roll : Int
deriving DecidableEq, Repr

/-- The default-constructed pose: all coordinates zero. -/
def CPose3D.identity : CPose3D := ⟨0, 0, 0, 0, 0, 0⟩

/-- The closed set of observation kinds. -/
inductive ObsKind where
  | LASER_SCAN
  | POINT_CLOUD
  | ODOMETRY
  | ROBOT_POSE
  | BEACON_RANGE
deriving DecidableEq, Repr

/-- Pose in SE(2), the three scalars of `mrpt::poses::CPose2D`. -/
structure CPose2D where
  x : Int
  y : Int
  phi : Int
deriving DecidableEq, Repr

/-- The conversion `CPose2D(const CPose3D&)`: x, y and the yaw are kept. -/
def CPose2D.ofCPose3D (p : CPose3D) : CPose2D := ⟨p.x, p.y, p.yaw⟩

/-- A planar velocity, `mrpt::math::TTwist2D`. -/
structure TTwist2D where
  vx : Int
  vy : Int
  omega : Int
deriving DecidableEq, Repr

/-- One timestamped sensor sample, as handed to `on_observation`. The last
three fields are those of `CObservationOdometry`, at their default values in
the other kinds of observation. -/
structure Observation where
  sensorLabel : String
  timestamp : Time
  kind : ObsKind
  sensorPose : CPose3D
  payload : List Int
  odometry : CPose2D := ⟨0, 0, 0⟩
  hasVelocities : Bool := false
  velocityLocal : TTwist2D := ⟨0, 0, 0⟩
deriving DecidableEq, Repr

/-- One layer of a metric map; only its identity matters here. -/
abbrev MapLayer := Nat

/-- A multi-layer metric map (`mrpt::maps::CMultiMetricMap`): its layers in order. -/
structure CMultiMetricMap where
  maps : List MapLayer
deriving DecidableEq, Repr

/-- Filter state of the localization core. -/
inductive State where
  | UNINITIALIZED
  | TO_BE_INITIALIZED
  | RUNNING
deriving DecidableEq, Repr

/-- Position of a state along UNINITIALIZED -> TO_BE_INITIALIZED -> RUNNING. -/
def State.rank : State → Nat
  | .UNINITIALIZED => 0
  | .TO_BE_INITIALIZED => 1
  | .RUNNING => 2

/-- Parameters of the core read by the tests (`getParams()`), plus the fusion window. -/
structure Parameters where
  initial_particles_per_m2 : Nat
  gui_enable : Bool
  time_window : Time
deriving DecidableEq, Repr

/-! ## Observation buffer

`TListObservations` is `std::multimap<double, TInfoPerTimeStep>`
(`mrpt_local_obstacles_node.hpp`): a sequence kept sorted by key in which an
inserted entry goes after the entries whose key is not larger. -/

/-- The history of observations, oldest first. -/
abbrev TListObservations := List Observation

/-- Modelled from the spec: the buffer operation `push` (the code that inserts
into `m_hist_obs` is not among the sources). It is `std::multimap::insert`:
the observation goes after every stored one whose timestamp is not larger, so
equal timestamps keep their insertion order and nothing is deduplicated. -/
def push (o : Observation) : TListObservations → TListObservations
  | [] => [o]
  | x :: xs => if x.timestamp ≤ o.timestamp then x :: push o xs else o :: x :: xs

/-- Modelled from the spec: the window test of a fusion step at `now`, the
timestamps within `[now - window, now]`. -/
def inWindow (now window : Time) (o : Observation) : Bool :=
  decide (now - window ≤ o.timestamp ∧ o.timestamp ≤ now)

/-- Modelled from the spec: an observation stamped later than `now`. -/
def stampedLater (now : Time) (o : Observation) : Bool := decide (now < o.timestamp)

/-- Modelled from the spec: the buffer operation `drain_window(now, window)`
(the code that purges and reads `m_hist_obs` is not among the sources). It
returns, oldest first, the observations of the window `[now - window, now]`
and evicts everything older than `now - window`; the returned observations
are consumed, they leave the buffer too. An observation stamped later than
`now` is neither stale nor in the window: it stays. The first component is
the returned sequence, the second the buffer that remains. -/
def drain_window (now window : Time) (b : TListObservations) :
    List Observation × TListObservations :=
  (b.filter (inWindow now window), b.filter (stampedLater now))

/-! ## Localization core

`PFLocalizationCore` is declared in `mrpt_pf_localization_core.h`, which is not
among the sources; only its callers and its tests are. -/

/-- Modelled from the spec: the state held by `PFLocalizationCore` (its
declaration is not among the sources): the filter state, the installed map,
the armed transition to TO_BE_INITIALIZED, the pose hint of the last
relocalization request, the loaded parameters, the observation buffer, the
seeding of the filter (`none`: never seeded; `some h`: seeded with hint `h`,
or with the map-covering prior when `h` is `none`), the number of filter
updates since the last seeding and the observations fused by the last update. -/
structure PFLocalizationCore where
  fsm_state : State
  metric_map : Option CMultiMetricMap
  pending_init : Bool
  pose_hint : Option CPose3D
  params : Option Parameters
  buffer : TListObservations
  seeded : Option (Option CPose3D)
  num_updates : Nat
  last_fused : List Observation
deriving DecidableEq, Repr

namespace PFLocalizationCore

/-- Modelled from the spec: a freshly constructed core (the constructor is not
among the sources): UNINITIALIZED, no map, nothing armed, empty buffer. -/
def fresh : PFLocalizationCore :=
  { fsm_state := .UNINITIALIZED, metric_map := none, pending_init := false,
    pose_hint := none, params := none, buffer := [], seeded := none,
    num_updates := 0, last_fused := [] }

/-- Modelled from the spec: `getState()` (not among the sources). -/
def getState (c : PFLocalizationCore) : State := c.fsm_state

/-- Modelled from the spec: `init_from_yaml` (not among the sources) loads the
configuration record; it touches neither the state nor the map. -/
def init_from_yaml (p : Parameters) (c : PFLocalizationCore) : PFLocalizationCore :=
  { c with params := some p }

/-- The fusion window in force: the configured one, or the default 0.20 s
(`m_time_window`, 200 ticks of a millisecond) when no configuration is loaded. -/
def window (c : PFLocalizationCore) : Time :=
  match c.params with
  | some p => p.time_window
  | none => 200

/-- Modelled from the spec: `on_observation` (not among the sources) pushes the
observation into the buffer and does nothing else. -/
def on_observation (o : Observation) (c : PFLocalizationCore) : PFLocalizationCore :=
  { c with buffer := push o c.buffer }

/-- Modelled from the spec: installing a validated map (`set_map`, not among
the sources): the map is stored and, if the state was UNINITIALIZED, the
transition to TO_BE_INITIALIZED is armed; it is applied by the next `step`. -/
def install_map (m : CMultiMetricMap) (c : PFLocalizationCore) : PFLocalizationCore :=
  { c with metric_map := some m,
           pending_init := c.pending_init || decide (c.fsm_state = .UNINITIALIZED) }

/-- Modelled from the spec: `set_map_from_metric_map` (not among the sources).
The gateway validates non-null and non-empty before installing; an object that
fails the validation leaves the core as it was. -/
def set_map_from_metric_map (m : Option CMultiMetricMap) (c : PFLocalizationCore) :
    PFLocalizationCore :=
  match m with
  | none => c
  | some mm => if mm.maps.isEmpty then c else install_map mm c

/-- Modelled from the spec: `set_map_from_simple_map(config_path, map_path)`
(not among the sources). `load` stands for reading the two files; a load error
is reported through the boolean and leaves the core as it was. -/
def set_map_from_simple_map (load : String → String → Option CMultiMetricMap)
    (config_path map_path : String) (c : PFLocalizationCore) :
    Bool × PFLocalizationCore :=
  match load config_path map_path with
  | none => (false, c)
  | some mm => if mm.maps.isEmpty then (false, c) else (true, install_map mm c)

/-- Modelled from the spec: `relocalize_here(pose)` (not among the sources): if
a map is present, the transition back to TO_BE_INITIALIZED is armed whatever
the current state, and the pose is kept as the hint for the seeding; the state
itself changes only at the next `step`. Without a map nothing is armed. -/
def relocalize_here (p : CPose3D) (c : PFLocalizationCore) : PFLocalizationCore :=
  match c.metric_map with
  | some _ => { c with pending_init := true, pose_hint := some p }
  | none => c

/-- Modelled from the spec: one fusion, the part of `step` that runs when the
filter is seeded: drain the buffer for the configured window and fold the
drained observations, in order, into one filter update. -/
def fuse (now : Time) (c : PFLocalizationCore) : PFLocalizationCore :=
  let d := drain_window now c.window c.buffer
  { c with fsm_state := .RUNNING, buffer := d.2, last_fused := d.1,
           num_updates := c.num_updates + 1 }

/-- Modelled from the spec: `step()` (not among the sources), run at clock
reading `now`. An armed transition is applied first: the state becomes
TO_BE_INITIALIZED, the filter is seeded (with the pose hint if one was given),
the accumulated hypothesis is discarded and nothing is fused in this call.
Otherwise a core that is TO_BE_INITIALIZED or RUNNING fuses and is RUNNING
afterwards, and an UNINITIALIZED core is left unchanged. -/
def step (now : Time) (c : PFLocalizationCore) : PFLocalizationCore :=
  if c.pending_init then
    { c with fsm_state := .TO_BE_INITIALIZED, pending_init := false,
             seeded := some c.pose_hint, pose_hint := none, num_updates := 0,
             last_fused := [] }
  else
    match c.fsm_state with
    | .UNINITIALIZED => c
    | .TO_BE_INITIALIZED => fuse now c
    | .RUNNING => fuse now c

/-- Handing a sequence of observations to the core, first to last. -/
def on_observations (os : List Observation) (c : PFLocalizationCore) : PFLocalizationCore :=
  os.foldl (fun acc o => on_observation o acc) c

/-- Calling `step()` `n` times in a row, the `i`-th call (from 0) at clock
reading `clock i`. -/
def stepN (clock : Nat → Time) : Nat → PFLocalizationCore → PFLocalizationCore
  | 0, c => c
  | n + 1, c => step (clock n) (stepN clock n c)

end PFLocalizationCore

open PFLocalizationCore

/-! ### Observation buffer and fusion window -/

/-- An example observation: an odometry sample stamped `t`. -/
def odometryAt (t : Time) : Observation :=
  { sensorLabel := "odom", timestamp := t, kind := .ODOMETRY,
    sensorPose := CPose3D.identity, payload := [] }

/-- An example core: fresh, a one-layer map installed, stepped twice. -/
def runningCore : PFLocalizationCore :=
  step 0 (step 0 (set_map_from_metric_map (some ⟨[7]⟩) fresh))

/-! ## Transform lookup

`tf2_ros::Buffer::lookupTransform` and the pose conversions are library code;
the lookup is a parameter of the embedding. -/

/-- What a call may throw: a `tf2::TransformException`, or anything else. -/
inductive Thrown where
  | TransformException (what : String)
  | other (what : String)
deriving DecidableEq, Repr

/-- The `transform` field of a `geometry_msgs::msg::TransformStamped`:
a translation and a rotation quaternion. -/
structure Transform where
  tx : Int
  ty : Int
  tz : Int
  qx : Int
  qy : Int
  qz : Int
  qw : Int
deriving DecidableEq, Repr

/-- The transform buffer: `lookupTransform target source timeout` (the time is
always `tf2::TimePointZero`), the timeout in nanoseconds. -/
structure TfBuffer where
  lookupTransform : String → String → Int → Except Thrown Transform

/-- Severity of a log line. -/
inductive LogLevel where
  | DEBUG
  | INFO
  | WARN
  | ERROR
deriving DecidableEq, Repr

/-- One line written to the ROS logger. -/
structure LogEntry where
  level : LogLevel
  text : String
deriving DecidableEq, Repr

/-- Conversion of a C++ `int` expression to its 32-bit two's-complement value. -/
def toInt32 (v : Int) : Int := (v + 2 ^ 31) % 2 ^ 32 - 2 ^ 31

/-- Conversion to `uint32_t`. -/
def toUInt32 (v : Int) : Int := v % 2 ^ 32

/-- Total nanoseconds of `rclcpp::Duration(int32_t seconds, uint32_t nanoseconds)`. -/
def rclcppDuration (seconds nanoseconds : Int) : Int :=
  toInt32 seconds * 1000000000 + toUInt32 nanoseconds

/-- The timeout, in nanoseconds, that `waitForTransform` hands to
`lookupTransform`: `rclcpp::Duration timeout(0, 1000 * timeoutMilliseconds)`,
then `tf2::durationFromSec(timeout.seconds())`. The product is an `int`; the
passage through `double` seconds and back rounds to the nearest nanosecond and
is exact for a duration below 2^32 ns, so it is the identity here. -/
def waitForTransformTimeout (timeoutMilliseconds : Int) : Int :=
  rclcppDuration 0 (toInt32 (1000 * timeoutMilliseconds))

/-- What `waitForTransform` leaves behind when it returns: the returned flag,
the value of the output argument `des`, the lines logged. -/
structure WaitResult where
  ret : Bool
  des : CPose3D
  logs : List LogEntry
deriving DecidableEq, Repr

/-! ## Particle-filter localization node -/

/-- The node parameters the embedded functions read. -/
structure NodeParameters where
  publish_particles_decimation : Int
  base_footprint_frame_id : String
  topic_sensors_2d_scan : String
  topic_sensors_point_clouds : String
  rate_hz : ℚ
deriving DecidableEq, Repr

/-- A call made on the core object `core_`. -/
inductive CoreCall where
  | step
  | on_observation (o : Observation)
  | set_map_from_metric_map (m : CMultiMetricMap)
  | relocalize_here (p : CPose3D)
deriving DecidableEq, Repr

/-- A publishing member function of the node. -/
inductive Publisher where
  | publishParticles
  | publishTF
  | publishPose
deriving DecidableEq, Repr

/-- The node: the core, the parameters, the loop counter, and as ghost state
the calls made on the core, the publishing functions invoked, the messages
sent (by the function that sent them) and the log, each in program order. -/
structure PFLocalizationNode where
  core_ : PFLocalizationCore
  nodeParams_ : NodeParameters
  loopCount_ : Nat
  coreCalls : List CoreCall
  invoked : List Publisher
  sent : List Publisher
  logs : List LogEntry
deriving DecidableEq, Repr

/-- A `sensor_msgs::msg::LaserScan`: header frame and stamp, and the ranges. -/
structure LaserScan where
  frame_id : String
  stamp : Time
  ranges : List Int
deriving DecidableEq, Repr

/-- A `sensor_msgs::msg::PointCloud2`: header frame and stamp, and the points. -/
structure PointCloud2 where
  frame_id : String
  stamp : Time
  points : List Int
deriving DecidableEq, Repr

/-- The object that `OctetVectorToObject` hands back in `callbackMap`: a
`mp2p_icp::metric_map_t` with its named layers in key order, or an object of
another class. -/
inductive CSerializable where
  | metric_map_t (layers : List (String × MapLayer))
  | otherClass (className : String)
deriving DecidableEq, Repr

namespace PFLocalizationNode

/-- A node right after construction, around a fresh core. -/
def create (params : NodeParameters) : PFLocalizationNode :=
  { core_ := PFLocalizationCore.fresh, nodeParams_ := params, loopCount_ := 0,
    coreCalls := [], invoked := [], sent := [], logs := [] }

/-- Writing one line to the logger. -/
def log (level : LogLevel) (text : String) (n : PFLocalizationNode) : PFLocalizationNode :=
  { n with logs := n.logs ++ [⟨level, text⟩] }

/-- The function `PFLocalizationNode::waitForTransform`. `fromROS` is the
conversion of the looked-up transform to a pose; `des` is the value of the
output argument on entry. A `tf2::TransformException` is caught, logged and
answered with false; any other exception leaves the function. -/
def waitForTransform (tf : TfBuffer) (fromROS : Transform → CPose3D) (des : CPose3D)
    (target_frame source_frame : String) (timeoutMilliseconds : Int) :
    Except Thrown WaitResult :=
  match tf.lookupTransform target_frame source_frame
      (waitForTransformTimeout timeoutMilliseconds) with
  | .ok ref_to_trgFrame =>
    .ok { ret := true, des := fromROS ref_to_trgFrame,
          logs := [⟨.DEBUG, "[waitForTransform] Found pose"⟩] }
  | .error (.TransformException what) =>
    .ok { ret := false, des := des, logs := [⟨.ERROR, what⟩] }
  | .error e => .error e

/-- The bridge function `mrpt::ros2bridge::fromROS(msg, sensorPose, obs)` for laser scans. -/
def laserFromROS (msg : LaserScan) (sensorPose : CPose3D) : Observation :=
  { sensorLabel := "", timestamp := msg.stamp, kind := .LASER_SCAN,
    sensorPose := sensorPose, payload := msg.ranges }

/-- The function `PFLocalizationNode::callbackLaser`. `timeoutMilliseconds` is
the default argument of `waitForTransform` (declared in the header). The flag
returned by `waitForTransform` is not looked at. -/
def callbackLaser (tf : TfBuffer) (fromROS : Transform → CPose3D)
    (timeoutMilliseconds : Int) (msg : LaserScan) (topicName : String)
    (n : PFLocalizationNode) : Except Thrown PFLocalizationNode :=
  let n1 := log .DEBUG ("Received 2D scan (" ++ topicName ++ ")") n
  match waitForTransform tf fromROS CPose3D.identity msg.frame_id
      n1.nodeParams_.base_footprint_frame_id timeoutMilliseconds with
  | .error e => .error e
  | .ok r =>
    let obs := { laserFromROS msg r.des with sensorLabel := topicName }
    .ok { n1 with logs := n1.logs ++ r.logs,
                  core_ := PFLocalizationCore.on_observation obs n1.core_,
                  coreCalls := n1.coreCalls ++ [.on_observation obs] }

/-- The point-cloud observation built in `callbackPointCloud`: a default
`CObservationPointCloud`, stamped with the time `created` of its construction,
whose points are those of the message (`fromROS(msg, *pts)`) and whose label
is the topic name. -/
def pointCloudObs (created : Time) (msg : PointCloud2) (topicName : String) : Observation :=
  { sensorLabel := topicName, timestamp := created, kind := .POINT_CLOUD,
    sensorPose := CPose3D.identity, payload := msg.points }

/-- The function `PFLocalizationNode::callbackPointCloud`. The looked-up
`sensorPose` and the flag returned by `waitForTransform` are not used. -/
def callbackPointCloud (tf : TfBuffer) (fromROS : Transform → CPose3D)
    (timeoutMilliseconds : Int) (created : Time) (msg : PointCloud2) (topicName : String)
    (n : PFLocalizationNode) : Except Thrown PFLocalizationNode :=
  let n1 := log .DEBUG ("Received point cloud (" ++ topicName ++ ")") n
  match waitForTransform tf fromROS CPose3D.identity msg.frame_id
      n1.nodeParams_.base_footprint_frame_id timeoutMilliseconds with
  | .error e => .error e
  | .ok r =>
    let obs := pointCloudObs created msg topicName
    .ok { n1 with logs := n1.logs ++ r.logs,
                  core_ := PFLocalizationCore.on_observation obs n1.core_,
                  coreCalls := n1.coreCalls ++ [.on_observation obs] }

/-- The function `PFLocalizationNode::callbackMap`, on the object `o` that
`OctetVectorToObject` produced (`none`: a null pointer). `ASSERT_(o)` and the
`ASSERTMSG_` on the cast throw; otherwise every layer is copied, in order,
into a new multi-metric map that is handed to the core. -/
def callbackMap (o : Option CSerializable) (n : PFLocalizationNode) :
    Except Thrown PFLocalizationNode :=
  let n1 := log .INFO "[callbackMap] Received a metric map via ROS topic" n
  match o with
  | none => .error (.other "Assert condition failed: o")
  | some (.otherClass className) =>
    .error (.other ("Expected incoming map of type mp2p_icp::metric_map_t but it is '"
      ++ className ++ "'"))
  | some (.metric_map_t layers) =>
    let n2 := log .INFO "[callbackMap] Map contents" n1
    let mMap : CMultiMetricMap := ⟨layers.map Prod.snd⟩
    .ok { n2 with core_ := PFLocalizationCore.set_map_from_metric_map (some mMap) n2.core_,
                  coreCalls := n2.coreCalls ++ [.set_map_from_metric_map mMap] }

/-- The function `PFLocalizationNode::publishParticles`: its body is compiled
out (`#if 0`), so an invocation sends nothing. -/
def publishParticles (n : PFLocalizationNode) : PFLocalizationNode :=
  { n with invoked := n.invoked ++ [.publishParticles] }

/-- The function `PFLocalizationNode::publishTF`: its body is compiled out. -/
def publishTF (n : PFLocalizationNode) : PFLocalizationNode :=
  { n with invoked := n.invoked ++ [.publishTF] }

/-- The function `PFLocalizationNode::publishPose`: its body is compiled out. -/
def publishPose (n : PFLocalizationNode) : PFLocalizationNode :=
  { n with invoked := n.invoked ++ [.publishPose] }

/-- The statement `core_.step()` of `loop`: the core steps, and the call is recorded. -/
def stepCore (now : Time) (n : PFLocalizationNode) : PFLocalizationNode :=
  { n with core_ := PFLocalizationCore.step now n.core_,
           coreCalls := n.coreCalls ++ [.step] }

/-- The function `PFLocalizationNode::loop`, run at clock reading `now`.
`isTimeFor` (declared in the header) is a query of the node and of the
decimation; `loopCountBits` is the width of the counter `loopCount_`. -/
def loop (isTimeFor : PFLocalizationNode → Int → Bool) (loopCountBits : Nat) (now : Time)
    (n : PFLocalizationNode) : PFLocalizationNode :=
  let n2 := stepCore now (log .DEBUG "loop" n)
  let n3 := if isTimeFor n2 n2.nodeParams_.publish_particles_decimation
            then publishParticles n2 else n2
  let n4 := publishTF n3
  let n5 := publishPose n4
  { n5 with loopCount_ := (n5.loopCount_ + 1) % 2 ^ loopCountBits }

/-- Invoking `loop` `k` times in a row, the `i`-th invocation (from 0) at clock
reading `clock i`. -/
def loopN (isTimeFor : PFLocalizationNode → Int → Bool) (loopCountBits : Nat)
    (clock : Nat → Time) : Nat → PFLocalizationNode → PFLocalizationNode
  | 0, n => n
  | k + 1, n => loop isTimeFor loopCountBits (clock k) (loopN isTimeFor loopCountBits clock k n)

end PFLocalizationNode

/-! ## Reactive navigation node -/

namespace ReactiveNav2DNode

/-- The function `ReactiveNav2DNode::waitForTransform`: the same text as in the
localization node, on the buffer `m_tf_buffer`. -/
def waitForTransform (tf : TfBuffer) (fromROS : Transform → CPose3D) (des : CPose3D)
    (target_frame source_frame : String) (timeoutMilliseconds : Int) :
    Except Thrown WaitResult :=
  match tf.lookupTransform target_frame source_frame
      (waitForTransformTimeout timeoutMilliseconds) with
  | .ok ref_to_trgFrame =>
    .ok { ret := true, des := fromROS ref_to_trgFrame,
          logs := [⟨.DEBUG, "[waitForTransform] Found pose"⟩] }
  | .error (.TransformException what) =>
    .ok { ret := false, des := des, logs := [⟨.ERROR, what⟩] }
  | .error e => .error e

end ReactiveNav2DNode

/-! ## Example inputs -/

/-- A transform buffer in which no frame is known: every lookup throws. -/
def emptyTfBuffer : TfBuffer :=
  { lookupTransform := fun _ _ _ => .error (.TransformException "frame does not exist") }

/-- A transform buffer that knows one transform, whatever the frames: every
lookup succeeds with it. -/
def constTfBuffer (tr : Transform) : TfBuffer :=
  { lookupTransform := fun _ _ _ => .ok tr }

/-- An example conversion of a transform to a pose: the translation is copied,
the yaw is read off the `qz` component. -/
def translationOnly (tr : Transform) : CPose3D :=
  { x := tr.tx, y := tr.ty, z := tr.tz, yaw := tr.qz, pitch := 0, roll := 0 }

/-- Example node parameters. -/
def exampleParams : NodeParameters :=
  { publish_particles_decimation := 1, base_footprint_frame_id := "base_footprint",
    topic_sensors_2d_scan := "scan, laser1", topic_sensors_point_clouds := "",
    rate_hz := 10 }

/-- An example decimation test: every `decimation`-th loop. -/
def everyNth (n : PFLocalizationNode) (decimation : Int) : Bool :=
  decide ((n.loopCount_ : Int) % decimation = 0)

/-- A transform buffer that answers every lookup with a transform whose `tx`
is the timeout it was handed. -/
def echoTfBuffer : TfBuffer :=
  { lookupTransform := fun _ _ timeout => .ok ⟨timeout, 0, 0, 0, 0, 0, 0⟩ }

/-- The calls on the core recorded by a callback that returned. -/
def callsOf (r : Except Thrown PFLocalizationNode) : Option (List CoreCall) :=
  match r with
  | .ok n => some n.coreCalls
  | .error _ => none

/-- An example laser scan in frame `laser`. -/
def exampleScan : LaserScan := { frame_id := "laser", stamp := 120, ranges := [10, 20, 30] }

/-- An example point cloud in frame `lidar`. -/
def exampleCloud : PointCloud2 := { frame_id := "lidar", stamp := 130, points := [1, 2, 3] }

/-- An example node whose core is RUNNING. -/
def runningNode : PFLocalizationNode :=
  { PFLocalizationNode.create exampleParams with core_ := runningCore }

/-! ## Odometry callback and log level -/

/-- A `geometry_msgs::msg::Pose`: a position and an orientation quaternion. -/
structure PoseMsg where
  px : Int
  py : Int
  pz : Int
  qx : Int
  qy : Int
  qz : Int
  qw : Int
deriving DecidableEq, Repr

/-- A `nav_msgs::msg::Odometry`: the header stamp, `pose.pose`, and the three
components of `twist.twist` that the callback reads. -/
structure OdometryMsg where
  stamp : Time
  pose : PoseMsg
  twist_linear_x : Int
  twist_linear_y : Int
  twist_angular_z : Int
deriving DecidableEq, Repr

/-- The function `PFLocalizationNode::callbackOdometry`. `fromROS` is the bridge
conversion of a ROS pose to a `CPose3D`; no transform buffer is involved. -/
def PFLocalizationNode.callbackOdometry (fromROS : PoseMsg → CPose3D) (msg : OdometryMsg)
    (n : PFLocalizationNode) : PFLocalizationNode :=
  let obs : Observation :=
    { sensorLabel := "odom", timestamp := msg.stamp, kind := .ODOMETRY,
      sensorPose := CPose3D.identity, payload := [],
      hasVelocities := true,
      velocityLocal := ⟨msg.twist_linear_x, msg.twist_linear_y, msg.twist_angular_z⟩,
      odometry := CPose2D.ofCPose3D (fromROS msg.pose) }
  { n with core_ := PFLocalizationCore.on_observation obs n.core_,
           coreCalls := n.coreCalls ++ [.on_observation obs] }

/-- The verbosity levels of `mrpt::system::COutputLogger`. -/
inductive VerbosityLevel where
  | LVL_DEBUG
  | LVL_INFO
  | LVL_WARN
  | LVL_ERROR
deriving DecidableEq, Repr

/-- The numeric value of a verbosity level. -/
def VerbosityLevel.toNat : VerbosityLevel → Nat
  | .LVL_DEBUG => 0
  | .LVL_INFO => 1
  | .LVL_WARN => 2
  | .LVL_ERROR => 3

/-- The function `PFLocalizationNode::useROSLogLevel`: from the ROS logger level
`rosLogLevel` and the core's current minimum logging level, the level handed
to `core_.setVerbosityLevel`. The thresholds are `RCUTILS_LOG_SEVERITY_DEBUG`
(10), `_INFO` (20), `_WARN` (30) and `_ERROR` (40). -/
def PFLocalizationNode.useROSLogLevel (rosLogLevel : Int)
    (minLoggingLevel : VerbosityLevel) : VerbosityLevel :=
  if rosLogLevel ≤ 10 then .LVL_DEBUG
  else if rosLogLevel ≤ 20 then .LVL_INFO
  else if rosLogLevel ≤ 30 then .LVL_WARN
  else if rosLogLevel ≤ 40 then .LVL_ERROR
  else minLoggingLevel

/-- An example conversion of a ROS pose: the position is copied, the yaw is read
off the `qz` component. -/
def positionOnly (p : PoseMsg) : CPose3D :=
  { x := p.px, y := p.py, z := p.pz, yaw := p.qz, pitch := 0, roll := 0 }

/-! ## Topic lists

`mrpt::system::tokenize` is library code; it is embedded as its loop over the
characters of the string, with `skipBlankTokens` at its default (true). -/

/-- The delimiters `" ,\t\n"` handed to `tokenize`: space, comma, tab, newline. -/
def isDelimiter (c : Char) : Bool :=
  c == Char.ofNat 32 || c == Char.ofNat 44 || c == Char.ofNat 9 || c == Char.ofNat 10

/-- The loop of `mrpt::system::tokenize` over the characters still to read, with
the token under construction and whether the previous character was a
delimiter; the end of the string counts as a delimiter. A delimiter closes a
token unless it follows another delimiter (or starts the string). -/
def tokenizeLoop (isDelim : Char → Bool) : List Char → List Char → Bool → List (List Char)
  | [], cur_token, prev_was_delim => if prev_was_delim then [] else [cur_token]
  | c :: rest, cur_token, prev_was_delim =>
    if isDelim c then
      if prev_was_delim then tokenizeLoop isDelim rest [] true
      else cur_token :: tokenizeLoop isDelim rest [] true
    else tokenizeLoop isDelim rest (cur_token ++ [c]) false

/-- The call `mrpt::system::tokenize(inString, " ,\t\n", outTokens)`. -/
def tokenize (inString : String) : List String :=
  (tokenizeLoop isDelimiter inString.toList [] true).map String.mk

/-- The non-empty tokens obtained by splitting a string on space, comma, tab and
newline: the string is cut at every delimiter and the empty pieces are left out. -/
def nonEmptyTokens (s : String) : List String :=
  ((s.toList.splitOnP isDelimiter).filter (fun t => !t.isEmpty)).map String.mk

/-- What `subscribe_to_multiple_topics` leaves behind: the returned count, the
vector `subscriptions` (each subscription stands as the topic it is on) and
the lines logged. -/
structure SubscribeResult where
  ret : Nat
  subscriptions : List String
  logs : List LogEntry
deriving DecidableEq, Repr

/-- The function `LocalObstaclesNode::subscribe_to_multiple_topics`, on the topic
list and the vector `subscriptions` as it is on entry. -/
def LocalObstaclesNode.subscribe_to_multiple_topics (lstTopics : String)
    (subscriptions : List String) : SubscribeResult :=
  let lstSources := tokenize lstTopics
  if lstSources.isEmpty then
    { ret := 0, subscriptions := subscriptions,
      logs := [⟨.ERROR, "List of topics is empty."⟩] }
  else
    let r := lstSources.foldl
      (fun (acc : List String × Nat) source => (acc.1 ++ [source], acc.2 + 1))
      (subscriptions, 0)
    { ret := r.2, subscriptions := r.1, logs := [] }

/-- The sensor subscriptions made by the constructor of the localization node,
each standing as the topic it is on. -/
structure SensorSubscriptions where
  subs_2dlaser_ : List String
  subs_point_clouds_ : List String
  numSensors : Nat
deriving DecidableEq, Repr

/-- One of the two loops of the constructor over the tokens of a topic list:
each topic adds one to `numSensors` and one subscription to the vector
(`create_subscription` is library code and is taken to return). -/
def subscribeEach (sources : List String) (subs : List String) (numSensors : Nat) :
    List String × Nat :=
  sources.foldl (fun (acc : List String × Nat) topic => (acc.1 ++ [topic], acc.2 + 1))
    (subs, numSensors)

/-- The message of the assertion on the number of sensors. -/
def noSensorMessage : String :=
  "At least one sensor input source must be defined! Refer to the package documentation."

/-- The constructor `PFLocalizationNode::PFLocalizationNode`, from the loaded
node parameters: the part that subscribes to the sensor topics and asserts
that there is at least one. -/
def PFLocalizationNode.construct (nodeParams_ : NodeParameters) :
    Except Thrown SensorSubscriptions :=
  let lasers := subscribeEach (tokenize nodeParams_.topic_sensors_2d_scan) [] 0
  let clouds := subscribeEach (tokenize nodeParams_.topic_sensors_point_clouds) [] lasers.2
  if clouds.2 > 0 then
    .ok { subs_2dlaser_ := lasers.1, subs_point_clouds_ := clouds.1, numSensors := clouds.2 }
  else .error (.other noSensorMessage)

/-! ## Stepping timer -/

/-- The C function `lrint` in the default rounding mode: the nearest integer,
a tie going to the even one. -/
def lrint (q : ℚ) : Int :=
  if q - ⌊q⌋ < 1 / 2 then ⌊q⌋
  else if 1 / 2 < q - ⌊q⌋ then ⌊q⌋ + 1
  else if ⌊q⌋ % 2 = 0 then ⌊q⌋ else ⌊q⌋ + 1

/-- The library function `mrpt::round`, which returns an `int`: the nearest
integer, converted to 32 bits. -/
def mrptRound (q : ℚ) : Int := toInt32 (lrint q)

/-- The exponent of the binade of a non-zero number: `2 ^ e <= |q| < 2 ^ (e + 1)`. -/
def binade (q : ℚ) : Int := Int.log 2 |q|

/-- The spacing of the binary64 numbers around a number: 53 significant bits,
and the spacing of the subnormal numbers below `2 ^ (-1022)`. -/
def ulp64 (q : ℚ) : ℚ := 2 ^ (max (binade q) (-1022) - 52)

/-- The rounding of an exact result to `double` in the default rounding mode,
for a number within the finite range of binary64: the nearest binary64 number,
the one of even significand when two are as near. -/
def toFloat64 (q : ℚ) : ℚ :=
  if q = 0 then 0 else (lrint (q / ulp64 q) : ℚ) * ulp64 q

/-- The period of the timer created by the constructor, in microseconds:
`std::chrono::microseconds(mrpt::round(1.0e6 / nodeParams_.rate_hz))`. The
rate is a `double`, and so is the quotient: the `double` nearest to the exact
quotient is what `mrpt::round` gets. -/
def PFLocalizationNode.timerPeriodMicroseconds (rate_hz : ℚ) : Int :=
  mrptRound (toFloat64 (1000000 / rate_hz))

/-- The `double` that the text `0.0001` is read as. -/
def oneTenThousandth : ℚ := 7378697629483821 / 73786976294838206464

/-- The `double` 2.5000031250039063. -/
def rateNearTie : ℚ := 2814753285548167 / 1125899906842624

/-! ## Reactive navigation node: construction -/

/-- The members that `read_parameters` sets and the constructor reads. -/
structure ReactiveNavParameters where
  m_cfg_file_reactive : String
  m_nav_period : Int
  m_save_nav_log : Bool
  m_sub_topic_robot_shape : String
  m_pub_topic_cmd_vel : String
  m_sub_topic_odometry : String
  m_sub_topic_wp_seq : String
  m_sub_topic_reactive_nav_goal : String
  m_sub_topic_local_obstacles : String
deriving DecidableEq, Repr

/-- What the constructor gets out of a configuration file: whether loading it
into the engine throws (`some what`), and the entries of section
`CReactiveNavigationSystem` it reads, absent ones at their defaults (empty
vectors, radius -1). -/
structure ReactiveConfigFile where
  loadError : Option String
  RobotModel_shape2D_xs : List Int
  RobotModel_shape2D_ys : List Int
  RobotModel_circular_shape_radius : Int
deriving DecidableEq, Repr

/-- The files the constructor can see. -/
structure FileSystem where
  fileExists : String → Bool
  configFile : String → ReactiveConfigFile

/-- An effect of the constructor on ROS or on the navigation engine. -/
inductive NavEffect where
  | enableLogFile (enable : Bool)
  | loadConfigFile (file : String)
  | create_subscription (topic : String)
  | create_publisher (topic : String)
  | create_wall_timer (period : Int)
  | spin_some
  | changeRobotShape (poly : List (Int × Int))
  | changeRobotCircularShapeRadius (radius : Int)
deriving DecidableEq, Repr

/-- How a constructor run ends: it completes, an exception leaves it, the
process is ended by `std::terminate` (a `throw;` executed while no exception
is being handled), an `assert` aborts, or an index is out of bounds. -/
inductive Ending where
  | completed
  | exception (what : String)
  | terminate
  | assertAbort
  | outOfBounds
deriving DecidableEq, Repr

/-- One run of a constructor: its effects and log lines in order, and its ending. -/
structure Construction where
  effects : List NavEffect
  logs : List LogEntry
  ending : Ending
deriving DecidableEq, Repr

namespace ReactiveNav2DNode

/-- The loop filling the polygon: vertex `i` is `(xs[i], ys[i])` for `i` below
`xs.size()`; `none` when an index is out of bounds. -/
def shapePolygon (xs ys : List Int) : Option (List (Int × Int)) :=
  (List.range xs.length).mapM (fun i =>
    match xs[i]?, ys[i]? with
    | some x, some y => some (x, y)
    | _, _ => none)

/-- The end of the constructor: the publisher, the four subscriptions and the
timer. -/
def createEndpoints (p : ReactiveNavParameters) : List NavEffect :=
  [.create_publisher p.m_pub_topic_cmd_vel,
   .create_subscription p.m_sub_topic_odometry,
   .create_subscription p.m_sub_topic_wp_seq,
   .create_subscription p.m_sub_topic_reactive_nav_goal,
   .create_subscription p.m_sub_topic_local_obstacles,
   .create_wall_timer p.m_nav_period]

/-- The part of the constructor that loads the robot shape when no shape topic
is configured: the polygon, then the circle. -/
def loadRobotShape (cfg : ReactiveConfigFile) : Construction :=
  if cfg.RobotModel_shape2D_xs.length ≠ cfg.RobotModel_shape2D_ys.length then
    { effects := [], logs := [],
      ending := .exception
        "Config parameters RobotModel_shape2D_xs and RobotModel_shape2D_ys must have the same length!" }
  else
    match shapePolygon cfg.RobotModel_shape2D_xs cfg.RobotModel_shape2D_ys with
    | none => { effects := [], logs := [], ending := .outOfBounds }
    | some poly =>
      let polygon : List NavEffect :=
        if cfg.RobotModel_shape2D_xs.isEmpty then [] else [.changeRobotShape poly]
      let circle : List NavEffect :=
        if cfg.RobotModel_circular_shape_radius > 0
        then [.changeRobotCircularShapeRadius cfg.RobotModel_circular_shape_radius] else []
      { effects := polygon ++ circle, logs := [], ending := .completed }

/-- The constructor `ReactiveNav2DNode::ReactiveNav2DNode`, on the members read
by `read_parameters`. `ndebug` says whether `assert` is compiled out. The two
`throw;` statements after the checks of `cfg_file_reactive` are executed
outside any handler; the one in the `catch` block rethrows. The shape that may
arrive on the topic during the three seconds of waiting is not followed. -/
def construct (ndebug : Bool) (fs : FileSystem) (p : ReactiveNavParameters) : Construction :=
  if !ndebug && !decide (p.m_nav_period > 0) then
    { effects := [], logs := [], ending := .assertAbort }
  else if p.m_cfg_file_reactive.isEmpty then
    { effects := [], logs := [⟨.ERROR, "Mandatory param 'cfg_file_reactive' is missing!"⟩],
      ending := .terminate }
  else if !fs.fileExists p.m_cfg_file_reactive then
    { effects := [],
      logs := [⟨.ERROR, "Config file not found: " ++ p.m_cfg_file_reactive⟩],
      ending := .terminate }
  else
    let cfg := fs.configFile p.m_cfg_file_reactive
    let started : List NavEffect :=
      [.enableLogFile p.m_save_nav_log, .loadConfigFile p.m_cfg_file_reactive]
    match cfg.loadError with
    | some what =>
      { effects := started,
        logs := [⟨.ERROR, "Exception initializing reactive navigation engine:\n" ++ what⟩],
        ending := .exception what }
    | none =>
      if !p.m_sub_topic_robot_shape.isEmpty then
        { effects := started ++
            [.create_subscription p.m_sub_topic_robot_shape, .spin_some, .spin_some,
             .spin_some] ++ createEndpoints p,
          logs := [⟨.INFO, "Params say robot shape will arrive via topic"⟩,
                   ⟨.INFO, "Wait done."⟩],
          ending := .completed }
      else
        let shape := loadRobotShape cfg
        match shape.ending with
        | .completed =>
          { effects := started ++ shape.effects ++ createEndpoints p, logs := [],
            ending := .completed }
        | e => { effects := started ++ shape.effects, logs := [], ending := e }

end ReactiveNav2DNode

/-- Whether an effect creates a publisher, a subscriber or a timer, or applies a
robot shape to the engine. -/
def NavEffect.createsOrShapes : NavEffect → Bool
  | .create_subscription _ => true
  | .create_publisher _ => true
  | .create_wall_timer _ => true
  | .changeRobotShape _ => true
  | .changeRobotCircularShapeRadius _ => true
  | _ => false

/-- Example parameters of the reactive node, with the configuration file name
left to choose. -/
def exampleNavParameters (cfg_file : String) : ReactiveNavParameters :=
  { m_cfg_file_reactive := cfg_file, m_nav_period := 100, m_save_nav_log := false,
    m_sub_topic_robot_shape := "", m_pub_topic_cmd_vel := "cmd_vel",
    m_sub_topic_odometry := "odom", m_sub_topic_wp_seq := "reactive_nav_waypoints",
    m_sub_topic_reactive_nav_goal := "reactive_nav_goal",
    m_sub_topic_local_obstacles := "local_map_pointcloud" }

/-- An example file system: only `reactive2d_config.ini` exists; it loads, and
describes a square robot. -/
def exampleFileSystem : FileSystem :=
  { fileExists := fun f => f == "reactive2d_config.ini",
    configFile := fun _ =>
      { loadError := none, RobotModel_shape2D_xs := [-1, 1, 1, -1],
        RobotModel_shape2D_ys := [-1, -1, 1, 1], RobotModel_circular_shape_radius := -1 } }

/-! ## ROS parameters to a YAML block -/

/-- The value of a ROS parameter override (`rclcpp::ParameterValue`) by type:
the four types that `reload_params_from_ros` handles, and any other. -/
inductive ParameterValue where
  | PARAMETER_BOOL (b : Bool)
  | PARAMETER_DOUBLE (d : Int)
  | PARAMETER_INTEGER (i : Int)
  | PARAMETER_STRING (s : String)
  | otherType
deriving DecidableEq, Repr

/-- Whether the `switch` of `reload_params_from_ros` has a case for the type. -/
def ParameterValue.isHandled : ParameterValue → Bool
  | .otherType => false
  | _ => true

/-- A node of the YAML block (`mrpt::containers::yaml`): a scalar, or a map from
keys to nodes (a `std::map`, kept here as a list of entries in key order). -/
inductive Yaml where
  | scalar (v : ParameterValue)
  | map (entries : List (String × Yaml))

/-- The entries of a YAML map. -/
abbrev YamlMap := List (String × Yaml)

/-- The method `map_t::find`: the node stored under a key, if any. -/
def findKey (k : String) : YamlMap → Option Yaml
  | [] => none
  | (k1, y) :: rest => if k1 = k then some y else findKey k rest

/-- The assignment `map[k] = y` of a `std::map`: the node under `k` is replaced,
or a new entry is put at its place in key order (the order of `std::string`,
character by character). -/
def setKey (k : String) (y : Yaml) : YamlMap → YamlMap
  | [] => [(k, y)]
  | (k1, y1) :: rest =>
    if k1 = k then (k, y) :: rest
    else if k.toList < k1.toList then (k, y) :: (k1, y1) :: rest
    else (k1, y1) :: setKey k y rest

/-- The pieces of a name cut at every `.`, as characters: what the loop on
`name.find(".")` peels off as `parentKey`, one after the other, and the last
`name` that remains. -/
def splitDots : List Char → List (List Char)
  | [] => [[]]
  | c :: cs =>
    if c = '.' then [] :: splitDots cs
    else
      match splitDots cs with
      | [] => [[c]]
      | s :: ss => (c :: s) :: ss

/-- The segments `s1, ..., sk` of a parameter name `s1.s2...sk`. -/
def segments (name : String) : List String :=
  (splitDots name.toList).map String.mk

/-- One turn of the loop over the parameters in `reload_params_from_ros`, on the
segments of the name: walk down from the target map through the parent keys,
creating an empty map under a key that is not there and entering the map that
is there (`asMap()` throws if the node there is not a map), then store the
value under the last segment if its type is handled. -/
def assignAt : List String → ParameterValue → YamlMap → Except Thrown YamlMap
  | [], _, m => .ok m
  | [name], v, m => .ok (if v.isHandled then setKey name (.scalar v) m else m)
  | parentKey :: childKey :: more, v, m =>
    match findKey parentKey m with
    | none =>
      match assignAt (childKey :: more) v [] with
      | .ok sub => .ok (setKey parentKey (.map sub) m)
      | .error e => .error e
    | some (.map entries) =>
      match assignAt (childKey :: more) v entries with
      | .ok sub => .ok (setKey parentKey (.map sub) m)
      | .error e => .error e
    | some (.scalar _) => .error (.other "yaml: asMap() called on a node that is not a map")

/-- The loop of `reload_params_from_ros` over the overrides still to go, in
their order, on the block built so far. -/
def assignAll : List (String × ParameterValue) → YamlMap → Except Thrown YamlMap
  | [], m => .ok m
  | kv :: rest, m =>
    match assignAt (segments kv.1) kv.2 m with
    | .ok m1 => assignAll rest m1
    | .error e => .error e

/-- The YAML block that `reload_params_from_ros` builds from the parameter
overrides and passes to `core_.init_from_yaml`: it starts as an empty map. -/
def PFLocalizationNode.reload_params_from_ros (allParams : List (String × ParameterValue)) :
    Except Thrown YamlMap :=
  assignAll allParams []

/-- The node at the nested path `[s1][s2]...[sk]` of a block, if there is one. -/
def atPath : List String → YamlMap → Option Yaml
  | [], _ => none
  | [k], m => findKey k m
  | k :: k2 :: ks, m =>
    match findKey k m with
    | some (.map entries) => atPath (k2 :: ks) entries
    | _ => none

/-- Two names neither of which is a dotted prefix of the other (nor equal to it). -/
def unrelatedNames (a b : String) : Prop :=
  ¬ segments a <+: segments b ∧ ¬ segments b <+: segments a

/-- The path `[s1, ..., sk]` that a name `s1.s2...sk` stands for: the name cut
at every `.`, by the library function `List.splitOn`. -/
def dottedPath (name : String) : List String :=
  (name.toList.splitOn '.').map String.mk

/-- The name `s1.s2...sk` of a path `[s1, ..., sk]`: the pieces with a `.`
between two of them. -/
def dottedName (path : List String) : String :=
  String.mk (['.'].intercalate (path.map String.toList))

/-! ## Reactive navigation node: callbacks -/

/-- A waypoint handed to the engine (`mrpt::nav::TWaypoint`): the target, the
allowed distance, whether it may be skipped, and the target heading if set. -/
structure TWaypoint where
  target_x : Int
  target_y : Int
  allowed_distance : Int
  allow_skip : Bool
  target_heading : Option Int
deriving DecidableEq, Repr

/-- A call made on the navigation engine `m_reactive_nav_engine`; the first
constructor is the call of `initialize()`. -/
inductive EngineCall where
  | initializeEngine
  | navigationStep
  | navigate (target_x target_y targetAllowedDistance : Int) (targetIsRelative : Bool)
  | navigateWaypoints (waypoints : List TWaypoint)
deriving DecidableEq, Repr

/-- The reactive navigation node once constructed: the members the callbacks
read or write, and as ghost state the calls made on the engine and the log. -/
structure ReactiveNav2DNode where
  m_1st_time_init : Bool
  m_frameid_reference : String
  m_target_allowed_distance : Int
  engineCalls : List EngineCall
  logs : List LogEntry
deriving DecidableEq, Repr

/-- One waypoint of a `mrpt_msgs::msg::WaypointSequence`. -/
structure WaypointMsg where
  target : PoseMsg
  allowed_distance : Int
  allow_skip : Bool
  ignore_heading : Bool
deriving DecidableEq, Repr

/-- A `mrpt_msgs::msg::WaypointSequence`: the header frame and the waypoints. -/
structure WaypointSequenceMsg where
  frame_id : String
  waypoints : List WaypointMsg
deriving DecidableEq, Repr

/-- A `geometry_msgs::msg::PoseStamped`: the header frame and the pose. -/
structure PoseStampedMsg where
  frame_id : String
  pose : PoseMsg
deriving DecidableEq, Repr

/-- The pose library as the callbacks use it: the conversion of a looked-up
transform, the conversion of a ROS pose, the composition `a + b` of two poses,
and the accessor `yaw()`, whose `double` may be NaN (`none`). -/
structure PoseOps where
  ofTransform : Transform → CPose3D
  fromROS : PoseMsg → CPose3D
  compose : CPose3D → CPose3D → CPose3D
  yaw : CPose3D → Option Int

namespace ReactiveNav2DNode

/-- The node as the constructor leaves it: `m_1st_time_init(false)`, no call
made on the engine yet. -/
def constructed (frameid_reference : String) (target_allowed_distance : Int) :
    ReactiveNav2DNode :=
  { m_1st_time_init := false, m_frameid_reference := frameid_reference,
    m_target_allowed_distance := target_allowed_distance, engineCalls := [], logs := [] }

/-- The function `ReactiveNav2DNode::on_do_navigation`: the engine is
initialized the first time, then one navigation step is run. -/
def on_do_navigation (n : ReactiveNav2DNode) : ReactiveNav2DNode :=
  let n1 :=
    if !n.m_1st_time_init then
      { n with m_1st_time_init := true,
               logs := n.logs ++
                 [⟨.INFO, "[ReactiveNav2DNode] Initializing reactive navigation engine..."⟩,
                  ⟨.INFO, "[ReactiveNav2DNode] Reactive navigation engine init done!"⟩],
               engineCalls := n.engineCalls ++ [.initializeEngine] }
    else n
  { n1 with engineCalls := n1.engineCalls ++ [.navigationStep] }

/-- Invoking `on_do_navigation` `k` times in a row. -/
def on_do_navigation_times : Nat → ReactiveNav2DNode → ReactiveNav2DNode
  | 0, n => n
  | k + 1, n => on_do_navigation (on_do_navigation_times k n)

/-- The function `ReactiveNav2DNode::navigate_to`: one `navigate` command with
the target coordinates and the configured allowed distance. -/
def navigate_to (target : CPose2D) (n : ReactiveNav2DNode) : ReactiveNav2DNode :=
  { n with logs := n.logs ++ [⟨.INFO, "[navigateTo] Starting navigation"⟩],
           engineCalls := n.engineCalls ++
             [.navigate target.x target.y n.m_target_allowed_distance false] }

/-- The body of the loop of `update_waypoint_sequence`: the waypoint built from
one waypoint of the message, `relPose` being the pose of the message frame in
the reference frame. -/
def waypointOf (ops : PoseOps) (relPose : CPose3D) (wp : WaypointMsg) : TWaypoint :=
  let trg := ops.compose relPose (ops.fromROS wp.target)
  { target_x := trg.x, target_y := trg.y, allowed_distance := wp.allowed_distance,
    allow_skip := wp.allow_skip,
    target_heading := if (ops.yaw trg).isSome && !wp.ignore_heading then ops.yaw trg else none }

/-- The function `ReactiveNav2DNode::update_waypoint_sequence`. The flag returned
by `waitForTransform` is not looked at: when the lookup fails, `relPose` is
still the identity it was initialised with. -/
def update_waypoint_sequence (tf : TfBuffer) (ops : PoseOps) (timeoutMilliseconds : Int)
    (msg : WaypointSequenceMsg) (n : ReactiveNav2DNode) : Except Thrown ReactiveNav2DNode :=
  let looked : Except Thrown WaitResult :=
    if msg.frame_id ≠ n.m_frameid_reference then
      waitForTransform tf ops.ofTransform CPose3D.identity n.m_frameid_reference
        msg.frame_id timeoutMilliseconds
    else .ok { ret := true, des := CPose3D.identity, logs := [] }
  match looked with
  | .error e => .error e
  | .ok r =>
    let wps := msg.waypoints.map (waypointOf ops r.des)
    .ok { n with logs := n.logs ++ r.logs ++ [⟨.INFO, "New navigateWaypoints() command"⟩],
                 engineCalls := n.engineCalls ++ [.navigateWaypoints wps] }

/-- The function `ReactiveNav2DNode::on_goal_received`. The flag returned by
`waitForTransform` is not looked at; `relPose` is default-constructed. -/
def on_goal_received (tf : TfBuffer) (ops : PoseOps) (timeoutMilliseconds : Int)
    (trg : PoseStampedMsg) (n : ReactiveNav2DNode) : Except Thrown ReactiveNav2DNode :=
  let n1 := { n with logs := n.logs ++ [⟨.INFO, "Nav target received via topic sub"⟩] }
  let trgPose := ops.fromROS trg.pose
  if trg.frame_id ≠ n1.m_frameid_reference then
    match waitForTransform tf ops.ofTransform CPose3D.identity n1.m_frameid_reference
        trg.frame_id timeoutMilliseconds with
    | .error e => .error e
    | .ok r =>
      .ok (navigate_to (CPose2D.ofCPose3D (ops.compose r.des trgPose))
        { n1 with logs := n1.logs ++ r.logs })
  else .ok (navigate_to (CPose2D.ofCPose3D trgPose) n1)

end ReactiveNav2DNode

/-- An example pose library: positions are copied, the yaw is read off `qz`,
composition adds coordinate by coordinate, and a yaw of 999 stands for NaN. -/
def examplePoseOps : PoseOps :=
  { ofTransform := translationOnly, fromROS := positionOnly,
    compose := fun a b =>
      ⟨a.x + b.x, a.y + b.y, a.z + b.z, a.yaw + b.yaw, a.pitch + b.pitch, a.roll + b.roll⟩,
    yaw := fun p => if p.yaw = 999 then none else some p.yaw }

/-- An example waypoint sequence in frame `map`: three waypoints, the second
ignoring the heading, the third with a NaN yaw. -/
def exampleWaypoints : WaypointSequenceMsg :=
  { frame_id := "map",
    waypoints :=
      [{ target := ⟨1, 2, 0, 0, 0, 3, 0⟩, allowed_distance := 5, allow_skip := true,
         ignore_heading := false },
       { target := ⟨4, 5, 0, 0, 0, 6, 0⟩, allowed_distance := 7, allow_skip := false,
         ignore_heading := true },
       { target := ⟨8, 9, 0, 0, 0, 999, 0⟩, allowed_distance := 1, allow_skip := true,
         ignore_heading := false }] }

/-- A configuration whose two shape vectors differ in length, with a positive radius. -/
def mismatchedShapeFileSystem : FileSystem :=
  { fileExists := fun _ => true,
    configFile := fun _ =>
      { loadError := none, RobotModel_shape2D_xs := [1], RobotModel_shape2D_ys := [],
        RobotModel_circular_shape_radius := 1 } }

/-- An example goal in frame `odom`, at (7, 8). -/
def exampleGoal : PoseStampedMsg := { frame_id := "odom", pose := ⟨7, 8, 0, 0, 0, 1, 0⟩ }

/-- The example waypoint sequence, sent in frame `odom`. -/
def exampleWaypointsOdom : WaypointSequenceMsg :=
  { exampleWaypoints with frame_id := "odom" }

/-! ## TPS A* navigation node: maps and ticks

`main` calls `ros::spin()` with no handler around it, and nothing in the node
catches: an exception that leaves a callback ends the process. -/

/-- A `nav_msgs::OccupancyGrid`, by what `updateMap` takes from it: the points
of its occupied cells. -/
structure OccupancyGrid where
  points : List (Int × Int)
deriving DecidableEq, Repr

/-- A member function run under a `std::call_once`. -/
inductive OnceCall where
  | updateMap (map : OccupancyGrid)
  | initializeNavigator
deriving DecidableEq, Repr

/-- The node: the two `std::once_flag`s, the grid map, the obstacle source,
whether the process is still running, and as ghost state the functions
executed under `call_once`, in order. -/
structure TPS_Astar_Nav_Node where
  m_map_received_flag : Bool
  m_init_nav_flag : Bool
  m_grid_map : Option (List (Int × Int))
  m_obstacle_src : Option (List (Int × Int))
  running : Bool
  executed : List OnceCall
deriving DecidableEq, Repr

/-- What decides, outside the node, whether the two functions return: the GUI,
the parameter files, the planner. -/
structure TPSEnvironment where
  updateMapReturns : OccupancyGrid → Bool
  initializeNavigatorReturns : Bool

/-- A message or timer event delivered to the node by `ros::spin()`. -/
inductive TPSEvent where
  | map (msg : OccupancyGrid)
  | obstacles (pc : List (Int × Int))
  | timer
deriving DecidableEq, Repr

namespace TPS_Astar_Nav_Node

/-- The node as the constructor leaves it: both flags unset, no map, no
obstacle source. -/
def constructed : TPS_Astar_Nav_Node :=
  { m_map_received_flag := false, m_init_nav_flag := false, m_grid_map := none,
    m_obstacle_src := none, running := true, executed := [] }

/-- The function `TPS_Astar_Nav_Node::callbackMap`: `updateMap` under
`std::call_once`. With the flag set the call returns at once. Otherwise
`updateMap` runs: it stores the grid map, then opens the display and plans;
if it returns the flag is set, if it throws the flag stays unset and the
exception leaves the callback. -/
def callbackMap (env : TPSEnvironment) (map : OccupancyGrid) (n : TPS_Astar_Nav_Node) :
    TPS_Astar_Nav_Node :=
  if n.m_map_received_flag then n
  else
    let n1 := { n with m_grid_map := some map.points,
                       executed := n.executed ++ [OnceCall.updateMap map] }
    if env.updateMapReturns map then { n1 with m_map_received_flag := true }
    else { n1 with running := false }

/-- The function `TPS_Astar_Nav_Node::callbackObstacles` (`updateObstacles`): the
obstacle source is replaced by the received cloud. -/
def callbackObstacles (pc : List (Int × Int)) (n : TPS_Astar_Nav_Node) : TPS_Astar_Nav_Node :=
  { n with m_obstacle_src := some pc }

/-- The function `TPS_Astar_Nav_Node::onDoNavigation`: once an obstacle source is
there, `initializeNavigator` under `std::call_once`. -/
def onDoNavigation (env : TPSEnvironment) (n : TPS_Astar_Nav_Node) : TPS_Astar_Nav_Node :=
  match n.m_obstacle_src with
  | none => n
  | some _ =>
    if n.m_init_nav_flag then n
    else
      let n1 := { n with executed := n.executed ++ [OnceCall.initializeNavigator] }
      if env.initializeNavigatorReturns then { n1 with m_init_nav_flag := true }
      else { n1 with running := false }

/-- Delivery of one event by `ros::spin()`: nothing is delivered to a process
that has ended. -/
def deliver (env : TPSEnvironment) (n : TPS_Astar_Nav_Node) (e : TPSEvent) :
    TPS_Astar_Nav_Node :=
  if n.running then
    match e with
    | .map msg => callbackMap env msg n
    | .obstacles pc => callbackObstacles pc n
    | .timer => onDoNavigation env n
  else n

/-- Delivery of a sequence of events, first to last. -/
def run (env : TPSEnvironment) (events : List TPSEvent) (n : TPS_Astar_Nav_Node) :
    TPS_Astar_Nav_Node :=
  events.foldl (deliver env) n

end TPS_Astar_Nav_Node

/-- Whether an executed function is `updateMap`. -/
def OnceCall.isUpdateMap : OnceCall → Bool
  | .updateMap _ => true
  | .initializeNavigator => false

/-- Whether an event is an obstacle cloud. -/
def TPSEvent.isObstacles : TPSEvent → Bool
  | .obstacles _ => true
  | _ => false

/-- An example environment in which both functions return. -/
def calmEnvironment : TPSEnvironment :=
  { updateMapReturns := fun _ => true, initializeNavigatorReturns := true }

/-! ## TPS A* navigation node: list parameters

The stream extraction `iss >> value` is library code: its sentry skips leading
whitespace, then `num_get` reads a value off the front of what is left. The
function `num_get` is a parameter; whitespace is skipped here. -/

/-- The function `std::isspace` in the C locale: space, and the characters 9 to 13. -/
def isspace (c : Char) : Bool :=
  c.toNat == 32 || (decide (9 ≤ c.toNat) && decide (c.toNat ≤ 13))

/-- The blank that replaces the brackets. -/
def blank : Char := Char.ofNat 32

/-- One call `std::replace(str.begin(), str.end(), old, ' ')`. -/
def replaceChar (old : Char) (str : List Char) : List Char :=
  str.map (fun c => if c = old then blank else c)

/-- The loop `while (iss >> value)` of `processStringParam` on the characters
not yet read: a value is extracted and pushed, and a comma that follows it at
once is skipped; the loop ends at the first extraction that fails. `fuel`
bounds the number of turns. -/
def readValues {T : Type} (num_get : List Char → Option (T × List Char)) :
    Nat → List Char → List T
  | 0, _ => []
  | fuel + 1, s =>
    match num_get (s.dropWhile isspace) with
    | none => []
    | some (value, rest) =>
      value :: readValues num_get fuel (if rest.head? = some ',' then rest.tail else rest)

/-- The function `TPS_Astar_Nav_Node::processStringParam<T>`. A successful
extraction consumes at least one character, so the loop takes at most one turn
per character of the string and one more, which fails. -/
def TPS_Astar_Nav_Node.processStringParam {T : Type}
    (num_get : List Char → Option (T × List Char)) (param_str : String) : List T :=
  readValues num_get (param_str.length + 1)
    (replaceChar ']' (replaceChar '[' param_str.toList))

/-- The check of the constructor on a parsed pose: three values are needed,
else the constructor logs an error and returns. -/
def TPS_Astar_Nav_Node.poseOfParam {T : Type} (values : List T) : Option (T × T × T) :=
  match values with
  | [x, y, phi] => some (x, y, phi)
  | _ => none

/-- The text between the brackets of a list of numbers: each number as `render`
writes it, a comma at once after every number but the last, and after each
comma the whitespace that goes with the number before it. -/
def listBody {T : Type} (render : T → List Char) : List (T × List Char) → List Char
  | [] => []
  | [it] => render it.1
  | it :: next :: more => render it.1 ++ ',' :: (it.2 ++ listBody render (next :: more))

/-- The text `[x1, x2, ..., xn]` of a list of numbers. -/
def listText {T : Type} (render : T → List Char) (items : List (T × List Char)) : String :=
  String.mk ('[' :: (listBody render items ++ [']']))

/-- A decimal numeral: a sign, the digits before the point and those after it. -/
structure Decimal where
  negative : Bool
  integerDigits : List Char
  fractionDigits : List Char
deriving DecidableEq, Repr

/-- The digits at the front of a text, and what follows them. -/
def takeDigits : List Char → List Char × List Char
  | [] => ([], [])
  | c :: cs => if c.isDigit then (c :: (takeDigits cs).1, (takeDigits cs).2) else ([], c :: cs)

/-- An example `num_get`: an optional sign, digits, and optionally a point and
more digits (no exponent); it fails when there is no digit at all. -/
def decimalGet (s : List Char) : Option (Decimal × List Char) :=
  let signed : Bool × List Char :=
    match s with
    | [] => (false, [])
    | c :: cs => if c = '-' then (true, cs) else if c = '+' then (false, cs) else (false, s)
  let whole := takeDigits signed.2
  let fraction : List Char × List Char :=
    match whole.2 with
    | [] => ([], [])
    | c :: cs => if c = '.' then takeDigits cs else ([], whole.2)
  if whole.1.isEmpty && fraction.1.isEmpty then none
  else some (⟨signed.1, whole.1, fraction.1⟩, fraction.2)

/-- How a non-negative decimal numeral is written: digits, a point, digits. -/
def Decimal.render (d : Decimal) : List Char :=
  d.integerDigits ++ '.' :: d.fractionDigits

/-- The numeral `0.0`. -/
def Decimal.zero : Decimal := ⟨false, ['0'], ['0']⟩

/-! ## TPS A* navigation node: world bounding box

In `do_path_plan` the bounding box is one of `float`s, `TBoundingBoxf`, and
the start and goal positions are `double`s narrowed to `float` by the
constructor of `TPoint3Df`. Numbers are rationals here; the narrowing is a
parameter `toFloat`, and a sum or difference of two `float`s is the narrowing
of the exact one. -/

/-- A point of three `float` coordinates, `mrpt::math::TPoint3Df`. -/
structure TPoint3Df where
  x : ℚ
  y : ℚ
  z : ℚ
deriving DecidableEq, Repr

/-- The operator `-` of `TPoint3Df`: coordinate by coordinate, in `float`. -/
def TPoint3Df.sub (toFloat : ℚ → ℚ) (a b : TPoint3Df) : TPoint3Df :=
  ⟨toFloat (a.x - b.x), toFloat (a.y - b.y), toFloat (a.z - b.z)⟩

/-- The operator `+` of `TPoint3Df`: coordinate by coordinate, in `float`. -/
def TPoint3Df.add (toFloat : ℚ → ℚ) (a b : TPoint3Df) : TPoint3Df :=
  ⟨toFloat (a.x + b.x), toFloat (a.y + b.y), toFloat (a.z + b.z)⟩

/-- The library function `mrpt::keep_min`: the smaller of the variable and the
value. -/
def keep_min (var val : ℚ) : ℚ := if val < var then val else var

/-- The library function `mrpt::keep_max`: the larger of the variable and the
value. -/
def keep_max (var val : ℚ) : ℚ := if val > var then val else var

/-- A box given by two corners, `mrpt::math::TBoundingBoxf`. -/
structure TBoundingBoxf where
  min : TPoint3Df
  max : TPoint3Df
deriving DecidableEq, Repr

/-- The library function `TBoundingBox::updateWithPoint`: the box is expanded
to include the point. -/
def TBoundingBoxf.updateWithPoint (b : TBoundingBoxf) (p : TPoint3Df) : TBoundingBoxf :=
  { min := ⟨keep_min b.min.x p.x, keep_min b.min.y p.y, keep_min b.min.z p.z⟩
    max := ⟨keep_max b.max.x p.x, keep_max b.max.y p.y, keep_max b.max.z p.z⟩ }

/-- A planar pose of `double`s, `mrpt::math::TPose2D`. -/
structure TPose2D where
  x : ℚ
  y : ℚ
  phi : ℚ
deriving DecidableEq, Repr

/-- The constant `M_PI` of `math.h`: the `double` nearest to pi. -/
def M_PI : ℚ := 884279719003555 / 281474976710656

/-- The fields of `selfdriving::PlannerInput` that `do_path_plan` fills before
it prints them. -/
structure PlannerInput where
  stateStart : TPose2D
  stateGoal : TPose2D
  worldBboxMin : TPose2D
  worldBboxMax : TPose2D
deriving DecidableEq, Repr

/-- The first part of `TPS_Astar_Nav_Node::do_path_plan`: the planner input made
of the start pose, the goal and the bounding box of the obstacles, which is
`obs->obstacles()->boundingBox()` in the source. A `float` of the box becomes
a `double` of the world box with no change. -/
def TPS_Astar_Nav_Node.do_path_plan (toFloat : ℚ → ℚ) (obstaclesBbox : TBoundingBoxf)
    (m_start_pose m_nav_goal : TPose2D) : PlannerInput :=
  let bboxMargin : TPoint3Df := ⟨2, 2, 0⟩
  let ptStart : TPoint3Df := ⟨toFloat m_start_pose.x, toFloat m_start_pose.y, 0⟩
  let ptGoal : TPoint3Df := ⟨toFloat m_nav_goal.x, toFloat m_nav_goal.y, 0⟩
  let bbox := obstaclesBbox
  let bbox := bbox.updateWithPoint (ptStart.sub toFloat bboxMargin)
  let bbox := bbox.updateWithPoint (ptStart.add toFloat bboxMargin)
  let bbox := bbox.updateWithPoint (ptGoal.sub toFloat bboxMargin)
  let bbox := bbox.updateWithPoint (ptGoal.add toFloat bboxMargin)
  { stateStart := m_start_pose
    stateGoal := m_nav_goal
    worldBboxMax := ⟨bbox.max.x, bbox.max.y, M_PI⟩
    worldBboxMin := ⟨bbox.min.x, bbox.min.y, -M_PI⟩ }

/-- The spacing of the binary32 numbers around a number: 24 significant bits,
and the spacing of the subnormal numbers below `2 ^ (-126)`. -/
def ulp32 (q : ℚ) : ℚ := 2 ^ (max (binade q) (-126) - 23)

/-- The conversion of a `double` to `float` in the default rounding mode, for a
number within the finite range of binary32: the nearest binary32 number, the
one of even significand when two are as near. -/
def toFloat32 (q : ℚ) : ℚ :=
  if q = 0 then 0 else (lrint (q / ulp32 q) : ℚ) * ulp32 q

/-- The `double` nearest to one tenth, which the text `0.1` is read as. -/
def oneTenth : ℚ := 3602879701896397 / 36028797018963968

/-- A box of obstacles between the origin and the point (1, 1). -/
def unitObstacles : TBoundingBoxf := ⟨⟨0, 0, 0⟩, ⟨1, 1, 0⟩⟩

/-! ## Theorems -/

/-- A step of an UNINITIALIZED core on which nothing is armed changes nothing. -/
theorem step_uninitialized_noop (now : Time) (c : PFLocalizationCore)
    (hs : c.fsm_state = .UNINITIALIZED) (hp : c.pending_init = false) :
    step now c = c := by
  simp [step, hs, hp]

/-- Any number of steps of an UNINITIALIZED core on which nothing is armed
changes nothing. -/
theorem stepN_uninitialized_noop (clock : Nat → Time) (n : Nat) (c : PFLocalizationCore)
    (hs : c.fsm_state = .UNINITIALIZED) (hp : c.pending_init = false) :
    stepN clock n c = c := by
  induction n with
  | zero => rfl
  | succ k ih => simp [stepN, ih, step_uninitialized_noop _ c hs hp]

/-- C1: for every n and every clock, a freshly constructed core on which no map
was installed is UNINITIALIZED after n consecutive `step()` calls, and so is
one on which `init_from_yaml` loaded parameters first. -/
theorem C1_no_map_stays_uninitialized (clock : Nat → Time) (n : Nat) :
    getState (stepN clock n fresh) = State.UNINITIALIZED ∧
    ∀ p : Parameters,
      getState (stepN clock n (init_from_yaml p fresh)) = State.UNINITIALIZED := by
  refine ⟨?_, fun p => ?_⟩
  · rw [stepN_uninitialized_noop clock n fresh rfl rfl]; rfl
  · rw [stepN_uninitialized_noop clock n (init_from_yaml p fresh) rfl rfl]; rfl

/-- Installing a validated map on an UNINITIALIZED core arms the transition and
leaves the state as it was. -/
theorem install_map_uninitialized (m : CMultiMetricMap) (c : PFLocalizationCore)
    (hs : c.fsm_state = .UNINITIALIZED) :
    (install_map m c).pending_init = true ∧
    (install_map m c).fsm_state = .UNINITIALIZED := by
  simp [install_map, hs]

/-- The first step after an armed transition ends TO_BE_INITIALIZED with nothing
armed; the step after that ends RUNNING. -/
theorem step_twice_of_armed (t1 t2 : Time) (c : PFLocalizationCore)
    (hp : c.pending_init = true) :
    getState (step t1 c) = .TO_BE_INITIALIZED ∧
    getState (step t2 (step t1 c)) = .RUNNING := by
  simp [step, hp, getState, fuse]

/-- C2: on a core in state UNINITIALIZED, let a valid map be installed, either
by `set_map_from_metric_map` with a map that has at least one layer or by
`set_map_from_simple_map` returning true. The state is still UNINITIALIZED
before any step, TO_BE_INITIALIZED after exactly one `step()` and RUNNING
after exactly two. -/
theorem C2_map_then_two_steps (c c1 : PFLocalizationCore) (t1 t2 : Time)
    (hs : getState c = State.UNINITIALIZED)
    (hinstalled :
      (∃ mm : CMultiMetricMap, mm.maps ≠ [] ∧
        c1 = set_map_from_metric_map (some mm) c) ∨
      (∃ (load : String → String → Option CMultiMetricMap) (cfg file : String),
        set_map_from_simple_map load cfg file c = (true, c1))) :
    getState c1 = State.UNINITIALIZED ∧
    getState (step t1 c1) = State.TO_BE_INITIALIZED ∧
    getState (step t2 (step t1 c1)) = State.RUNNING := by
  have hs' : c.fsm_state = .UNINITIALIZED := hs
  have key : ∃ m, c1 = install_map m c := by
    rcases hinstalled with ⟨mm, hvalid, h⟩ | ⟨load, cfg, file, h⟩
    · have he : mm.maps.isEmpty = false := by
        cases hm : mm.maps with
        | nil => exact absurd hm hvalid
        | cons a l => rfl
      exact ⟨mm, by simp [h, set_map_from_metric_map, he]⟩
    · unfold set_map_from_simple_map at h
      cases hl : load cfg file with
      | none => simp [hl] at h
      | some m =>
        by_cases he : m.maps.isEmpty = true
        · simp [hl, he] at h
        · simp only [hl, he, Bool.false_eq_true, if_false, Prod.mk.injEq,
            true_and] at h
          exact ⟨m, h.symm⟩
  obtain ⟨m, rfl⟩ := key
  obtain ⟨hp, hst⟩ := install_map_uninitialized m c hs'
  exact ⟨hst, step_twice_of_armed t1 t2 _ hp⟩

/-- The witness of C2: a fresh core and a one-layer map handed over as a metric
map. -/
theorem C2_map_then_two_steps_witness :
    getState (set_map_from_metric_map (some ⟨[7]⟩) fresh) = State.UNINITIALIZED ∧
    getState (step 0 (set_map_from_metric_map (some ⟨[7]⟩) fresh))
      = State.TO_BE_INITIALIZED ∧
    getState (step 100 (step 0 (set_map_from_metric_map (some ⟨[7]⟩) fresh)))
      = State.RUNNING :=
  C2_map_then_two_steps fresh (set_map_from_metric_map (some ⟨[7]⟩) fresh) 0 100 rfl
    (Or.inl ⟨⟨[7]⟩, by decide, rfl⟩)

/-- C3: on a RUNNING core with a map present, `relocalize_here(pose)` leaves the
state RUNNING right after the call, and the next `step()` makes it
TO_BE_INITIALIZED. -/
theorem C3_relocalize_applies_at_next_step (c : PFLocalizationCore) (m : CMultiMetricMap)
    (p : CPose3D) (now : Time)
    (hs : getState c = State.RUNNING) (hm : c.metric_map = some m) :
    getState (relocalize_here p c) = State.RUNNING ∧
    getState (step now (relocalize_here p c)) = State.TO_BE_INITIALIZED := by
  have hs' : c.fsm_state = .RUNNING := hs
  simp [relocalize_here, hm, getState, hs', step]

/-- The witness of C3: a fresh core taken to RUNNING by a map and two steps. -/
theorem C3_relocalize_applies_at_next_step_witness :
    getState (relocalize_here ⟨1, 2, 0, 3, 0, 0⟩
      (step 100 (step 0 (set_map_from_metric_map (some ⟨[7]⟩) fresh))))
      = State.RUNNING ∧
    getState (step 200 (relocalize_here ⟨1, 2, 0, 3, 0, 0⟩
      (step 100 (step 0 (set_map_from_metric_map (some ⟨[7]⟩) fresh)))))
      = State.TO_BE_INITIALIZED :=
  C3_relocalize_applies_at_next_step
    (step 100 (step 0 (set_map_from_metric_map (some ⟨[7]⟩) fresh))) ⟨[7]⟩
    ⟨1, 2, 0, 3, 0, 0⟩ 200 rfl rfl

/-- C4: whatever the core state (so in every reachable one), one `step()` moves
the filter state at most one place forward along UNINITIALIZED ->
TO_BE_INITIALIZED -> RUNNING; the only pairs (state before, state after) are
the six listed, so UNINITIALIZED never goes to RUNNING in one step and RUNNING
is entered from TO_BE_INITIALIZED only. -/
theorem C4_step_advances_at_most_one (now : Time) (c : PFLocalizationCore) :
    (getState (step now c)).rank ≤ (getState c).rank + 1 ∧
    (getState c, getState (step now c)) ∈
      [(State.UNINITIALIZED, State.UNINITIALIZED),
       (State.UNINITIALIZED, State.TO_BE_INITIALIZED),
       (State.TO_BE_INITIALIZED, State.TO_BE_INITIALIZED),
       (State.TO_BE_INITIALIZED, State.RUNNING),
       (State.RUNNING, State.RUNNING),
       (State.RUNNING, State.TO_BE_INITIALIZED)] := by
  unfold step getState
  cases hp : c.pending_init <;> cases hs : c.fsm_state <;>
    simp [hs, fuse, State.rank]

/-- The example of the fusion window: window 0.20 s, observations stamped 0.05,
0.15 and -0.50 pushed before a step at 0.20; the first two are fused, the
third is not, and nothing stays in the buffer. -/
theorem fusion_window_example :
    (step 200 (on_observations [odometryAt 50, odometryAt 150, odometryAt (-500)]
      runningCore)).last_fused = [odometryAt 50, odometryAt 150] ∧
    (step 200 (on_observations [odometryAt 50, odometryAt 150, odometryAt (-500)]
      runningCore)).buffer = [] := by
  decide

/-- An observation is fused once: a second step, with nothing pushed in
between, fuses nothing; and an observation stamped later than the step waits
in the buffer for the step whose window holds it. -/
theorem fusion_once_example :
    (step 210 (step 200 (on_observations [odometryAt 50, odometryAt 150]
      runningCore))).last_fused = [] ∧
    (step 200 (on_observations [odometryAt 300] runningCore)).last_fused = [] ∧
    (step 200 (on_observations [odometryAt 300] runningCore)).buffer = [odometryAt 300] ∧
    (step 400 (step 200 (on_observations [odometryAt 300] runningCore))).last_fused
      = [odometryAt 300] := by
  decide

open PFLocalizationNode

/-- One invocation of `loop`, field by field. -/
theorem loop_fields (isTimeFor : PFLocalizationNode → Int → Bool) (bits : Nat) (now : Time)
    (n : PFLocalizationNode) :
    (loop isTimeFor bits now n).core_ = step now n.core_ ∧
    (loop isTimeFor bits now n).coreCalls = n.coreCalls ++ [CoreCall.step] ∧
    (loop isTimeFor bits now n).loopCount_ = (n.loopCount_ + 1) % 2 ^ bits ∧
    (loop isTimeFor bits now n).sent = n.sent ∧
    (loop isTimeFor bits now n).invoked = n.invoked ++
      ((if isTimeFor (stepCore now (log .DEBUG "loop" n))
            n.nodeParams_.publish_particles_decimation
        then [Publisher.publishParticles] else []) ++
       [Publisher.publishTF, Publisher.publishPose]) := by
  have hd : (stepCore now (log .DEBUG "loop" n)).nodeParams_ = n.nodeParams_ := rfl
  simp only [loop, hd]
  cases isTimeFor (stepCore now (log .DEBUG "loop" n))
      n.nodeParams_.publish_particles_decimation
  · refine ⟨rfl, rfl, rfl, rfl, ?_⟩
    simp [publishPose, publishTF, stepCore, log]
  · refine ⟨rfl, rfl, rfl, rfl, ?_⟩
    simp [publishPose, publishTF, publishParticles, stepCore, log]

/-- After `k` invocations of `loop`, `k` more steps of the core are recorded and
the counter has advanced by `k`, modulo its range. -/
theorem loopN_counts (isTimeFor : PFLocalizationNode → Int → Bool) (bits : Nat)
    (clock : Nat → Time) (k : Nat) (n : PFLocalizationNode) :
    (loopN isTimeFor bits clock k n).coreCalls.count CoreCall.step
      = n.coreCalls.count CoreCall.step + k ∧
    (loopN isTimeFor bits clock k n).loopCount_ % 2 ^ bits
      = (n.loopCount_ + k) % 2 ^ bits := by
  induction k with
  | zero => exact ⟨rfl, rfl⟩
  | succ j ih =>
    obtain ⟨_, hc, hl, _, _⟩ :=
      loop_fields isTimeFor bits (clock j) (loopN isTimeFor bits clock j n)
    have hstep : loopN isTimeFor bits clock (j + 1) n
        = loop isTimeFor bits (clock j) (loopN isTimeFor bits clock j n) := rfl
    rw [hstep, hc, hl]
    constructor
    · rw [List.count_append, ih.1]
      simp
      omega
    · rw [Nat.mod_mod, Nat.add_mod, ih.2, ← Nat.add_mod]
      rfl

/-- C6: every invocation of `loop` makes exactly one `step()` call on the core
and increments `loopCount_` by exactly one (the counter not being at the end
of its range), so `k` invocations run exactly `k` steps; `publishParticles` is
invoked at most once per invocation and only when `isTimeFor` of
`publish_particles_decimation` holds, and no more particle messages are sent
than it is invoked. -/
theorem C6_loop_one_step_per_invocation (isTimeFor : PFLocalizationNode → Int → Bool)
    (bits : Nat) (clock : Nat → Time) (now : Time) (k : Nat) (n : PFLocalizationNode)
    (hfit : n.loopCount_ + 1 < 2 ^ bits) :
    (loop isTimeFor bits now n).coreCalls = n.coreCalls ++ [CoreCall.step] ∧
    (loop isTimeFor bits now n).core_ = step now n.core_ ∧
    (loop isTimeFor bits now n).loopCount_ = n.loopCount_ + 1 ∧
    (loopN isTimeFor bits clock k n).coreCalls.count CoreCall.step
      = n.coreCalls.count CoreCall.step + k ∧
    (loop isTimeFor bits now n).invoked.count Publisher.publishParticles
      = n.invoked.count Publisher.publishParticles +
        (if isTimeFor (stepCore now (log .DEBUG "loop" n))
            n.nodeParams_.publish_particles_decimation then 1 else 0) ∧
    (loop isTimeFor bits now n).sent.count Publisher.publishParticles
      = n.sent.count Publisher.publishParticles := by
  obtain ⟨hcore, hcalls, hcount, hsent, hinv⟩ := loop_fields isTimeFor bits now n
  refine ⟨hcalls, hcore, ?_, (loopN_counts isTimeFor bits clock k n).1, ?_, ?_⟩
  · rw [hcount, Nat.mod_eq_of_lt hfit]
  · rw [hinv]
    by_cases h : isTimeFor (stepCore now (log .DEBUG "loop" n))
        n.nodeParams_.publish_particles_decimation = true
    · simp [h, List.count_append, List.count_cons]
    · simp [h, List.count_append, List.count_cons]
  · rw [hsent]

/-- The witness of C6: a new node, a 64-bit counter, particles every second loop. -/
theorem C6_loop_one_step_per_invocation_witness :
    (loop everyNth 64 0 (create exampleParams)).coreCalls = [] ++ [CoreCall.step] ∧
    (loop everyNth 64 0 (create exampleParams)).core_ = step 0 fresh ∧
    (loop everyNth 64 0 (create exampleParams)).loopCount_ = 0 + 1 ∧
    (loopN everyNth 64 (fun i => 100 * i) 5 (create exampleParams)).coreCalls.count
      CoreCall.step = 0 + 5 ∧
    (loop everyNth 64 0 (create exampleParams)).invoked.count Publisher.publishParticles
      = 0 + (if everyNth (stepCore 0 (log .DEBUG "loop" (create exampleParams)))
              exampleParams.publish_particles_decimation then 1 else 0) ∧
    (loop everyNth 64 0 (create exampleParams)).sent.count Publisher.publishParticles
      = 0 :=
  C6_loop_one_step_per_invocation everyNth 64 (fun i => 100 * i) 0 5
    (create exampleParams) (by decide)

/-! ### Sensor callbacks and the frame lookup -/

/-- When the frame lookup throws a `tf2::TransformException`, `callbackLaser`
returns normally, logs the error, and hands the core an observation placed at
the default sensor pose. -/
theorem callbackLaser_lookup_failed (tf : TfBuffer) (fromROS : Transform → CPose3D)
    (ms : Int) (msg : LaserScan) (topicName what : String) (n : PFLocalizationNode)
    (hfail : tf.lookupTransform msg.frame_id n.nodeParams_.base_footprint_frame_id
      (waitForTransformTimeout ms) = .error (.TransformException what)) :
    ∃ n1, callbackLaser tf fromROS ms msg topicName n = .ok n1 ∧
      n1.coreCalls = n.coreCalls ++ [CoreCall.on_observation
        { laserFromROS msg CPose3D.identity with sensorLabel := topicName }] ∧
      (⟨LogLevel.ERROR, what⟩ : LogEntry) ∈ n1.logs := by
  have hw : PFLocalizationNode.waitForTransform tf fromROS CPose3D.identity msg.frame_id
      (log .DEBUG ("Received 2D scan (" ++ topicName ++ ")") n).nodeParams_.base_footprint_frame_id
      ms = .ok { ret := false, des := CPose3D.identity, logs := [⟨.ERROR, what⟩] } := by
    unfold PFLocalizationNode.waitForTransform
    have hn : (log .DEBUG ("Received 2D scan (" ++ topicName ++ ")") n).nodeParams_
        = n.nodeParams_ := rfl
    rw [hn, hfail]
  unfold callbackLaser
  simp only [hw]
  exact ⟨_, rfl, rfl, by simp [log]⟩

/-- When the frame lookup throws a `tf2::TransformException`,
`callbackPointCloud` returns normally, logs the error, and hands the core the
point-cloud observation all the same. -/
theorem callbackPointCloud_lookup_failed (tf : TfBuffer) (fromROS : Transform → CPose3D)
    (ms : Int) (created : Time) (msg : PointCloud2) (topicName what : String)
    (n : PFLocalizationNode)
    (hfail : tf.lookupTransform msg.frame_id n.nodeParams_.base_footprint_frame_id
      (waitForTransformTimeout ms) = .error (.TransformException what)) :
    ∃ n1, callbackPointCloud tf fromROS ms created msg topicName n = .ok n1 ∧
      n1.coreCalls = n.coreCalls ++
        [CoreCall.on_observation (pointCloudObs created msg topicName)] ∧
      (⟨LogLevel.ERROR, what⟩ : LogEntry) ∈ n1.logs := by
  have hw : PFLocalizationNode.waitForTransform tf fromROS CPose3D.identity msg.frame_id
      (log .DEBUG ("Received point cloud (" ++ topicName ++ ")") n).nodeParams_.base_footprint_frame_id
      ms = .ok { ret := false, des := CPose3D.identity, logs := [⟨.ERROR, what⟩] } := by
    unfold PFLocalizationNode.waitForTransform
    have hn : (log .DEBUG ("Received point cloud (" ++ topicName ++ ")") n).nodeParams_
        = n.nodeParams_ := rfl
    rw [hn, hfail]
  unfold callbackPointCloud
  simp only [hw]
  exact ⟨_, rfl, rfl, by simp [log]⟩

/-- C7, the code at the failing input: with a transform buffer in which the
sensor frame is unknown, `callbackLaser` and `callbackPointCloud` each return
normally having called `on_observation` once: the observation is not dropped. -/
theorem C7_failed_lookup_still_forwards :
    callsOf (callbackLaser emptyTfBuffer translationOnly 50 exampleScan "scan"
      (create exampleParams))
      = some [CoreCall.on_observation
          { sensorLabel := "scan", timestamp := 120, kind := ObsKind.LASER_SCAN,
            sensorPose := CPose3D.identity, payload := [10, 20, 30] }] ∧
    callsOf (callbackPointCloud emptyTfBuffer translationOnly 50 140 exampleCloud "cloud"
      (create exampleParams))
      = some [CoreCall.on_observation
          { sensorLabel := "cloud", timestamp := 140, kind := ObsKind.POINT_CLOUD,
            sensorPose := CPose3D.identity, payload := [1, 2, 3] }] := by
  constructor <;> rfl

/-! ### Map callback -/

/-- C8, counterexample: for a `metric_map_t` without layers `callbackMap` does
call `set_map_from_metric_map`, with a multi-metric map that has no layer. -/
theorem C8_counterexample_layerless_map :
    callsOf (callbackMap (some (CSerializable.metric_map_t [])) (create exampleParams))
      = some [CoreCall.set_map_from_metric_map ⟨[]⟩] := by
  rfl

/-- C8, amended: `callbackMap` calls `set_map_from_metric_map` exactly when the
received object is non-null and is a `metric_map_t`, whatever the number of
its layers: the call is made once, with the layers in order, and its effect on
the core is that of `set_map_from_metric_map`. For a null object or an object
of another class an assertion throws and the core is not called. -/
theorem C8_callbackMap_calls_core_iff_metric_map (o : Option CSerializable)
    (n : PFLocalizationNode) :
    (∀ layers, o = some (CSerializable.metric_map_t layers) →
      ∃ n1, callbackMap o n = .ok n1 ∧
        n1.coreCalls = n.coreCalls ++
          [CoreCall.set_map_from_metric_map ⟨layers.map Prod.snd⟩] ∧
        n1.core_ = set_map_from_metric_map (some ⟨layers.map Prod.snd⟩) n.core_) ∧
    ((∀ layers, o ≠ some (CSerializable.metric_map_t layers)) →
      ∃ e, callbackMap o n = .error e) := by
  constructor
  · intro layers ho
    subst ho
    exact ⟨_, rfl, rfl, rfl⟩
  · intro hno
    match o, hno with
    | none, _ => exact ⟨_, rfl⟩
    | some (.otherClass c), _ => exact ⟨_, rfl⟩
    | some (.metric_map_t layers), h => exact absurd rfl (h layers)

/-! ### `waitForTransform` -/

/-- C9: `waitForTransform` of the localization node returns true exactly when
the lookup succeeds, and `des` then holds the looked-up transform (converted
to a pose); when the lookup throws a `tf2::TransformException` it returns
false with `des` unchanged and the exception does not leave the function. -/
theorem C9_waitForTransform_result (tf : TfBuffer) (fromROS : Transform → CPose3D)
    (des : CPose3D) (target_frame source_frame : String) (ms : Int) :
    (∀ r, PFLocalizationNode.waitForTransform tf fromROS des target_frame source_frame ms
        = .ok r →
      (r.ret = true ↔ ∃ tr, tf.lookupTransform target_frame source_frame
          (waitForTransformTimeout ms) = .ok tr) ∧
      (∀ tr, tf.lookupTransform target_frame source_frame
          (waitForTransformTimeout ms) = .ok tr → r.des = fromROS tr) ∧
      (r.ret = false → r.des = des)) ∧
    (∀ tr, tf.lookupTransform target_frame source_frame (waitForTransformTimeout ms)
        = .ok tr →
      ∃ r, PFLocalizationNode.waitForTransform tf fromROS des target_frame source_frame ms
        = .ok r ∧ r.ret = true ∧ r.des = fromROS tr) ∧
    (∀ what, tf.lookupTransform target_frame source_frame (waitForTransformTimeout ms)
        = .error (.TransformException what) →
      ∃ r, PFLocalizationNode.waitForTransform tf fromROS des target_frame source_frame ms
        = .ok r ∧ r.ret = false ∧ r.des = des) := by
  unfold PFLocalizationNode.waitForTransform
  refine ⟨fun r hr => ?_, fun tr htr => ?_, fun what hw => ?_⟩
  · cases hl : tf.lookupTransform target_frame source_frame (waitForTransformTimeout ms) with
    | ok tr =>
      rw [hl] at hr
      simp only [Except.ok.injEq] at hr
      subst hr
      simp
    | error e =>
      rw [hl] at hr
      cases e with
      | TransformException what =>
        simp only [Except.ok.injEq] at hr
        subst hr
        simp
      | other what => simp at hr
  · rw [htr]; exact ⟨_, rfl, rfl, rfl⟩
  · rw [hw]; exact ⟨_, rfl, rfl, rfl⟩

/-- The timeout handed to the lookup is `timeoutMilliseconds` thousand
nanoseconds, that is `timeoutMilliseconds` microseconds, as long as the
product fits an `int`. -/
theorem waitForTransformTimeout_eq (ms : Int) (h0 : 0 ≤ ms) (hfit : 1000 * ms < 2 ^ 31) :
    waitForTransformTimeout ms = 1000 * ms := by
  unfold waitForTransformTimeout rclcppDuration toInt32 toUInt32
  norm_num at hfit ⊢
  omega

/-- C10, the code at the failing input: for `timeoutMilliseconds = 50` both
nodes hand the lookup 50000 ns (50 microseconds), not the 50000000 ns of 50
milliseconds. The buffer of the example echoes the timeout it receives. -/
theorem C10_timeout_is_microseconds :
    waitForTransformTimeout 50 = 50000 ∧
    waitForTransformTimeout 50 ≠ 50 * 10 ^ 6 ∧
    PFLocalizationNode.waitForTransform echoTfBuffer translationOnly CPose3D.identity
        "laser" "base_footprint" 50
      = .ok { ret := true, des := ⟨50000, 0, 0, 0, 0, 0⟩,
              logs := [⟨.DEBUG, "[waitForTransform] Found pose"⟩] } ∧
    ReactiveNav2DNode.waitForTransform echoTfBuffer translationOnly CPose3D.identity
        "map" "odom" 50
      = .ok { ret := true, des := ⟨50000, 0, 0, 0, 0, 0⟩,
              logs := [⟨.DEBUG, "[waitForTransform] Found pose"⟩] } := by
  refine ⟨by decide, by decide, rfl, rfl⟩

/-! ### Publication from the loop -/

/-- The core after `k` invocations of `loop` is the core stepped `k` times, and
no invocation sends a message. -/
theorem loopN_core_sent (isTimeFor : PFLocalizationNode → Int → Bool) (bits : Nat)
    (clock : Nat → Time) (k : Nat) (n : PFLocalizationNode) :
    (loopN isTimeFor bits clock k n).core_ = stepN clock k n.core_ ∧
    (loopN isTimeFor bits clock k n).sent = n.sent := by
  induction k with
  | zero => exact ⟨rfl, rfl⟩
  | succ j ih =>
    obtain ⟨hcore, _, _, hsent, _⟩ :=
      loop_fields isTimeFor bits (clock j) (loopN isTimeFor bits clock j n)
    have hstep : loopN isTimeFor bits clock (j + 1) n
        = loop isTimeFor bits (clock j) (loopN isTimeFor bits clock j n) := rfl
    rw [hstep, hcore, hsent, ih.1, ih.2]
    exact ⟨rfl, rfl⟩

/-- C11: as long as the core is UNINITIALIZED with no valid map arrived (nothing
armed), every invocation of `loop` leaves it UNINITIALIZED and publishes no
pose message: after any number `k` of invocations the messages sent by
`publishPose` are those sent before, and so after a single invocation. -/
theorem C11_no_pose_while_uninitialized (isTimeFor : PFLocalizationNode → Int → Bool)
    (bits : Nat) (clock : Nat → Time) (now : Time) (k : Nat) (n : PFLocalizationNode)
    (hs : getState n.core_ = State.UNINITIALIZED)
    (hp : n.core_.pending_init = false) :
    (loop isTimeFor bits now n).sent.count Publisher.publishPose
      = n.sent.count Publisher.publishPose ∧
    getState (loopN isTimeFor bits clock k n).core_ = State.UNINITIALIZED ∧
    (loopN isTimeFor bits clock k n).sent.count Publisher.publishPose
      = n.sent.count Publisher.publishPose := by
  obtain ⟨hcore, hsent⟩ := loopN_core_sent isTimeFor bits clock k n
  obtain ⟨_, _, _, hsent1, _⟩ := loop_fields isTimeFor bits now n
  refine ⟨by rw [hsent1], ?_, by rw [hsent]⟩
  rw [hcore, stepN_uninitialized_noop clock k n.core_ hs hp]
  exact hs

/-- The witness of C11: a new node, looped five times. -/
theorem C11_no_pose_while_uninitialized_witness :
    (loop everyNth 64 0 (create exampleParams)).sent.count Publisher.publishPose
      = (create exampleParams).sent.count Publisher.publishPose ∧
    getState (loopN everyNth 64 (fun i => 100 * i) 5 (create exampleParams)).core_
      = State.UNINITIALIZED ∧
    (loopN everyNth 64 (fun i => 100 * i) 5 (create exampleParams)).sent.count
      Publisher.publishPose = (create exampleParams).sent.count Publisher.publishPose :=
  C11_no_pose_while_uninitialized everyNth 64 (fun i => 100 * i) 0 5
    (create exampleParams) rfl rfl

/-- C12, the code at the failing input: on a node whose core is RUNNING, one
invocation of `loop` invokes `publishParticles`, `publishTF` and
`publishPose`, and no message is sent by any of them. -/
theorem C12_running_loop_sends_nothing :
    getState runningNode.core_ = State.RUNNING ∧
    getState (loop everyNth 64 300 runningNode).core_ = State.RUNNING ∧
    (loop everyNth 64 300 runningNode).invoked
      = [Publisher.publishParticles, Publisher.publishTF, Publisher.publishPose] ∧
    (loop everyNth 64 300 runningNode).sent = [] := by
  decide

/-- C13, the code at the failing input: with a buffer that knows the sensor
frame at (5, 6) with yaw 1, `callbackLaser` forwards a scan placed at that
pose, while `callbackPointCloud` forwards the cloud with the default sensor
pose and the points of the message as they came. -/
theorem C13_point_cloud_ignores_sensor_pose :
    callsOf (callbackLaser (constTfBuffer ⟨5, 6, 0, 0, 0, 1, 0⟩) translationOnly 50
      exampleScan "scan" (create exampleParams))
      = some [CoreCall.on_observation
          { sensorLabel := "scan", timestamp := 120, kind := ObsKind.LASER_SCAN,
            sensorPose := ⟨5, 6, 0, 1, 0, 0⟩, payload := [10, 20, 30] }] ∧
    callsOf (callbackPointCloud (constTfBuffer ⟨5, 6, 0, 0, 0, 1, 0⟩) translationOnly 50
      140 exampleCloud "cloud" (create exampleParams))
      = some [CoreCall.on_observation
          { sensorLabel := "cloud", timestamp := 140, kind := ObsKind.POINT_CLOUD,
            sensorPose := CPose3D.identity, payload := [1, 2, 3] }] := by
  constructor <;> rfl

/-! ### Odometry callback -/

/-- C17: for every odometry message `callbackOdometry` hands the core exactly one
observation, with no frame lookup: it is stamped with the header stamp,
labelled "odom", its pose is the SE(2) projection of the message pose, and its
velocity is present and equal to (twist.linear.x, twist.linear.y,
twist.angular.z). -/
theorem C17_callbackOdometry_forwards_one (fromROS : PoseMsg → CPose3D) (msg : OdometryMsg)
    (n : PFLocalizationNode) :
    ∃ obs : Observation,
      (callbackOdometry fromROS msg n).coreCalls
        = n.coreCalls ++ [CoreCall.on_observation obs] ∧
      (callbackOdometry fromROS msg n).core_ = on_observation obs n.core_ ∧
      obs.kind = ObsKind.ODOMETRY ∧
      obs.timestamp = msg.stamp ∧
      obs.sensorLabel = "odom" ∧
      obs.odometry = ⟨(fromROS msg.pose).x, (fromROS msg.pose).y, (fromROS msg.pose).yaw⟩ ∧
      obs.hasVelocities = true ∧
      obs.velocityLocal
        = ⟨msg.twist_linear_x, msg.twist_linear_y, msg.twist_angular_z⟩ :=
  ⟨_, rfl, rfl, rfl, rfl, rfl, rfl, rfl, rfl⟩

/-- An odometry message at (3, 4) with yaw 1, moving at (2, 0) and turning at 5,
stamped 70, is forwarded as one odometry observation with those values. -/
theorem callbackOdometry_example :
    (callbackOdometry positionOnly
      { stamp := 70, pose := ⟨3, 4, 0, 0, 0, 1, 0⟩, twist_linear_x := 2,
        twist_linear_y := 0, twist_angular_z := 5 } (create exampleParams)).coreCalls
      = [CoreCall.on_observation
          { sensorLabel := "odom", timestamp := 70, kind := ObsKind.ODOMETRY,
            sensorPose := CPose3D.identity, payload := [], odometry := ⟨3, 4, 1⟩,
            hasVelocities := true, velocityLocal := ⟨2, 0, 5⟩ }] := by
  rfl

/-! ### Log level -/

/-- C20: `useROSLogLevel` hands the core DEBUG for a ROS severity up to 10, INFO
above 10 up to 20, WARN above 20 up to 30, ERROR above 30 up to 40, and the
core's current minimum logging level above 40; up to 40 the level does not
decrease when the severity grows. -/
theorem C20_useROSLogLevel_mapping (r : Int) (cur : VerbosityLevel) :
    (r ≤ 10 → useROSLogLevel r cur = VerbosityLevel.LVL_DEBUG) ∧
    (10 < r ∧ r ≤ 20 → useROSLogLevel r cur = VerbosityLevel.LVL_INFO) ∧
    (20 < r ∧ r ≤ 30 → useROSLogLevel r cur = VerbosityLevel.LVL_WARN) ∧
    (30 < r ∧ r ≤ 40 → useROSLogLevel r cur = VerbosityLevel.LVL_ERROR) ∧
    (40 < r → useROSLogLevel r cur = cur) ∧
    (∀ r2 : Int, r ≤ r2 → r2 ≤ 40 →
      (useROSLogLevel r cur).toNat ≤ (useROSLogLevel r2 cur).toNat) := by
  unfold useROSLogLevel
  refine ⟨fun h => ?_, fun h => ?_, fun h => ?_, fun h => ?_, fun h => ?_,
    fun r2 h1 h2 => ?_⟩
  · simp [h]
  · have h1 : ¬ r ≤ 10 := by omega
    simp [h1, h.2]
  · have h1 : ¬ r ≤ 10 := by omega
    have h2 : ¬ r ≤ 20 := by omega
    simp [h1, h2, h.2]
  · have h1 : ¬ r ≤ 10 := by omega
    have h2 : ¬ r ≤ 20 := by omega
    have h3 : ¬ r ≤ 30 := by omega
    simp [h1, h2, h3, h.2]
  · have h1 : ¬ r ≤ 10 := by omega
    have h2 : ¬ r ≤ 20 := by omega
    have h3 : ¬ r ≤ 30 := by omega
    have h4 : ¬ r ≤ 40 := by omega
    simp [h1, h2, h3, h4]
  · split_ifs <;> simp [VerbosityLevel.toNat] <;> omega

/-- The ROS severities 10, 20, 30, 40 give DEBUG, INFO, WARN, ERROR, and 50
(FATAL) leaves the level where it was. -/
theorem useROSLogLevel_examples :
    useROSLogLevel 10 .LVL_WARN = .LVL_DEBUG ∧ useROSLogLevel 20 .LVL_WARN = .LVL_INFO ∧
    useROSLogLevel 30 .LVL_INFO = .LVL_WARN ∧ useROSLogLevel 40 .LVL_INFO = .LVL_ERROR ∧
    useROSLogLevel 50 .LVL_INFO = .LVL_INFO := by
  decide

/-! ### Topic lists -/

/-- The loop of `tokenize` yields the non-empty pieces of the split: started
between tokens, and started inside a token `cur`. -/
theorem tokenizeLoop_eq (p : Char → Bool) (cs : List Char) :
    tokenizeLoop p cs [] true = (cs.splitOnP p).filter (fun t => !t.isEmpty) ∧
    ∀ cur : List Char, cur ≠ [] →
      tokenizeLoop p cs cur false
        = ((cs.splitOnP p).modifyHead (fun t => cur ++ t)).filter (fun t => !t.isEmpty) := by
  induction cs with
  | nil =>
    refine ⟨by simp [tokenizeLoop], fun cur hcur => ?_⟩
    simp [tokenizeLoop, hcur]
  | cons c rest ih =>
    obtain ⟨ihA, ihB⟩ := ih
    rw [List.splitOnP_cons]
    by_cases hc : p c = true
    · refine ⟨?_, fun cur hcur => ?_⟩
      · simp [tokenizeLoop, hc, ihA]
      · simp [tokenizeLoop, hc, ihA, hcur]
    · have hc2 : p c = false := by simpa using hc
      refine ⟨?_, fun cur hcur => ?_⟩
      · simp only [tokenizeLoop, hc2, Bool.false_eq_true, if_false]
        rw [ihB ([] ++ [c]) (by simp)]
        simp
      · simp only [tokenizeLoop, hc2, Bool.false_eq_true, if_false]
        rw [ihB (cur ++ [c]) (by simp), List.modifyHead_modifyHead]
        congr 2
        funext t
        simp

/-- The library `tokenize` returns the non-empty tokens of the split. -/
theorem tokenize_eq_nonEmptyTokens (s : String) : tokenize s = nonEmptyTokens s := by
  unfold tokenize nonEmptyTokens
  rw [(tokenizeLoop_eq isDelimiter s.toList).1]

/-- The loop over the tokens appends them in order and counts them. -/
theorem subscribeEach_eq (sources subs : List String) (k : Nat) :
    subscribeEach sources subs k = (subs ++ sources, k + sources.length) := by
  induction sources generalizing subs k with
  | nil => simp [subscribeEach]
  | cons t ts ih =>
    have h : subscribeEach (t :: ts) subs k = subscribeEach ts (subs ++ [t]) (k + 1) := rfl
    rw [h, ih]
    simp
    omega

/-- C18: for every topic list, `subscribe_to_multiple_topics` returns the number
of non-empty tokens of the list split on space, comma, tab and newline, and
appends one subscription per token to `subscriptions`, in token order; with
no token it returns 0 and leaves `subscriptions` as it was. -/
theorem C18_subscribe_to_multiple_topics (lstTopics : String) (subscriptions : List String) :
    (LocalObstaclesNode.subscribe_to_multiple_topics lstTopics subscriptions).ret
      = (nonEmptyTokens lstTopics).length ∧
    (LocalObstaclesNode.subscribe_to_multiple_topics lstTopics subscriptions).subscriptions
      = subscriptions ++ nonEmptyTokens lstTopics ∧
    (nonEmptyTokens lstTopics = [] →
      (LocalObstaclesNode.subscribe_to_multiple_topics lstTopics subscriptions).ret = 0 ∧
      (LocalObstaclesNode.subscribe_to_multiple_topics lstTopics subscriptions).subscriptions
        = subscriptions) := by
  unfold LocalObstaclesNode.subscribe_to_multiple_topics
  rw [tokenize_eq_nonEmptyTokens]
  have hfold := subscribeEach_eq (nonEmptyTokens lstTopics) subscriptions 0
  unfold subscribeEach at hfold
  cases htok : nonEmptyTokens lstTopics with
  | nil => simp
  | cons t ts =>
    rw [htok] at hfold
    simp only [List.isEmpty_cons, Bool.false_eq_true, if_false, hfold]
    simp

/-- The default topic list "scan, laser1" yields two subscriptions, on `scan` and
on `laser1`; a list of delimiters only yields none. -/
theorem subscribe_to_multiple_topics_examples :
    LocalObstaclesNode.subscribe_to_multiple_topics "scan, laser1" []
      = { ret := 2, subscriptions := ["scan", "laser1"], logs := [] } ∧
    LocalObstaclesNode.subscribe_to_multiple_topics " , " ["old"]
      = { ret := 0, subscriptions := ["old"],
          logs := [⟨.ERROR, "List of topics is empty."⟩] } := by
  decide

/-- C14: the constructor of the localization node fails with "At least one
sensor input source must be defined!" if and only if both topic lists have no
token; otherwise it completes with one laser subscription per token of
`topic_sensors_2d_scan` and one point-cloud subscription per token of
`topic_sensors_point_clouds`, in order and with duplicates kept. -/
theorem C14_construct_needs_a_sensor (nodeParams_ : NodeParameters) :
    (PFLocalizationNode.construct nodeParams_ = .error (.other noSensorMessage) ↔
      nonEmptyTokens nodeParams_.topic_sensors_2d_scan = [] ∧
      nonEmptyTokens nodeParams_.topic_sensors_point_clouds = []) ∧
    (¬ (nonEmptyTokens nodeParams_.topic_sensors_2d_scan = [] ∧
        nonEmptyTokens nodeParams_.topic_sensors_point_clouds = []) →
      ∃ w, PFLocalizationNode.construct nodeParams_ = .ok w ∧
        w.subs_2dlaser_ = nonEmptyTokens nodeParams_.topic_sensors_2d_scan ∧
        w.subs_point_clouds_ = nonEmptyTokens nodeParams_.topic_sensors_point_clouds ∧
        w.subs_2dlaser_.length
          = (nonEmptyTokens nodeParams_.topic_sensors_2d_scan).length ∧
        w.subs_point_clouds_.length
          = (nonEmptyTokens nodeParams_.topic_sensors_point_clouds).length) := by
  unfold PFLocalizationNode.construct
  simp only [tokenize_eq_nonEmptyTokens, subscribeEach_eq, List.nil_append, Nat.zero_add]
  by_cases h : (nonEmptyTokens nodeParams_.topic_sensors_2d_scan).length
      + (nonEmptyTokens nodeParams_.topic_sensors_point_clouds).length > 0
  · have hne : ¬ (nonEmptyTokens nodeParams_.topic_sensors_2d_scan = [] ∧
        nonEmptyTokens nodeParams_.topic_sensors_point_clouds = []) := by
      rintro ⟨h1, h2⟩
      simp [h1, h2] at h
    simp only [h, if_true, hne, iff_false]
    exact ⟨by simp, fun _ => ⟨_, rfl, rfl, rfl, rfl, rfl⟩⟩
  · have hboth : nonEmptyTokens nodeParams_.topic_sensors_2d_scan = [] ∧
        nonEmptyTokens nodeParams_.topic_sensors_point_clouds = [] := by
      constructor
      · apply List.eq_nil_of_length_eq_zero; omega
      · apply List.eq_nil_of_length_eq_zero; omega
    simp only [h, if_false]
    exact ⟨⟨fun _ => hboth, fun _ => trivial⟩, fun hn => absurd hboth hn⟩

/-- The constructor with the lists "scan, laser1" and "" makes two laser
subscriptions; with "scan,scan" and "cloud" it keeps the duplicate; with two
lists without a token it fails. -/
theorem construct_examples :
    PFLocalizationNode.construct exampleParams
      = .ok { subs_2dlaser_ := ["scan", "laser1"], subs_point_clouds_ := [],
              numSensors := 2 } ∧
    PFLocalizationNode.construct
        { exampleParams with topic_sensors_2d_scan := "scan,scan",
                             topic_sensors_point_clouds := "cloud" }
      = .ok { subs_2dlaser_ := ["scan", "scan"], subs_point_clouds_ := ["cloud"],
              numSensors := 3 } ∧
    PFLocalizationNode.construct
        { exampleParams with topic_sensors_2d_scan := " ",
                             topic_sensors_point_clouds := "" }
      = .error (.other noSensorMessage) := by
  refine ⟨rfl, rfl, rfl⟩

/-! ### Stepping timer -/

/-- The function `lrint` is the identity on integers. -/
theorem lrint_intCast (z : Int) : lrint (z : ℚ) = z := by
  simp [lrint]

/-- The function `lrint` returns an integer within one half of its argument. -/
theorem lrint_near (q : ℚ) : |((lrint q : Int) : ℚ) - q| ≤ 1 / 2 := by
  have h1 := Int.floor_le q
  have h2 := Int.lt_floor_add_one q
  unfold lrint
  split_ifs with ha hb hc
  · rw [abs_le]; constructor <;> linarith
  · rw [abs_le]; push_cast; constructor <;> linarith
  · have : q - ⌊q⌋ = 1 / 2 := le_antisymm (not_lt.mp hb) (not_lt.mp ha)
    rw [abs_le]; constructor <;> linarith
  · have : q - ⌊q⌋ = 1 / 2 := le_antisymm (not_lt.mp hb) (not_lt.mp ha)
    rw [abs_le]; push_cast; constructor <;> linarith

/-- A value that fits 32 bits is left alone by the conversion to `int`. -/
theorem toInt32_of_fits (v : Int) (hlo : -(2 ^ 31) ≤ v) (hhi : v < 2 ^ 31) :
    toInt32 v = v := by
  unfold toInt32
  norm_num at hlo hhi ⊢
  omega

/-- The function `lrint` on a number less than one half away from an integer. -/
theorem lrint_of_near (q : ℚ) (z : Int) (hlo : (z : ℚ) - 1 / 2 < q)
    (hhi : q < (z : ℚ) + 1 / 2) : lrint q = z := by
  have h1 : ((⌊q⌋ : Int) : ℚ) ≤ q := Int.floor_le q
  have h2 : q < ((⌊q⌋ : Int) : ℚ) + 1 := Int.lt_floor_add_one q
  have h3 : ⌊q⌋ ≤ z := by
    have : ((⌊q⌋ : Int) : ℚ) < ((z + 1 : Int) : ℚ) := by push_cast; linarith
    have := Int.cast_lt.mp this
    omega
  have h4 : z - 1 ≤ ⌊q⌋ := by
    have : ((z - 2 : Int) : ℚ) < ((⌊q⌋ : Int) : ℚ) := by push_cast; linarith
    have := Int.cast_lt.mp this
    omega
  have h5 : ⌊q⌋ = z ∨ ⌊q⌋ = z - 1 := by omega
  unfold lrint
  rcases h5 with h | h
  · rw [h]
    rw [if_pos (by linarith)]
  · rw [h]
    rw [if_neg (by push_cast; linarith), if_pos (by push_cast; linarith)]
    ring

/-- The binade of a number between two consecutive powers of two. -/
theorem binade_eq (q : ℚ) (e : Int) (hlo : (2 : ℚ) ^ e ≤ |q|) (hhi : |q| < (2 : ℚ) ^ (e + 1)) :
    binade q = e := by
  have hpos : (0 : ℚ) < |q| := lt_of_lt_of_le (by positivity) hlo
  have h1 : e ≤ Int.log 2 |q| := by
    rw [← Int.zpow_le_iff_le_log (by norm_num) hpos]
    simpa using hlo
  have h2 : Int.log 2 |q| < e + 1 := by
    rw [← Int.lt_zpow_iff_log_lt (by norm_num) hpos]
    simpa using hhi
  unfold binade
  omega

/-- The rounding to `double` of a number whose binade and nearest multiple of
the spacing are known. -/
theorem toFloat64_eq (q : ℚ) (e z : Int) (he : -1022 ≤ e)
    (hlo : (2 : ℚ) ^ e ≤ |q|) (hhi : |q| < (2 : ℚ) ^ (e + 1))
    (hzlo : (z : ℚ) - 1 / 2 < q / 2 ^ (e - 52)) (hzhi : q / 2 ^ (e - 52) < (z : ℚ) + 1 / 2) :
    toFloat64 q = (z : ℚ) * 2 ^ (e - 52) := by
  have hq : q ≠ 0 := by
    intro h
    rw [h, abs_zero] at hlo
    exact absurd hlo (not_le.mpr (by positivity))
  have hulp : ulp64 q = 2 ^ (e - 52) := by
    unfold ulp64
    rw [binade_eq q e hlo hhi, max_eq_left he]
  unfold toFloat64
  rw [if_neg hq, hulp, lrint_of_near _ z hzlo hzhi]

/-- Below `2 ^ 31` in magnitude, the rounding to `double` moves a number by at
most `2 ^ (-23)`, half the spacing of the binary64 numbers there. -/
theorem toFloat64_near (q : ℚ) (hq : |q| < 2 ^ 31) : |toFloat64 q - q| ≤ 1 / 2 ^ 23 := by
  by_cases h0 : q = 0
  · simp [toFloat64, h0]
  · have hpos : (0 : ℚ) < |q| := abs_pos.mpr h0
    have hb : binade q < 31 := by
      unfold binade
      rw [← Int.lt_zpow_iff_log_lt (by norm_num) hpos]
      have h31 : ((2 : ℕ) : ℚ) ^ (31 : Int) = 2 ^ 31 := by norm_num
      rw [h31]
      exact hq
    have hexp : max (binade q) (-1022) - 52 ≤ -22 := by
      rcases max_cases (binade q) (-1022) with ⟨h, _⟩ | ⟨h, _⟩ <;> rw [h] <;> omega
    have hu : (0 : ℚ) < ulp64 q := by unfold ulp64; positivity
    have hule : ulp64 q ≤ 1 / 2 ^ 22 := by
      unfold ulp64
      calc (2 : ℚ) ^ (max (binade q) (-1022) - 52) ≤ 2 ^ (-22 : Int) :=
            zpow_le_zpow_right₀ (by norm_num) hexp
        _ = 1 / 2 ^ 22 := by norm_num
    have hnear := lrint_near (q / ulp64 q)
    unfold toFloat64
    rw [if_neg h0]
    have heq : ((lrint (q / ulp64 q) : Int) : ℚ) * ulp64 q - q
        = (((lrint (q / ulp64 q) : Int) : ℚ) - q / ulp64 q) * ulp64 q := by
      field_simp
    rw [heq, abs_mul, abs_of_pos hu]
    calc |((lrint (q / ulp64 q) : Int) : ℚ) - q / ulp64 q| * ulp64 q
        ≤ 1 / 2 * (1 / 2 ^ 22) := mul_le_mul hnear hule (le_of_lt hu) (by norm_num)
      _ = 1 / 2 ^ 23 := by norm_num

/-- The function `lrint` halfway between two integers: the even one. -/
theorem lrint_half (z : Int) :
    lrint ((z : ℚ) + 1 / 2) = if z % 2 = 0 then z else z + 1 := by
  have hfloor : ⌊(z : ℚ) + 1 / 2⌋ = z := by
    rw [Int.floor_eq_iff]
    constructor <;> linarith
  unfold lrint
  rw [hfloor]
  rw [if_neg (by norm_num), if_neg (by norm_num)]

/-- The quotient at 10 Hz is a `double`. -/
theorem toFloat64_at_10Hz : toFloat64 (1000000 / 10) = 1000000 / 10 := by
  rw [toFloat64_eq (1000000 / 10) 16 6871947673600000 (by norm_num)
    (by rw [abs_of_pos (by norm_num)]; norm_num)
    (by rw [abs_of_pos (by norm_num)]; norm_num) (by norm_num) (by norm_num)]
  norm_num

/-- The period at 10 Hz is 100000 microseconds. -/
theorem timerPeriod_at_10Hz : timerPeriodMicroseconds 10 = 100000 := by
  have hd : toFloat64 (1000000 / 10) = ((100000 : Int) : ℚ) := by
    rw [toFloat64_at_10Hz]
    norm_num
  rw [timerPeriodMicroseconds, mrptRound, hd, lrint_intCast]
  decide

/-- C16, counterexample: at `rate_hz = 0.0001` the quotient `1.0e6 / rate_hz` is
the `double` 10^10, which no `int` holds; the period that comes out,
1410065408 microseconds, is not within one half of 10^6 / rate_hz. -/
theorem C16_counterexample_slow_rate :
    (0 : ℚ) < oneTenThousandth ∧
    toFloat64 (1000000 / oneTenThousandth) = 10000000000 ∧
    (2 : Int) ^ 31 - 1 < 10000000000 ∧
    timerPeriodMicroseconds oneTenThousandth = 1410065408 ∧
    ¬ |((timerPeriodMicroseconds oneTenThousandth : Int) : ℚ) - 1000000 / oneTenThousandth|
        ≤ 1 / 2 := by
  have hd : toFloat64 (1000000 / oneTenThousandth) = ((10000000000 : Int) : ℚ) := by
    rw [toFloat64_eq (1000000 / oneTenThousandth) 33 5242880000000000 (by norm_num)
      (by rw [abs_of_pos (by norm_num [oneTenThousandth])]; norm_num [oneTenThousandth])
      (by rw [abs_of_pos (by norm_num [oneTenThousandth])]; norm_num [oneTenThousandth])
      (by norm_num [oneTenThousandth]) (by norm_num [oneTenThousandth])]
    norm_num
  have hp : timerPeriodMicroseconds oneTenThousandth = 1410065408 := by
    rw [timerPeriodMicroseconds, mrptRound, hd, lrint_intCast]
    decide
  refine ⟨by norm_num [oneTenThousandth], by rw [hd]; norm_num, by norm_num, hp, ?_⟩
  rw [hp]
  norm_num [abs_le, oneTenThousandth]

/-- Within the range of `int` too the period may be more than one half away:
at `rate_hz = 2.5000031250039063` the exact quotient is just below 399999.5,
its nearest integer is 399999, but the `double` quotient is 399999.5 and the
period 400000. -/
theorem timerPeriod_near_tie :
    (0 : ℚ) < rateNearTie ∧ 1000000 / rateNearTie ≤ 2147483647 ∧
    lrint (1000000 / rateNearTie) = 399999 ∧
    toFloat64 (1000000 / rateNearTie) = 799999 / 2 ∧
    timerPeriodMicroseconds rateNearTie = 400000 ∧
    ¬ |((timerPeriodMicroseconds rateNearTie : Int) : ℚ) - 1000000 / rateNearTie| ≤ 1 / 2 := by
  have hd : toFloat64 (1000000 / rateNearTie) = ((399999 : Int) : ℚ) + 1 / 2 := by
    rw [toFloat64_eq (1000000 / rateNearTie) 18 6871939083665408 (by norm_num)
      (by rw [abs_of_pos (by norm_num [rateNearTie])]; norm_num [rateNearTie])
      (by rw [abs_of_pos (by norm_num [rateNearTie])]; norm_num [rateNearTie])
      (by norm_num [rateNearTie]) (by norm_num [rateNearTie])]
    norm_num
  have hp : timerPeriodMicroseconds rateNearTie = 400000 := by
    rw [timerPeriodMicroseconds, mrptRound, hd, lrint_half]
    decide
  refine ⟨by norm_num [rateNearTie], by norm_num [rateNearTie], ?_, by rw [hd]; norm_num,
    hp, ?_⟩
  · exact lrint_of_near _ 399999 (by norm_num [rateNearTie]) (by norm_num [rateNearTie])
  · rw [hp]
    norm_num [abs_le, rateNearTie]

/-- C16, amended: for every configured `rate_hz > 0` whose period fits an `int`
(10^6 / rate_hz at most 2^31 - 1), the period of the stepping timer is the
integer nearest to the `double` quotient `1.0e6 / rate_hz`, ties to even; that
`double` is within 2^(-23) of 10^6 / rate_hz, so the period is within
0.5 + 2^(-23) microseconds of 1 / rate_hz seconds, and within 0.5 when the
quotient is a `double` itself. -/
theorem C16_timer_period_nearest (rate_hz : ℚ) (hpos : 0 < rate_hz)
    (hfit : 1000000 / rate_hz ≤ 2147483647) :
    timerPeriodMicroseconds rate_hz = lrint (toFloat64 (1000000 / rate_hz)) ∧
    |toFloat64 (1000000 / rate_hz) - 1000000 / rate_hz| ≤ 1 / 2 ^ 23 ∧
    |((timerPeriodMicroseconds rate_hz : Int) : ℚ) - 1000000 / rate_hz|
      ≤ 1 / 2 + 1 / 2 ^ 23 ∧
    (toFloat64 (1000000 / rate_hz) = 1000000 / rate_hz →
      timerPeriodMicroseconds rate_hz = lrint (1000000 / rate_hz) ∧
      |((timerPeriodMicroseconds rate_hz : Int) : ℚ) - 1000000 / rate_hz| ≤ 1 / 2) := by
  have hq : (0 : ℚ) < 1000000 / rate_hz := by positivity
  have habs : |1000000 / rate_hz| < 2 ^ 31 := by
    rw [abs_of_pos hq]
    linarith
  have hd := toFloat64_near (1000000 / rate_hz) habs
  have hnear := lrint_near (toFloat64 (1000000 / rate_hz))
  have hd2 := abs_le.mp hd
  have hnear2 := abs_le.mp hnear
  have hlo : (-1 : ℚ) < ((lrint (toFloat64 (1000000 / rate_hz)) : Int) : ℚ) := by
    have : (1 : ℚ) / 2 ^ 23 < 1 / 2 := by norm_num
    linarith [hnear2.1, hd2.1]
  have hhi : ((lrint (toFloat64 (1000000 / rate_hz)) : Int) : ℚ) < 2147483648 := by
    have : (1 : ℚ) / 2 ^ 23 < 1 / 2 := by norm_num
    linarith [hnear2.2, hd2.2]
  have hlo2 : (-1 : Int) < lrint (toFloat64 (1000000 / rate_hz)) := by exact_mod_cast hlo
  have hhi2 : lrint (toFloat64 (1000000 / rate_hz)) < 2147483648 := by exact_mod_cast hhi
  have heq : timerPeriodMicroseconds rate_hz = lrint (toFloat64 (1000000 / rate_hz)) := by
    rw [timerPeriodMicroseconds, mrptRound]
    apply toInt32_of_fits
    · norm_num; omega
    · norm_num; omega
  refine ⟨heq, hd, ?_, ?_⟩
  · rw [heq, abs_le]
    constructor <;> linarith [hnear2.1, hnear2.2, hd2.1, hd2.2]
  · intro hexact
    rw [heq, hexact]
    exact ⟨rfl, lrint_near _⟩

/-- The witness of C16: the rate 10 Hz, whose quotient 100000 is a `double`. -/
theorem C16_timer_period_nearest_witness :
    timerPeriodMicroseconds 10 = lrint (toFloat64 (1000000 / 10)) ∧
    |toFloat64 (1000000 / 10) - 1000000 / 10| ≤ 1 / 2 ^ 23 ∧
    |((timerPeriodMicroseconds 10 : Int) : ℚ) - 1000000 / 10| ≤ 1 / 2 + 1 / 2 ^ 23 ∧
    timerPeriodMicroseconds 10 = lrint (1000000 / 10) ∧
    |((timerPeriodMicroseconds 10 : Int) : ℚ) - 1000000 / 10| ≤ 1 / 2 :=
  have h := C16_timer_period_nearest 10 (by norm_num) (by norm_num)
  ⟨h.1, h.2.1, h.2.2.1, (h.2.2.2 toFloat64_at_10Hz).1, (h.2.2.2 toFloat64_at_10Hz).2⟩

/-! ### Construction of the reactive navigation node -/

/-- Whenever `cfg_file_reactive` is empty or names a file that does not exist,
the constructor does not complete, the error is logged, and nothing has been
created or applied to the engine; it ends in `std::terminate` unless the
`assert` on the period has aborted first. -/
theorem construct_bad_cfg_file (ndebug : Bool) (fs : FileSystem) (p : ReactiveNavParameters)
    (hbad : p.m_cfg_file_reactive.isEmpty = true ∨
      fs.fileExists p.m_cfg_file_reactive = false) :
    (ReactiveNav2DNode.construct ndebug fs p).ending ≠ Ending.completed ∧
    (ReactiveNav2DNode.construct ndebug fs p).effects = [] ∧
    ((ReactiveNav2DNode.construct ndebug fs p).ending = Ending.terminate ∨
     (ReactiveNav2DNode.construct ndebug fs p).ending = Ending.assertAbort) ∧
    ((ReactiveNav2DNode.construct ndebug fs p).ending = Ending.terminate →
      ∃ text, (⟨LogLevel.ERROR, text⟩ : LogEntry)
        ∈ (ReactiveNav2DNode.construct ndebug fs p).logs) := by
  unfold ReactiveNav2DNode.construct
  by_cases ha : (!ndebug && !decide (p.m_nav_period > 0)) = true
  · simp [ha]
  · by_cases he : p.m_cfg_file_reactive.isEmpty = true
    · simp [ha, he]
    · rcases hbad with h | h
      · exact absurd h he
      · simp [ha, he, h]

/-- C19, the code at the failing input: with `cfg_file_reactive` empty, and with
the name of a file that does not exist, the constructor logs the error and
ends in `std::terminate`, not in an exception; nothing has been created; with
the file present it completes, shape and endpoints in place. -/
theorem C19_bad_cfg_file_terminates :
    ReactiveNav2DNode.construct true exampleFileSystem (exampleNavParameters "")
      = { effects := [],
          logs := [⟨.ERROR, "Mandatory param 'cfg_file_reactive' is missing!"⟩],
          ending := Ending.terminate } ∧
    ReactiveNav2DNode.construct true exampleFileSystem (exampleNavParameters "missing.ini")
      = { effects := [],
          logs := [⟨.ERROR, "Config file not found: missing.ini"⟩],
          ending := Ending.terminate } ∧
    (ReactiveNav2DNode.construct true exampleFileSystem
        (exampleNavParameters "reactive2d_config.ini")).ending = Ending.completed ∧
    (ReactiveNav2DNode.construct true exampleFileSystem
        (exampleNavParameters "reactive2d_config.ini")).effects
      = [.enableLogFile false, .loadConfigFile "reactive2d_config.ini",
         .changeRobotShape [(-1, -1), (1, -1), (1, 1), (-1, 1)],
         .create_publisher "cmd_vel", .create_subscription "odom",
         .create_subscription "reactive_nav_waypoints",
         .create_subscription "reactive_nav_goal",
         .create_subscription "local_map_pointcloud", .create_wall_timer 100] := by
  decide

/-! ### ROS parameters to a YAML block -/

/-- After `map[k] = y` the node under `k` is `y`. -/
theorem findKey_setKey_same (k : String) (y : Yaml) (m : YamlMap) :
    findKey k (setKey k y m) = some y := by
  induction m with
  | nil => simp [setKey, findKey]
  | cons e rest ih =>
    obtain ⟨k1, y1⟩ := e
    unfold setKey
    split_ifs with h1 h2
    · simp [findKey]
    · simp [findKey]
    · simp [findKey, h1, ih]

/-- The assignment `map[k] = y` leaves the nodes under the other keys alone. -/
theorem findKey_setKey_ne (j k : String) (y : Yaml) (m : YamlMap) (hjk : j ≠ k) :
    findKey j (setKey k y m) = findKey j m := by
  have hkj : ¬ k = j := fun h => hjk h.symm
  induction m with
  | nil => simp [setKey, findKey, hkj]
  | cons e rest ih =>
    obtain ⟨k1, y1⟩ := e
    unfold setKey
    split_ifs with h1 h2
    · subst h1
      simp [findKey, hkj]
    · simp [findKey, hkj]
    · by_cases h3 : k1 = j
      · simp [findKey, h3]
      · simp [findKey, h3, ih]

/-- An empty map has no node at any path. -/
theorem atPath_empty (p : List String) : atPath p [] = none := by
  match p with
  | [] => rfl
  | [k] => rfl
  | k :: k2 :: ks => rfl

/-- A name has at least one segment. -/
theorem splitDots_ne_nil (cs : List Char) : splitDots cs ≠ [] := by
  induction cs with
  | nil => simp [splitDots]
  | cons c cs ih =>
    unfold splitDots
    split_ifs
    · simp
    · cases h : splitDots cs with
      | nil => exact absurd h ih
      | cons s ss => simp

/-- The segments of a name are not the empty path. -/
theorem segments_ne_nil (name : String) : segments name ≠ [] := by
  unfold segments
  simp [splitDots_ne_nil]

/-- Names with the same pieces are the same name. -/
theorem splitDots_injective (a b : List Char) (h : splitDots a = splitDots b) : a = b := by
  induction a generalizing b with
  | nil =>
    cases b with
    | nil => rfl
    | cons d ds =>
      unfold splitDots at h
      split_ifs at h with hd
      · simp at h
        exact absurd h (splitDots_ne_nil ds)
      · cases hs : splitDots ds with
        | nil => exact absurd hs (splitDots_ne_nil ds)
        | cons s ss => rw [hs] at h; simp at h
  | cons c cs ih =>
    cases b with
    | nil =>
      unfold splitDots at h
      split_ifs at h with hc
      · simp at h
        exact absurd h (splitDots_ne_nil cs)
      · cases hs : splitDots cs with
        | nil => exact absurd hs (splitDots_ne_nil cs)
        | cons s ss => rw [hs] at h; simp at h
    | cons d ds =>
      have hcs := splitDots_ne_nil cs
      have hds := splitDots_ne_nil ds
      rw [splitDots, splitDots] at h
      by_cases hc : c = '.'
      · by_cases hd : d = '.'
        · simp only [hc, hd, if_true, List.cons.injEq, true_and] at h
          rw [hc, hd, ih ds h]
        · simp only [hc, hd, if_true, if_false] at h
          cases hs : splitDots ds with
          | nil => exact absurd hs hds
          | cons s ss => rw [hs] at h; simp at h
      · by_cases hd : d = '.'
        · simp only [hc, hd, if_true, if_false] at h
          cases hs : splitDots cs with
          | nil => exact absurd hs hcs
          | cons s ss => rw [hs] at h; simp at h
        · simp only [hc, hd, if_false] at h
          cases hs : splitDots cs with
          | nil => exact absurd hs hcs
          | cons s ss =>
            cases ht : splitDots ds with
            | nil => exact absurd ht hds
            | cons t ts =>
              rw [hs, ht] at h
              simp only [List.cons.injEq] at h
              obtain ⟨⟨h1, h2⟩, h3⟩ := h
              have : splitDots cs = splitDots ds := by rw [hs, ht, h2, h3]
              rw [h1, ih ds this]

/-- Different names have different segments. -/
theorem segments_injective (a b : String) (h : segments a = segments b) : a = b := by
  unfold segments at h
  have hmk : Function.Injective String.mk := fun x y hxy => by
    injection hxy
  have h2 := splitDots_injective _ _ (List.map_injective_iff.mpr hmk h)
  exact String.ext h2

/-- One turn of the loop returns, provided no prefix of the name is stored as a
scalar in the block. -/
theorem assignAt_ok (p : List String) (v : ParameterValue) (m : YamlMap)
    (hfree : ∀ r w, r <+: p → atPath r m ≠ some (.scalar w)) :
    ∃ m1, assignAt p v m = .ok m1 := by
  induction p generalizing m with
  | nil => exact ⟨_, rfl⟩
  | cons k ks ih =>
    cases ks with
    | nil => exact ⟨_, rfl⟩
    | cons k2 more =>
      cases hf : findKey k m with
      | none =>
        obtain ⟨sub, hsub⟩ := ih []
          (fun r w _ => by rw [atPath_empty]; exact fun h => Option.noConfusion h)
        exact ⟨setKey k (.map sub) m, by simp only [assignAt, hf, hsub]⟩
      | some y =>
        cases y with
        | scalar w =>
          exfalso
          refine hfree [k] w ?_ ?_
          · exact ⟨k2 :: more, rfl⟩
          · simp [atPath, hf]
        | map entries =>
          have hsubfree : ∀ r w, r <+: k2 :: more → atPath r entries ≠ some (.scalar w) := by
            intro r w hr
            cases r with
            | nil => simp [atPath]
            | cons r1 rs =>
              have hpre : (k :: r1 :: rs) <+: (k :: k2 :: more) := by
                obtain ⟨t, ht⟩ := hr
                exact ⟨t, by rw [← ht]; rfl⟩
              have := hfree (k :: r1 :: rs) w hpre
              simpa [atPath, hf] using this
          obtain ⟨sub, hsub⟩ := ih entries hsubfree
          exact ⟨setKey k (.map sub) m, by simp only [assignAt, hf, hsub]⟩

/-- After one turn of the loop on a handled value, the value is at the path of
the name. -/
theorem assignAt_self (p : List String) (v : ParameterValue) (m m1 : YamlMap)
    (hp : p ≠ []) (hv : v.isHandled = true) (h : assignAt p v m = .ok m1) :
    atPath p m1 = some (.scalar v) := by
  induction p generalizing m m1 with
  | nil => exact absurd rfl hp
  | cons k ks ih =>
    cases ks with
    | nil =>
      simp only [assignAt, hv, if_true, Except.ok.injEq] at h
      subst h
      simp [atPath, findKey_setKey_same]
    | cons k2 more =>
      cases hf : findKey k m with
      | none =>
        simp only [assignAt, hf] at h
        cases hsub : assignAt (k2 :: more) v [] with
        | error e => rw [hsub] at h; simp at h
        | ok sub =>
          rw [hsub] at h
          simp only [Except.ok.injEq] at h
          subst h
          simp only [atPath, findKey_setKey_same]
          exact ih [] sub (by simp) hsub
      | some y =>
        cases y with
        | scalar w => simp [assignAt, hf] at h
        | map entries =>
          simp only [assignAt, hf] at h
          cases hsub : assignAt (k2 :: more) v entries with
          | error e => rw [hsub] at h; simp at h
          | ok sub =>
            rw [hsub] at h
            simp only [Except.ok.injEq] at h
            subst h
            simp only [atPath, findKey_setKey_same]
            exact ih entries sub (by simp) hsub

/-- What one turn of the loop produced at the first key of a nested name: the
block has a map under that key, the turn on the rest of the name having run
on the map that was there (or on an empty one). -/
theorem assignAt_nested (k k2 : String) (more : List String) (v : ParameterValue)
    (m m1 : YamlMap) (h : assignAt (k :: k2 :: more) v m = .ok m1) :
    ∃ sub0 sub, assignAt (k2 :: more) v sub0 = .ok sub ∧
      m1 = setKey k (.map sub) m ∧
      (findKey k m = none ∧ sub0 = [] ∨ findKey k m = some (.map sub0)) := by
  cases hf : findKey k m with
  | none =>
    simp only [assignAt, hf] at h
    cases hsub : assignAt (k2 :: more) v [] with
    | error e => rw [hsub] at h; simp at h
    | ok sub =>
      rw [hsub] at h
      simp only [Except.ok.injEq] at h
      exact ⟨[], sub, hsub, h.symm, Or.inl ⟨rfl, rfl⟩⟩
  | some y =>
    cases y with
    | scalar w => simp [assignAt, hf] at h
    | map entries =>
      simp only [assignAt, hf] at h
      cases hsub : assignAt (k2 :: more) v entries with
      | error e => rw [hsub] at h; simp at h
      | ok sub =>
        rw [hsub] at h
        simp only [Except.ok.injEq] at h
        exact ⟨entries, sub, hsub, h.symm, Or.inr rfl⟩

/-- The node at a nested path under a key, in terms of the map under that key. -/
theorem atPath_under (k j2 : String) (js : List String) (m sub0 : YamlMap)
    (hk : findKey k m = none ∧ sub0 = [] ∨ findKey k m = some (.map sub0)) :
    atPath (k :: j2 :: js) m = atPath (j2 :: js) sub0 := by
  rcases hk with ⟨hf, rfl⟩ | hf
  · simp [atPath, hf, atPath_empty]
  · simp [atPath, hf]

/-- One turn of the loop leaves alone every path that is unrelated to the name. -/
theorem assignAt_frame (p : List String) (v : ParameterValue) (m m1 : YamlMap)
    (q : List String) (h : assignAt p v m = .ok m1)
    (h1 : ¬ p <+: q) (h2 : ¬ q <+: p) : atPath q m1 = atPath q m := by
  induction p generalizing m m1 q with
  | nil => exact absurd (List.nil_prefix) h1
  | cons k ks ih =>
    cases q with
    | nil => rfl
    | cons j js =>
      cases ks with
      | nil =>
        have hjk : j ≠ k := by
          rintro rfl
          exact h1 ⟨js, rfl⟩
        simp only [assignAt, Except.ok.injEq] at h
        subst h
        split_ifs
        · cases js with
          | nil => simp [atPath, findKey_setKey_ne j k _ m hjk]
          | cons j2 js2 => simp [atPath, findKey_setKey_ne j k _ m hjk]
        · rfl
      | cons k2 more =>
        obtain ⟨sub0, sub, hsub, rfl, hk⟩ := assignAt_nested k k2 more v m m1 h
        by_cases hjk : j = k
        · subst hjk
          cases js with
          | nil => exact absurd ⟨k2 :: more, rfl⟩ h2
          | cons j2 js2 =>
            rw [atPath_under j j2 js2 m sub0 hk]
            have h1sub : ¬ (k2 :: more) <+: (j2 :: js2) := fun hp =>
              h1 ((List.prefix_cons_inj j).mpr hp)
            have h2sub : ¬ (j2 :: js2) <+: (k2 :: more) := fun hp =>
              h2 ((List.prefix_cons_inj j).mpr hp)
            rw [← ih sub0 sub (j2 :: js2) hsub h1sub h2sub]
            simp [atPath, findKey_setKey_same]
        · cases js with
          | nil => simp [atPath, findKey_setKey_ne j k _ m hjk]
          | cons j2 js2 => simp [atPath, findKey_setKey_ne j k _ m hjk]

/-- One turn of the loop stores no scalar elsewhere than at the path of the name. -/
theorem assignAt_scalars (p : List String) (v : ParameterValue) (m m1 : YamlMap)
    (r : List String) (w : ParameterValue) (h : assignAt p v m = .ok m1)
    (hr : atPath r m1 = some (.scalar w)) :
    r = p ∨ atPath r m = some (.scalar w) := by
  induction p generalizing m m1 r with
  | nil =>
    simp only [assignAt, Except.ok.injEq] at h
    subst h
    exact Or.inr hr
  | cons k ks ih =>
    cases r with
    | nil => simp [atPath] at hr
    | cons j js =>
      cases ks with
      | nil =>
        simp only [assignAt, Except.ok.injEq] at h
        subst h
        split_ifs at hr with hv
        · by_cases hjk : j = k
          · subst hjk
            cases js with
            | nil => exact Or.inl rfl
            | cons j2 js2 => simp [atPath, findKey_setKey_same] at hr
          · right
            cases js with
            | nil => simpa [atPath, findKey_setKey_ne j k _ m hjk] using hr
            | cons j2 js2 => simpa [atPath, findKey_setKey_ne j k _ m hjk] using hr
        · exact Or.inr hr
      | cons k2 more =>
        obtain ⟨sub0, sub, hsub, rfl, hk⟩ := assignAt_nested k k2 more v m m1 h
        by_cases hjk : j = k
        · subst hjk
          cases js with
          | nil => simp [atPath, findKey_setKey_same] at hr
          | cons j2 js2 =>
            have hr2 : atPath (j2 :: js2) sub = some (.scalar w) := by
              simpa [atPath, findKey_setKey_same] using hr
            rcases ih sub0 sub (j2 :: js2) hsub hr2 with heq | hold
            · left; rw [heq]
            · right; rw [atPath_under j j2 js2 m sub0 hk]; exact hold
        · right
          cases js with
          | nil => simpa [atPath, findKey_setKey_ne j k _ m hjk] using hr
          | cons j2 js2 => simpa [atPath, findKey_setKey_ne j k _ m hjk] using hr

/-- The loop over the overrides still to go: if the names are pairwise
unrelated, the values handled, every override already done is stored at its
path and every scalar of the block belongs to an override already done, then
the loop returns and every override, done or still to go, is at its path. -/
theorem assignAll_stores (rest done : List (String × ParameterValue)) (m : YamlMap)
    (hpair : (done ++ rest).Pairwise (fun a b => unrelatedNames a.1 b.1))
    (hhandled : ∀ kv ∈ rest, kv.2.isHandled = true)
    (hstored : ∀ kv ∈ done, atPath (segments kv.1) m = some (.scalar kv.2))
    (hinv : ∀ r w, atPath r m = some (.scalar w) → ∃ kv ∈ done, segments kv.1 = r) :
    ∃ block, assignAll rest m = .ok block ∧
      ∀ kv ∈ done ++ rest, atPath (segments kv.1) block = some (.scalar kv.2) := by
  induction rest generalizing done m with
  | nil => exact ⟨m, rfl, by simpa using hstored⟩
  | cons kv rest ih =>
    obtain ⟨_, _, hcross⟩ := List.pairwise_append.mp hpair
    have hdone_kv : ∀ d ∈ done, unrelatedNames d.1 kv.1 := fun d hd =>
      hcross d hd kv (List.mem_cons_self _ _)
    obtain ⟨m1, hm1⟩ := assignAt_ok (segments kv.1) kv.2 m (by
      intro r w hr hscalar
      obtain ⟨d, hd, hdr⟩ := hinv r w hscalar
      exact (hdone_kv d hd).1 (hdr ▸ hr))
    have hpair2 : ((done ++ [kv]) ++ rest).Pairwise (fun a b => unrelatedNames a.1 b.1) := by
      simpa using hpair
    obtain ⟨block, hblock, hall⟩ := ih (done ++ [kv]) m1 hpair2
      (fun x hx => hhandled x (List.mem_cons_of_mem _ hx))
      (by
        intro d hd
        rcases List.mem_append.mp hd with hd | hd
        · rw [assignAt_frame (segments kv.1) kv.2 m m1 (segments d.1) hm1
            (hdone_kv d hd).2 (hdone_kv d hd).1]
          exact hstored d hd
        · rw [List.mem_singleton.mp hd]
          exact assignAt_self (segments kv.1) kv.2 m m1 (segments_ne_nil _)
            (hhandled kv (List.mem_cons_self _ _)) hm1)
      (by
        intro r w hr
        rcases assignAt_scalars (segments kv.1) kv.2 m m1 r w hm1 hr with heq | hold
        · exact ⟨kv, by simp, heq.symm⟩
        · obtain ⟨d, hd, hdr⟩ := hinv r w hold
          exact ⟨d, by simp [hd], hdr⟩)
    refine ⟨block, ?_, ?_⟩
    · simp only [assignAll, hm1, hblock]
    · intro x hx
      exact hall x (by simpa using hx)

/-- The pieces that the loop peels off are the name cut at every `.`. -/
theorem splitDots_eq_splitOn (cs : List Char) : splitDots cs = cs.splitOn '.' := by
  induction cs with
  | nil => simp [splitDots, List.splitOn]
  | cons c cs ih =>
    rw [splitDots, ih]
    simp only [List.splitOn, List.splitOnP_cons]
    by_cases hc : c = '.'
    · simp [hc]
    · have hne := List.splitOnP_ne_nil (fun x => x == '.') cs
      cases h : List.splitOnP (fun x => x == '.') cs with
      | nil => exact absurd h hne
      | cons s ss => simp [hc, List.modifyHead]

/-- The segments of a name are its dotted path. -/
theorem segments_eq_dottedPath (name : String) : segments name = dottedPath name := by
  unfold segments dottedPath
  rw [splitDots_eq_splitOn]

/-- The dotted path of the name of a path of pieces without a `.` is that path. -/
theorem dottedPath_dottedName (path : List String) (hne : path ≠ [])
    (hfree : ∀ s ∈ path, '.' ∉ s.toList) : dottedPath (dottedName path) = path := by
  unfold dottedPath dottedName
  have hpieces : ∀ l ∈ path.map String.toList, '.' ∉ l := by
    intro l hl
    obtain ⟨s, hs, rfl⟩ := List.mem_map.mp hl
    exact hfree s hs
  have hsome : path.map String.toList ≠ [] := by simpa using hne
  have h : List.splitOn '.' (['.'].intercalate (path.map String.toList))
      = path.map String.toList :=
    List.splitOn_intercalate (path.map String.toList) '.' hpieces hsome
  show List.map String.mk (List.splitOn '.' (['.'].intercalate (path.map String.toList))) = path
  rw [h, List.map_map]
  have : (String.mk ∘ String.toList) = id := by
    funext s
    rfl
  rw [this, List.map_id]

/-- The pieces of a text cut at every `.` hold no `.`. -/
theorem splitOn_free (cs : List Char) : ∀ l ∈ cs.splitOn '.', '.' ∉ l := by
  rw [← splitDots_eq_splitOn]
  induction cs with
  | nil => simp [splitDots]
  | cons c cs ih =>
    intro l hl
    rw [splitDots] at hl
    by_cases hc : c = '.'
    · simp only [hc, if_true, List.mem_cons] at hl
      rcases hl with rfl | hl
      · simp
      · exact ih l hl
    · simp only [hc, if_false] at hl
      cases h : splitDots cs with
      | nil => rw [h] at hl; simp at hl; rw [hl]; simpa using fun h2 => hc h2.symm
      | cons s ss =>
        rw [h] at hl ih
        simp only [List.mem_cons] at hl
        rcases hl with rfl | hl
        · intro hmem
          rcases List.mem_cons.mp hmem with h2 | h2
          · exact hc h2.symm
          · exact ih s (List.mem_cons_self _ _) h2
        · exact ih l (List.mem_cons_of_mem _ hl)

/-- A name is the name of its dotted path, whose pieces hold no `.`. -/
theorem dottedName_dottedPath (name : String) :
    dottedName (dottedPath name) = name ∧ dottedPath name ≠ [] ∧
    ∀ s ∈ dottedPath name, '.' ∉ s.toList := by
  refine ⟨?_, ?_, ?_⟩
  · unfold dottedName dottedPath
    rw [List.map_map]
    have : (String.toList ∘ String.mk) = id := by
      funext l
      rfl
    rw [this, List.map_id, List.intercalate_splitOn]
    rfl
  · unfold dottedPath
    simpa using List.splitOnP_ne_nil (fun x => x == '.') name.toList
  · intro s hs
    unfold dottedPath at hs
    obtain ⟨l, hl, rfl⟩ := List.mem_map.mp hs
    exact splitOn_free name.toList l hl

/-- Joining with dots a path made of two non-empty parts. -/
theorem intercalate_append (xs ys : List (List Char)) (hx : xs ≠ []) (hy : ys ≠ []) :
    ['.'].intercalate (xs ++ ys) = ['.'].intercalate xs ++ '.' :: ['.'].intercalate ys := by
  induction xs with
  | nil => exact absurd rfl hx
  | cons x xs ih =>
    cases xs with
    | nil =>
      cases ys with
      | nil => exact absurd rfl hy
      | cons y ys => simp [List.intercalate, List.intersperse]
    | cons x2 xs =>
      have := ih (by simp)
      simp only [List.intercalate, List.cons_append, List.intersperse] at this ⊢
      simp [this]

/-- If the segments of a name are the first segments of another, the names are
the same or the first, followed by a dot, starts the second. -/
theorem dotted_of_segments_prefix (a b : String) (h : segments a <+: segments b) :
    a = b ∨ (a.toList ++ ['.']) <+: b.toList := by
  have h2 : a.toList.splitOn '.' <+: b.toList.splitOn '.' := by
    unfold segments at h
    rw [splitDots_eq_splitOn, splitDots_eq_splitOn] at h
    have h3 := h.map String.toList
    simpa [List.map_map, Function.comp_def] using h3
  obtain ⟨t, ht⟩ := h2
  cases t with
  | nil =>
    left
    have h3 : a.toList = b.toList := by
      rw [← List.intercalate_splitOn a.toList '.', ← List.intercalate_splitOn b.toList '.', ← ht]
      simp
    exact String.ext h3
  | cons y ys =>
    right
    have hb : b.toList = a.toList ++ '.' :: ['.'].intercalate (y :: ys) := by
      have hA : a.toList.splitOn '.' ≠ [] := List.splitOnP_ne_nil _ _
      have := List.intercalate_splitOn b.toList '.'
      rw [← ht, intercalate_append _ _ hA (by simp),
        List.intercalate_splitOn] at this
      exact this.symm
    rw [hb]
    exact ⟨['.'].intercalate (y :: ys), by simp⟩

/-- C15: for parameter overrides of handled types with distinct names, none of
whose names, followed by a dot, starts another name (none is a proper dotted
prefix of another), `reload_params_from_ros` returns a YAML block in which
every parameter is stored, with its value, at the nested path that its name
cut at every `.` gives: for every path `[s1, ..., sk]` of pieces without a
dot, the parameter named `s1.s2...sk` is at `[s1][s2]...[sk]`, and every name
is the name of such a path. So parameters that share a parent prefix sit
under the same parent map and none overwrites another. -/
theorem C15_params_block_nested (allParams : List (String × ParameterValue))
    (hhandled : ∀ kv ∈ allParams, kv.2.isHandled = true)
    (hdistinct : (allParams.map Prod.fst).Nodup)
    (hproper : ∀ a ∈ allParams, ∀ b ∈ allParams, ¬ (a.1.toList ++ ['.']) <+: b.1.toList) :
    ∃ block, reload_params_from_ros allParams = .ok block ∧
      (∀ kv ∈ allParams, atPath (dottedPath kv.1) block = some (.scalar kv.2)) ∧
      (∀ (path : List String) (v : ParameterValue), path ≠ [] →
        (∀ s ∈ path, '.' ∉ s.toList) → (dottedName path, v) ∈ allParams →
        atPath path block = some (.scalar v)) ∧
      (∀ kv ∈ allParams, dottedName (dottedPath kv.1) = kv.1 ∧ dottedPath kv.1 ≠ [] ∧
        ∀ s ∈ dottedPath kv.1, '.' ∉ s.toList) := by
  have hne : allParams.Pairwise (fun a b => a.1 ≠ b.1) :=
    List.pairwise_map.mp hdistinct
  have hpair : allParams.Pairwise (fun a b => unrelatedNames a.1 b.1) := by
    refine hne.imp_of_mem ?_
    intro a b ha hb hab
    constructor
    · intro hp
      rcases dotted_of_segments_prefix a.1 b.1 hp with h | h
      · exact hab h
      · exact hproper a ha b hb h
    · intro hp
      rcases dotted_of_segments_prefix b.1 a.1 hp with h | h
      · exact hab h.symm
      · exact hproper b hb a ha h
  obtain ⟨block, hblock, hall⟩ := assignAll_stores allParams [] []
    (by simpa using hpair) hhandled (by simp)
    (by intro r w hr; rw [atPath_empty] at hr; exact Option.noConfusion hr)
  have hstored : ∀ kv ∈ allParams, atPath (dottedPath kv.1) block = some (.scalar kv.2) := by
    intro kv hkv
    rw [← segments_eq_dottedPath]
    exact hall kv (by simpa using hkv)
  refine ⟨block, hblock, hstored, ?_, fun kv _ => dottedName_dottedPath kv.1⟩
  intro path v hpath hfree hmem
  have h := hstored (dottedName path, v) hmem
  rwa [dottedPath_dottedName path hpath hfree] at h

/-- The overrides `foo.bar`, `foo.baz` and `rate_hz` give a block with the map
`foo`, holding `bar` and `baz`, and the scalar `rate_hz`. -/
theorem reload_params_example :
    segments "foo.bar" = ["foo", "bar"] ∧
    dottedPath "foo.bar" = ["foo", "bar"] ∧
    dottedName ["foo", "bar"] = "foo.bar" ∧
    reload_params_from_ros
        [("foo.bar", .PARAMETER_INTEGER 1), ("foo.baz", .PARAMETER_STRING "x"),
         ("rate_hz", .PARAMETER_DOUBLE 10)]
      = .ok [("foo", .map [("bar", .scalar (.PARAMETER_INTEGER 1)),
                           ("baz", .scalar (.PARAMETER_STRING "x"))]),
             ("rate_hz", .scalar (.PARAMETER_DOUBLE 10))] := by
  refine ⟨by decide, by decide, by decide, rfl⟩

/-- When a name is a dotted prefix of a later one (`a` and `a.b`), the loop
throws at `asMap()`. -/
theorem reload_params_prefix_throws :
    reload_params_from_ros [("a", .PARAMETER_INTEGER 1), ("a.b", .PARAMETER_INTEGER 2)]
      = .error (.other "yaml: asMap() called on a node that is not a map") := by
  rfl

/-- The witness of C15: the overrides `foo.bar`, `foo.baz` and `rate_hz`;
`foo.bar` is stored at `["foo"]["bar"]`, next to `foo.baz` under `foo`. -/
theorem C15_params_block_nested_witness :
    ∃ block, reload_params_from_ros
        [("foo.bar", .PARAMETER_INTEGER 1), ("foo.baz", .PARAMETER_STRING "x"),
         ("rate_hz", .PARAMETER_DOUBLE 10)] = .ok block ∧
      atPath ["foo", "bar"] block = some (.scalar (.PARAMETER_INTEGER 1)) ∧
      atPath ["foo", "baz"] block = some (.scalar (.PARAMETER_STRING "x")) ∧
      atPath ["rate_hz"] block = some (.scalar (.PARAMETER_DOUBLE 10)) :=
  match C15_params_block_nested
    [("foo.bar", .PARAMETER_INTEGER 1), ("foo.baz", .PARAMETER_STRING "x"),
     ("rate_hz", .PARAMETER_DOUBLE 10)]
    (by decide) (by decide) (by decide) with
  | ⟨block, hblock, _, hpath, _⟩ =>
    ⟨block, hblock,
      hpath ["foo", "bar"] (.PARAMETER_INTEGER 1) (by decide) (by decide) (by decide),
      hpath ["foo", "baz"] (.PARAMETER_STRING "x") (by decide) (by decide) (by decide),
      hpath ["rate_hz"] (.PARAMETER_DOUBLE 10) (by decide) (by decide) (by decide)⟩

/-! ### Point clouds and the sensor pose -/

/-- When the frame lookup succeeds, whatever the transform found,
`callbackPointCloud` hands the core the same observation: default sensor pose,
the points of the message. -/
theorem callbackPointCloud_lookup_ok (tf : TfBuffer) (fromROS : Transform → CPose3D)
    (ms : Int) (created : Time) (msg : PointCloud2) (topicName : String) (tr : Transform)
    (n : PFLocalizationNode)
    (hfound : tf.lookupTransform msg.frame_id n.nodeParams_.base_footprint_frame_id
      (waitForTransformTimeout ms) = .ok tr) :
    ∃ n1, callbackPointCloud tf fromROS ms created msg topicName n = .ok n1 ∧
      n1.coreCalls = n.coreCalls ++
        [CoreCall.on_observation (pointCloudObs created msg topicName)] ∧
      (pointCloudObs created msg topicName).sensorPose = CPose3D.identity ∧
      (pointCloudObs created msg topicName).payload = msg.points := by
  have hw : PFLocalizationNode.waitForTransform tf fromROS CPose3D.identity msg.frame_id
      (log .DEBUG ("Received point cloud (" ++ topicName ++ ")") n).nodeParams_.base_footprint_frame_id
      ms = .ok { ret := true, des := fromROS tr,
                 logs := [⟨.DEBUG, "[waitForTransform] Found pose"⟩] } := by
    unfold PFLocalizationNode.waitForTransform
    have hn : (log .DEBUG ("Received point cloud (" ++ topicName ++ ")") n).nodeParams_
        = n.nodeParams_ := rfl
    rw [hn, hfound]
  unfold callbackPointCloud
  simp only [hw]
  exact ⟨_, rfl, rfl, rfl, rfl⟩

/-! ### Robot shape at construction -/

/-- A traversal in `Option` whose steps all succeed is a map. -/
theorem mapM_option_eq_map {α β : Type} (f : α → Option β) (g : α → β) (l : List α)
    (h : ∀ a ∈ l, f a = some (g a)) : l.mapM f = some (l.map g) := by
  induction l with
  | nil => rfl
  | cons a l ih =>
    rw [List.mapM_cons, h a (List.mem_cons_self _ _),
      ih (fun b hb => h b (List.mem_cons_of_mem _ hb))]
    rfl

/-- With vectors of equal length every index access of the polygon loop is in
bounds, and the polygon has one vertex `(xs[i], ys[i])` per index. -/
theorem shapePolygon_of_equal_length (xs ys : List Int) (hlen : xs.length = ys.length) :
    ∃ poly, ReactiveNav2DNode.shapePolygon xs ys = some poly ∧
      poly.length = xs.length ∧
      ∀ i, i < xs.length → ∃ x y, xs[i]? = some x ∧ ys[i]? = some y ∧ poly[i]? = some (x, y) := by
  refine ⟨(List.range xs.length).map (fun i => (xs.getD i 0, ys.getD i 0)), ?_, by simp, ?_⟩
  · unfold ReactiveNav2DNode.shapePolygon
    apply mapM_option_eq_map
    intro i hi
    have hix : i < xs.length := List.mem_range.mp hi
    have hiy : i < ys.length := hlen ▸ hix
    simp [List.getElem?_eq_getElem hix, List.getElem?_eq_getElem hiy, List.getD_eq_getElem?_getD]
  · intro i hix
    have hiy : i < ys.length := hlen ▸ hix
    refine ⟨xs[i], ys[i], List.getElem?_eq_getElem hix, List.getElem?_eq_getElem hiy, ?_⟩
    simp [List.getElem?_map, List.getElem?_range hix, List.getD_eq_getElem?_getD,
      List.getElem?_eq_getElem hix, List.getElem?_eq_getElem hiy]

/-- The constructor with a configuration file that exists and loads, and no
shape topic: the steps before and after the loading of the robot shape. -/
theorem construct_no_topic (ndebug : Bool) (fs : FileSystem) (p : ReactiveNavParameters)
    (hassert : (!ndebug && !decide (p.m_nav_period > 0)) = false)
    (hname : p.m_cfg_file_reactive.isEmpty = false)
    (hexists : fs.fileExists p.m_cfg_file_reactive = true)
    (hloads : (fs.configFile p.m_cfg_file_reactive).loadError = none)
    (htopic : p.m_sub_topic_robot_shape.isEmpty = true) :
    ReactiveNav2DNode.construct ndebug fs p =
      match (ReactiveNav2DNode.loadRobotShape (fs.configFile p.m_cfg_file_reactive)).ending with
      | .completed =>
        { effects := [.enableLogFile p.m_save_nav_log, .loadConfigFile p.m_cfg_file_reactive]
            ++ (ReactiveNav2DNode.loadRobotShape (fs.configFile p.m_cfg_file_reactive)).effects
            ++ ReactiveNav2DNode.createEndpoints p,
          logs := [], ending := .completed }
      | e =>
        { effects := [.enableLogFile p.m_save_nav_log, .loadConfigFile p.m_cfg_file_reactive]
            ++ (ReactiveNav2DNode.loadRobotShape (fs.configFile p.m_cfg_file_reactive)).effects,
          logs := [], ending := e } := by
  unfold ReactiveNav2DNode.construct
  simp only [hassert, hname, hexists, hloads, htopic, Bool.false_eq_true, if_false,
    Bool.not_true]

/-- C22, counterexample: with shape vectors of lengths 1 and 0 and a configured
radius of 1, the constructor throws at the length check before the radius is
read: the radius is positive and yet not applied. -/
theorem C22_counterexample_radius_not_applied :
    (mismatchedShapeFileSystem.configFile "reactive2d_config.ini").RobotModel_circular_shape_radius
      > 0 ∧
    NavEffect.changeRobotCircularShapeRadius 1 ∉
      (ReactiveNav2DNode.construct true mismatchedShapeFileSystem
        (exampleNavParameters "reactive2d_config.ini")).effects ∧
    (ReactiveNav2DNode.construct true mismatchedShapeFileSystem
        (exampleNavParameters "reactive2d_config.ini")).effects
      = [.enableLogFile false, .loadConfigFile "reactive2d_config.ini"] ∧
    (ReactiveNav2DNode.construct true mismatchedShapeFileSystem
        (exampleNavParameters "reactive2d_config.ini")).ending ≠ Ending.completed := by
  decide

/-- C22, amended: in a construction with no robot-shape topic (the configuration
file present and loaded), if the vectors `RobotModel_shape2D_xs` and
`RobotModel_shape2D_ys` differ in length the constructor throws and nothing,
neither polygon nor radius, is applied; if they have the same length `n` the
constructor completes, every index access is in bounds, the engine receives a
polygon exactly when `n > 0`, of `n` vertices with `(xs[i], ys[i])` as the
`i`-th, and it receives the circular radius exactly when the radius is
positive. -/
theorem C22_robot_shape_from_config (ndebug : Bool) (fs : FileSystem)
    (p : ReactiveNavParameters)
    (hassert : (!ndebug && !decide (p.m_nav_period > 0)) = false)
    (hname : p.m_cfg_file_reactive.isEmpty = false)
    (hexists : fs.fileExists p.m_cfg_file_reactive = true)
    (hloads : (fs.configFile p.m_cfg_file_reactive).loadError = none)
    (htopic : p.m_sub_topic_robot_shape.isEmpty = true) :
    ((fs.configFile p.m_cfg_file_reactive).RobotModel_shape2D_xs.length
        ≠ (fs.configFile p.m_cfg_file_reactive).RobotModel_shape2D_ys.length →
      (∃ what, (ReactiveNav2DNode.construct ndebug fs p).ending = Ending.exception what) ∧
      (ReactiveNav2DNode.construct ndebug fs p).effects
        = [.enableLogFile p.m_save_nav_log, .loadConfigFile p.m_cfg_file_reactive]) ∧
    ((fs.configFile p.m_cfg_file_reactive).RobotModel_shape2D_xs.length
        = (fs.configFile p.m_cfg_file_reactive).RobotModel_shape2D_ys.length →
      ∃ poly : List (Int × Int),
        poly.length = (fs.configFile p.m_cfg_file_reactive).RobotModel_shape2D_xs.length ∧
        (∀ i, i < (fs.configFile p.m_cfg_file_reactive).RobotModel_shape2D_xs.length →
          ∃ x y, (fs.configFile p.m_cfg_file_reactive).RobotModel_shape2D_xs[i]? = some x ∧
            (fs.configFile p.m_cfg_file_reactive).RobotModel_shape2D_ys[i]? = some y ∧
            poly[i]? = some (x, y)) ∧
        (ReactiveNav2DNode.construct ndebug fs p).ending = Ending.completed ∧
        (ReactiveNav2DNode.construct ndebug fs p).effects
          = [.enableLogFile p.m_save_nav_log, .loadConfigFile p.m_cfg_file_reactive]
            ++ (if (fs.configFile p.m_cfg_file_reactive).RobotModel_shape2D_xs.length > 0
                then [NavEffect.changeRobotShape poly] else [])
            ++ (if (fs.configFile p.m_cfg_file_reactive).RobotModel_circular_shape_radius > 0
                then [NavEffect.changeRobotCircularShapeRadius
                  (fs.configFile p.m_cfg_file_reactive).RobotModel_circular_shape_radius]
                else [])
            ++ ReactiveNav2DNode.createEndpoints p) := by
  rw [construct_no_topic ndebug fs p hassert hname hexists hloads htopic]
  generalize fs.configFile p.m_cfg_file_reactive = cfg
  constructor
  · intro hne
    have hshape : ReactiveNav2DNode.loadRobotShape cfg =
        { effects := [], logs := [],
          ending := .exception
            "Config parameters RobotModel_shape2D_xs and RobotModel_shape2D_ys must have the same length!" } := by
      unfold ReactiveNav2DNode.loadRobotShape
      rw [if_pos hne]
    rw [hshape]
    exact ⟨⟨_, rfl⟩, rfl⟩
  · intro heq
    obtain ⟨poly, hpoly, hlen, hidx⟩ :=
      shapePolygon_of_equal_length cfg.RobotModel_shape2D_xs cfg.RobotModel_shape2D_ys heq
    refine ⟨poly, hlen, hidx, ?_⟩
    have hshape : ReactiveNav2DNode.loadRobotShape cfg =
        { effects :=
            (if cfg.RobotModel_shape2D_xs.isEmpty then [] else [NavEffect.changeRobotShape poly])
            ++ (if cfg.RobotModel_circular_shape_radius > 0
                then [NavEffect.changeRobotCircularShapeRadius
                  cfg.RobotModel_circular_shape_radius] else []),
          logs := [], ending := .completed } := by
      unfold ReactiveNav2DNode.loadRobotShape
      rw [if_neg (by simpa using heq), hpoly]
    rw [hshape]
    refine ⟨rfl, ?_⟩
    cases hxs : cfg.RobotModel_shape2D_xs with
    | nil => simp
    | cons x rest => simp

/-- The witness of C22: the configuration of a square robot, no shape topic. -/
theorem C22_robot_shape_from_config_witness :
    ∃ poly : List (Int × Int),
      poly.length = (exampleFileSystem.configFile
        (exampleNavParameters "reactive2d_config.ini").m_cfg_file_reactive).RobotModel_shape2D_xs.length ∧
      (∀ i, i < (exampleFileSystem.configFile
          (exampleNavParameters "reactive2d_config.ini").m_cfg_file_reactive).RobotModel_shape2D_xs.length →
        ∃ x y, (exampleFileSystem.configFile
            (exampleNavParameters "reactive2d_config.ini").m_cfg_file_reactive).RobotModel_shape2D_xs[i]?
            = some x ∧
          (exampleFileSystem.configFile
            (exampleNavParameters "reactive2d_config.ini").m_cfg_file_reactive).RobotModel_shape2D_ys[i]?
            = some y ∧
          poly[i]? = some (x, y)) ∧
      (ReactiveNav2DNode.construct true exampleFileSystem
        (exampleNavParameters "reactive2d_config.ini")).ending = Ending.completed ∧
      (ReactiveNav2DNode.construct true exampleFileSystem
        (exampleNavParameters "reactive2d_config.ini")).effects
        = [.enableLogFile (exampleNavParameters "reactive2d_config.ini").m_save_nav_log,
           .loadConfigFile (exampleNavParameters "reactive2d_config.ini").m_cfg_file_reactive]
          ++ (if (exampleFileSystem.configFile
                (exampleNavParameters "reactive2d_config.ini").m_cfg_file_reactive).RobotModel_shape2D_xs.length
                > 0
              then [NavEffect.changeRobotShape poly] else [])
          ++ (if (exampleFileSystem.configFile
                (exampleNavParameters "reactive2d_config.ini").m_cfg_file_reactive).RobotModel_circular_shape_radius
                > 0
              then [NavEffect.changeRobotCircularShapeRadius
                (exampleFileSystem.configFile
                  (exampleNavParameters "reactive2d_config.ini").m_cfg_file_reactive).RobotModel_circular_shape_radius]
              else [])
          ++ ReactiveNav2DNode.createEndpoints (exampleNavParameters "reactive2d_config.ini") :=
  (C22_robot_shape_from_config true exampleFileSystem
    (exampleNavParameters "reactive2d_config.ini") rfl rfl rfl rfl rfl).2 rfl

/-! ### Initialization of the navigation engine -/

/-- Once the engine is initialized, `k` invocations of `on_do_navigation` run
`k` navigation steps and nothing else. -/
theorem on_do_navigation_times_initialized (k : Nat) (n : ReactiveNav2DNode)
    (hinit : n.m_1st_time_init = true) :
    (ReactiveNav2DNode.on_do_navigation_times k n).engineCalls
      = n.engineCalls ++ List.replicate k EngineCall.navigationStep ∧
    (ReactiveNav2DNode.on_do_navigation_times k n).m_1st_time_init = true := by
  induction k with
  | zero => simp [ReactiveNav2DNode.on_do_navigation_times, hinit]
  | succ j ih =>
    obtain ⟨hcalls, hflag⟩ := ih
    simp only [ReactiveNav2DNode.on_do_navigation_times, ReactiveNav2DNode.on_do_navigation,
      hflag, hcalls, Bool.not_true, Bool.false_eq_true, if_false]
    simp [List.replicate_succ']

/-- Invoking `on_do_navigation` once and then `k` times is invoking it `k + 1` times. -/
theorem on_do_navigation_times_succ (k : Nat) (n : ReactiveNav2DNode) :
    ReactiveNav2DNode.on_do_navigation_times (k + 1) n
      = ReactiveNav2DNode.on_do_navigation_times k (ReactiveNav2DNode.on_do_navigation n) := by
  induction k with
  | zero => rfl
  | succ j ih =>
    have h : ReactiveNav2DNode.on_do_navigation_times (j + 1 + 1) n
        = ReactiveNav2DNode.on_do_navigation
            (ReactiveNav2DNode.on_do_navigation_times (j + 1) n) := rfl
    rw [h, ih]
    rfl

/-- C24: on a node on which the engine was not yet initialized (as the
constructor leaves it), over `k + 1` invocations of `on_do_navigation`, that
is any number `n >= 1`, the calls made on the engine are one `initialize()`,
made in the first invocation and before the first `navigationStep()`, followed
by `k + 1` calls of `navigationStep()`: `initialize()` is called exactly once
and `navigationStep()` once per invocation. -/
theorem C24_initialize_once (k : Nat) (n : ReactiveNav2DNode)
    (hfresh : n.m_1st_time_init = false) :
    (ReactiveNav2DNode.on_do_navigation n).engineCalls
      = n.engineCalls ++ [EngineCall.initializeEngine, EngineCall.navigationStep] ∧
    (ReactiveNav2DNode.on_do_navigation_times (k + 1) n).engineCalls
      = n.engineCalls ++
          EngineCall.initializeEngine :: List.replicate (k + 1) EngineCall.navigationStep ∧
    (ReactiveNav2DNode.on_do_navigation_times (k + 1) n).engineCalls.count
        EngineCall.initializeEngine = n.engineCalls.count EngineCall.initializeEngine + 1 ∧
    (ReactiveNav2DNode.on_do_navigation_times (k + 1) n).engineCalls.count
        EngineCall.navigationStep = n.engineCalls.count EngineCall.navigationStep + (k + 1) := by
  have hfirst : (ReactiveNav2DNode.on_do_navigation n).engineCalls
      = n.engineCalls ++ [EngineCall.initializeEngine, EngineCall.navigationStep] := by
    simp [ReactiveNav2DNode.on_do_navigation, hfresh]
  have hflag : (ReactiveNav2DNode.on_do_navigation n).m_1st_time_init = true := by
    simp [ReactiveNav2DNode.on_do_navigation, hfresh]
  have hall : (ReactiveNav2DNode.on_do_navigation_times (k + 1) n).engineCalls
      = n.engineCalls ++
          EngineCall.initializeEngine :: List.replicate (k + 1) EngineCall.navigationStep := by
    rw [on_do_navigation_times_succ,
      (on_do_navigation_times_initialized k _ hflag).1, hfirst]
    simp [List.replicate_succ]
  refine ⟨hfirst, hall, ?_, ?_⟩
  · rw [hall]
    simp [List.count_append, List.count_cons, List.count_replicate]
  · rw [hall]
    simp [List.count_append, List.count_cons, List.count_replicate]

/-- The witness of C24: the node as constructed, invoked four times. -/
theorem C24_initialize_once_witness :
    (ReactiveNav2DNode.on_do_navigation (ReactiveNav2DNode.constructed "map" 40)).engineCalls
      = (ReactiveNav2DNode.constructed "map" 40).engineCalls
        ++ [EngineCall.initializeEngine, EngineCall.navigationStep] ∧
    (ReactiveNav2DNode.on_do_navigation_times (3 + 1)
        (ReactiveNav2DNode.constructed "map" 40)).engineCalls
      = (ReactiveNav2DNode.constructed "map" 40).engineCalls ++
          EngineCall.initializeEngine :: List.replicate (3 + 1) EngineCall.navigationStep ∧
    (ReactiveNav2DNode.on_do_navigation_times (3 + 1)
        (ReactiveNav2DNode.constructed "map" 40)).engineCalls.count EngineCall.initializeEngine
      = (ReactiveNav2DNode.constructed "map" 40).engineCalls.count EngineCall.initializeEngine + 1 ∧
    (ReactiveNav2DNode.on_do_navigation_times (3 + 1)
        (ReactiveNav2DNode.constructed "map" 40)).engineCalls.count EngineCall.navigationStep
      = (ReactiveNav2DNode.constructed "map" 40).engineCalls.count EngineCall.navigationStep
        + (3 + 1) :=
  C24_initialize_once 3 (ReactiveNav2DNode.constructed "map" 40) rfl

/-! ### Goals and waypoint sequences -/

/-- The example pose library composes with the identity on the left as it should. -/
theorem examplePoseOps_identity (q : CPose3D) :
    examplePoseOps.compose CPose3D.identity q = q := by
  cases q
  simp [examplePoseOps, CPose3D.identity]

/-- The example pose library copies the position of a ROS pose. -/
theorem examplePoseOps_position (m : PoseMsg) :
    (examplePoseOps.fromROS m).x = m.px ∧ (examplePoseOps.fromROS m).y = m.py :=
  ⟨rfl, rfl⟩

/-- C23: for every waypoint-sequence message, `update_waypoint_sequence`
returns and hands the engine one sequence, in each of the three cases there
are: the message is in the reference frame (no lookup, relative pose the
identity), it is in another frame and the lookup finds a transform (relative
pose the converted transform), or the lookup fails with a
`tf2::TransformException` (relative pose still the identity); only an
exception of another kind leaves the function, with nothing handed over. The
sequence holds one waypoint per waypoint of the message, in the same order;
waypoint `i` carries the allowed distance and the skip flag of the `i`-th
message waypoint, and has its target heading set, to the transformed yaw,
exactly when `ignore_heading` is false and that yaw is not NaN; with the
identity as relative pose, so when the message frame is the reference frame,
the waypoint has the x and y of the message. The pose library is taken to
compose with the identity exactly and to copy positions. -/
theorem C23_waypoint_sequence_handed_over (tf : TfBuffer) (ops : PoseOps) (ms : Int)
    (msg : WaypointSequenceMsg) (n : ReactiveNav2DNode)
    (hid : ∀ q, ops.compose CPose3D.identity q = q)
    (hpos : ∀ m, (ops.fromROS m).x = m.px ∧ (ops.fromROS m).y = m.py) :
    (∀ n1, ReactiveNav2DNode.update_waypoint_sequence tf ops ms msg n = .ok n1 →
      ∃ relPose,
        n1.engineCalls = n.engineCalls ++
          [EngineCall.navigateWaypoints
            (msg.waypoints.map (ReactiveNav2DNode.waypointOf ops relPose))] ∧
        (msg.frame_id = n.m_frameid_reference → relPose = CPose3D.identity)) ∧
    (msg.frame_id = n.m_frameid_reference →
      ∃ n1, ReactiveNav2DNode.update_waypoint_sequence tf ops ms msg n = .ok n1) ∧
    (∀ relPose,
      (msg.waypoints.map (ReactiveNav2DNode.waypointOf ops relPose)).length
        = msg.waypoints.length ∧
      ∀ (i : Nat) (wp : WaypointMsg), msg.waypoints[i]? = some wp →
        (msg.waypoints.map (ReactiveNav2DNode.waypointOf ops relPose))[i]?
          = some (ReactiveNav2DNode.waypointOf ops relPose wp)) ∧
    (∀ relPose wp,
      (ReactiveNav2DNode.waypointOf ops relPose wp).allowed_distance = wp.allowed_distance ∧
      (ReactiveNav2DNode.waypointOf ops relPose wp).allow_skip = wp.allow_skip ∧
      ((ReactiveNav2DNode.waypointOf ops relPose wp).target_heading.isSome = true ↔
        wp.ignore_heading = false ∧
        (ops.yaw (ops.compose relPose (ops.fromROS wp.target))).isSome = true) ∧
      ((ReactiveNav2DNode.waypointOf ops relPose wp).target_heading.isSome = true →
        (ReactiveNav2DNode.waypointOf ops relPose wp).target_heading
          = ops.yaw (ops.compose relPose (ops.fromROS wp.target)))) ∧
    (∀ wp,
      (ReactiveNav2DNode.waypointOf ops CPose3D.identity wp).target_x = wp.target.px ∧
      (ReactiveNav2DNode.waypointOf ops CPose3D.identity wp).target_y = wp.target.py) ∧
    (msg.frame_id = n.m_frameid_reference →
      ∃ n1, ReactiveNav2DNode.update_waypoint_sequence tf ops ms msg n = .ok n1 ∧
        n1.engineCalls = n.engineCalls ++
          [EngineCall.navigateWaypoints
            (msg.waypoints.map (ReactiveNav2DNode.waypointOf ops CPose3D.identity))]) ∧
    (∀ found : Transform, msg.frame_id ≠ n.m_frameid_reference →
      tf.lookupTransform n.m_frameid_reference msg.frame_id (waitForTransformTimeout ms)
        = .ok found →
      ∃ n1, ReactiveNav2DNode.update_waypoint_sequence tf ops ms msg n = .ok n1 ∧
        n1.engineCalls = n.engineCalls ++
          [EngineCall.navigateWaypoints
            (msg.waypoints.map (ReactiveNav2DNode.waypointOf ops (ops.ofTransform found)))]) ∧
    (∀ what : String, msg.frame_id ≠ n.m_frameid_reference →
      tf.lookupTransform n.m_frameid_reference msg.frame_id (waitForTransformTimeout ms)
        = .error (.TransformException what) →
      ∃ n1, ReactiveNav2DNode.update_waypoint_sequence tf ops ms msg n = .ok n1 ∧
        n1.engineCalls = n.engineCalls ++
          [EngineCall.navigateWaypoints
            (msg.waypoints.map (ReactiveNav2DNode.waypointOf ops CPose3D.identity))]) ∧
    (∀ what : String, msg.frame_id ≠ n.m_frameid_reference →
      tf.lookupTransform n.m_frameid_reference msg.frame_id (waitForTransformTimeout ms)
        = .error (.other what) →
      ReactiveNav2DNode.update_waypoint_sequence tf ops ms msg n = .error (.other what)) := by
  refine ⟨?_, ?_, ?_, ?_, ?_, ?_, ?_, ?_, ?_⟩
  · intro n1 h
    unfold ReactiveNav2DNode.update_waypoint_sequence at h
    by_cases hf : msg.frame_id = n.m_frameid_reference
    · simp only [hf, ne_eq, not_true_eq_false, if_false, Except.ok.injEq] at h
      subst h
      exact ⟨CPose3D.identity, rfl, fun _ => rfl⟩
    · simp only [hf, ne_eq, not_false_eq_true, if_true] at h
      cases hw : ReactiveNav2DNode.waitForTransform tf ops.ofTransform CPose3D.identity
          n.m_frameid_reference msg.frame_id ms with
      | error e => rw [hw] at h; simp at h
      | ok r =>
        rw [hw] at h
        simp only [Except.ok.injEq] at h
        subst h
        exact ⟨r.des, rfl, fun hsame => absurd hsame hf⟩
  · intro hf
    unfold ReactiveNav2DNode.update_waypoint_sequence
    simp only [hf, ne_eq, not_true_eq_false, if_false]
    exact ⟨_, rfl⟩
  · intro relPose
    refine ⟨by simp, fun i wp hi => ?_⟩
    simp [List.getElem?_map, hi]
  · intro relPose wp
    refine ⟨rfl, rfl, ?_, ?_⟩
    · simp only [ReactiveNav2DNode.waypointOf]
      generalize ops.yaw (ops.compose relPose (ops.fromROS wp.target)) = y
      cases y <;> cases wp.ignore_heading <;> simp
    · simp only [ReactiveNav2DNode.waypointOf]
      generalize ops.yaw (ops.compose relPose (ops.fromROS wp.target)) = y
      cases y <;> cases wp.ignore_heading <;> simp
  · intro wp
    unfold ReactiveNav2DNode.waypointOf
    simp only [hid]
    exact hpos wp.target
  · intro hf
    unfold ReactiveNav2DNode.update_waypoint_sequence
    simp only [hf, ne_eq, not_true_eq_false, if_false]
    exact ⟨_, rfl, rfl⟩
  · intro found hf hfound
    unfold ReactiveNav2DNode.update_waypoint_sequence ReactiveNav2DNode.waitForTransform
    simp only [ne_eq, hf, not_false_eq_true, if_true, hfound]
    exact ⟨_, rfl, rfl⟩
  · intro what hf hfail
    unfold ReactiveNav2DNode.update_waypoint_sequence ReactiveNav2DNode.waitForTransform
    simp only [ne_eq, hf, not_false_eq_true, if_true, hfail]
    exact ⟨_, rfl, rfl⟩
  · intro what hf hfail
    unfold ReactiveNav2DNode.update_waypoint_sequence ReactiveNav2DNode.waitForTransform
    simp only [ne_eq, hf, not_false_eq_true, if_true, hfail]

/-- The example sequence, received in the reference frame: three waypoints in
order, a heading for the first only (the second ignores it, the yaw of the
third is NaN). -/
theorem update_waypoint_sequence_example :
    (match ReactiveNav2DNode.update_waypoint_sequence emptyTfBuffer examplePoseOps 50
        exampleWaypoints (ReactiveNav2DNode.constructed "map" 40) with
      | .ok n1 => some n1.engineCalls
      | .error _ => none)
      = some [EngineCall.navigateWaypoints
          [{ target_x := 1, target_y := 2, allowed_distance := 5, allow_skip := true,
             target_heading := some 3 },
           { target_x := 4, target_y := 5, allowed_distance := 7, allow_skip := false,
             target_heading := none },
           { target_x := 8, target_y := 9, allowed_distance := 1, allow_skip := true,
             target_heading := none }]] := by
  decide

/-- The example sequence, received in frame `odom` while the buffer knows the
transform (10, 20) with yaw 1: the three waypoints are handed over in order,
moved by the transform. -/
theorem update_waypoint_sequence_transformed_example :
    (match ReactiveNav2DNode.update_waypoint_sequence
        (constTfBuffer ⟨10, 20, 0, 0, 0, 1, 0⟩) examplePoseOps 50
        exampleWaypointsOdom (ReactiveNav2DNode.constructed "map" 40) with
      | .ok n1 => some n1.engineCalls
      | .error _ => none)
      = some [EngineCall.navigateWaypoints
          [{ target_x := 11, target_y := 22, allowed_distance := 5, allow_skip := true,
             target_heading := some 4 },
           { target_x := 14, target_y := 25, allowed_distance := 7, allow_skip := false,
             target_heading := none },
           { target_x := 18, target_y := 29, allowed_distance := 1, allow_skip := true,
             target_heading := some 1000 }]] := by
  decide

/-- The witness of C23: the example pose library and the example sequence,
received in the reference frame, and received in frame `odom` with a transform
found. -/
theorem C23_waypoint_sequence_handed_over_witness :
    (∃ n1, ReactiveNav2DNode.update_waypoint_sequence emptyTfBuffer examplePoseOps 50
        exampleWaypoints (ReactiveNav2DNode.constructed "map" 40) = .ok n1) ∧
    (ReactiveNav2DNode.waypointOf examplePoseOps CPose3D.identity
        { target := ⟨1, 2, 0, 0, 0, 3, 0⟩, allowed_distance := 5, allow_skip := true,
          ignore_heading := false }).target_x = 1 ∧
    (ReactiveNav2DNode.waypointOf examplePoseOps CPose3D.identity
        { target := ⟨1, 2, 0, 0, 0, 3, 0⟩, allowed_distance := 5, allow_skip := true,
          ignore_heading := false }).target_y = 2 ∧
    (∃ n1, ReactiveNav2DNode.update_waypoint_sequence
        (constTfBuffer ⟨10, 20, 0, 0, 0, 1, 0⟩) examplePoseOps 50
        exampleWaypointsOdom (ReactiveNav2DNode.constructed "map" 40) = .ok n1 ∧
      n1.engineCalls = (ReactiveNav2DNode.constructed "map" 40).engineCalls ++
        [EngineCall.navigateWaypoints
          (exampleWaypointsOdom.waypoints.map
            (ReactiveNav2DNode.waypointOf examplePoseOps
              (examplePoseOps.ofTransform ⟨10, 20, 0, 0, 0, 1, 0⟩)))]) :=
  have h := C23_waypoint_sequence_handed_over emptyTfBuffer examplePoseOps 50
    exampleWaypoints (ReactiveNav2DNode.constructed "map" 40) examplePoseOps_identity
    examplePoseOps_position
  have hwp := h.2.2.2.2.1 ⟨⟨1, 2, 0, 0, 0, 3, 0⟩, 5, true, false⟩
  have g := C23_waypoint_sequence_handed_over (constTfBuffer ⟨10, 20, 0, 0, 0, 1, 0⟩)
    examplePoseOps 50 exampleWaypointsOdom (ReactiveNav2DNode.constructed "map" 40)
    examplePoseOps_identity examplePoseOps_position
  ⟨h.2.1 rfl, hwp.1, hwp.2, g.2.2.2.2.2.2.1 ⟨10, 20, 0, 0, 0, 1, 0⟩ (by decide) rfl⟩

/-- When the lookup throws a `tf2::TransformException`, `waitForTransform` of the
reactive node returns false and leaves `des` as it was. -/
theorem reactive_waitForTransform_failed (tf : TfBuffer) (fromTf : Transform → CPose3D)
    (des : CPose3D) (target_frame source_frame what : String) (ms : Int)
    (hfail : tf.lookupTransform target_frame source_frame (waitForTransformTimeout ms)
      = .error (.TransformException what)) :
    ReactiveNav2DNode.waitForTransform tf fromTf des target_frame source_frame ms
      = .ok { ret := false, des := des, logs := [⟨.ERROR, what⟩] } := by
  unfold ReactiveNav2DNode.waitForTransform
  rw [hfail]

/-- C26: when a goal, or a waypoint sequence, arrives in a frame other than the
reference frame and the transform lookup fails, the callback still issues the
navigation command: the relative pose stays the identity and the target
coordinates handed to the engine are those of the message, untransformed. The
pose library is taken to compose with the identity exactly and to copy
positions. -/
theorem C26_failed_lookup_navigates_untransformed (tf : TfBuffer) (ops : PoseOps) (ms : Int)
    (goal : PoseStampedMsg) (seq : WaypointSequenceMsg) (n : ReactiveNav2DNode)
    (what1 what2 : String)
    (hid : ∀ q, ops.compose CPose3D.identity q = q)
    (hpos : ∀ m, (ops.fromROS m).x = m.px ∧ (ops.fromROS m).y = m.py)
    (hframe1 : goal.frame_id ≠ n.m_frameid_reference)
    (hfail1 : tf.lookupTransform n.m_frameid_reference goal.frame_id
      (waitForTransformTimeout ms) = .error (.TransformException what1))
    (hframe2 : seq.frame_id ≠ n.m_frameid_reference)
    (hfail2 : tf.lookupTransform n.m_frameid_reference seq.frame_id
      (waitForTransformTimeout ms) = .error (.TransformException what2)) :
    (∃ n1, ReactiveNav2DNode.on_goal_received tf ops ms goal n = .ok n1 ∧
      n1.engineCalls = n.engineCalls ++
        [EngineCall.navigate goal.pose.px goal.pose.py n.m_target_allowed_distance false]) ∧
    (∃ n2, ReactiveNav2DNode.update_waypoint_sequence tf ops ms seq n = .ok n2 ∧
      n2.engineCalls = n.engineCalls ++
        [EngineCall.navigateWaypoints
          (seq.waypoints.map (ReactiveNav2DNode.waypointOf ops CPose3D.identity))] ∧
      ∀ wp ∈ seq.waypoints,
        (ReactiveNav2DNode.waypointOf ops CPose3D.identity wp).target_x = wp.target.px ∧
        (ReactiveNav2DNode.waypointOf ops CPose3D.identity wp).target_y = wp.target.py) := by
  constructor
  · unfold ReactiveNav2DNode.on_goal_received
    simp only [ne_eq, hframe1, not_false_eq_true, if_true,
      reactive_waitForTransform_failed tf ops.ofTransform CPose3D.identity
        n.m_frameid_reference goal.frame_id what1 ms hfail1, hid]
    refine ⟨_, rfl, ?_⟩
    simp [ReactiveNav2DNode.navigate_to, CPose2D.ofCPose3D, (hpos goal.pose).1,
      (hpos goal.pose).2]
  · unfold ReactiveNav2DNode.update_waypoint_sequence
    simp only [ne_eq, hframe2, not_false_eq_true, if_true,
      reactive_waitForTransform_failed tf ops.ofTransform CPose3D.identity
        n.m_frameid_reference seq.frame_id what2 ms hfail2]
    refine ⟨_, rfl, rfl, fun wp _ => ?_⟩
    unfold ReactiveNav2DNode.waypointOf
    simp only [hid]
    exact hpos wp.target

/-- The witness of C26: a goal and a waypoint sequence in frame `odom`, the
reference frame being `map`, with a transform buffer that knows no frame. -/
theorem C26_failed_lookup_navigates_untransformed_witness :
    (∃ n1, ReactiveNav2DNode.on_goal_received emptyTfBuffer examplePoseOps 50 exampleGoal
        (ReactiveNav2DNode.constructed "map" 40) = .ok n1 ∧
      n1.engineCalls = (ReactiveNav2DNode.constructed "map" 40).engineCalls ++
        [EngineCall.navigate exampleGoal.pose.px exampleGoal.pose.py
          (ReactiveNav2DNode.constructed "map" 40).m_target_allowed_distance false]) ∧
    (∃ n2, ReactiveNav2DNode.update_waypoint_sequence emptyTfBuffer examplePoseOps 50
        exampleWaypointsOdom (ReactiveNav2DNode.constructed "map" 40) = .ok n2 ∧
      n2.engineCalls = (ReactiveNav2DNode.constructed "map" 40).engineCalls ++
        [EngineCall.navigateWaypoints
          (exampleWaypointsOdom.waypoints.map
            (ReactiveNav2DNode.waypointOf examplePoseOps CPose3D.identity))] ∧
      ∀ wp ∈ exampleWaypointsOdom.waypoints,
        (ReactiveNav2DNode.waypointOf examplePoseOps CPose3D.identity wp).target_x
          = wp.target.px ∧
        (ReactiveNav2DNode.waypointOf examplePoseOps CPose3D.identity wp).target_y
          = wp.target.py) :=
  C26_failed_lookup_navigates_untransformed emptyTfBuffer examplePoseOps 50 exampleGoal
    exampleWaypointsOdom (ReactiveNav2DNode.constructed "map" 40)
    "frame does not exist" "frame does not exist"
    examplePoseOps_identity examplePoseOps_position (by decide) rfl (by decide) rfl

/-- The example goal in frame `odom` with no transform known: one `navigate`
command to (7, 8), the coordinates of the message. -/
theorem on_goal_received_example :
    (match ReactiveNav2DNode.on_goal_received emptyTfBuffer examplePoseOps 50 exampleGoal
        (ReactiveNav2DNode.constructed "map" 40) with
      | .ok n1 => some n1.engineCalls
      | .error _ => none)
      = some [EngineCall.navigate 7 8 40 false] := by
  decide

/-! ### Maps and ticks of the TPS A* node -/

/-- Once the map flag is set, no event changes the flag, the grid map or the
number of executions of `updateMap`. -/
theorem deliver_map_flag_set (env : TPSEnvironment) (n : TPS_Astar_Nav_Node) (e : TPSEvent)
    (hflag : n.m_map_received_flag = true) :
    (TPS_Astar_Nav_Node.deliver env n e).m_map_received_flag = true ∧
    (TPS_Astar_Nav_Node.deliver env n e).m_grid_map = n.m_grid_map ∧
    (TPS_Astar_Nav_Node.deliver env n e).executed.filter OnceCall.isUpdateMap
      = n.executed.filter OnceCall.isUpdateMap := by
  unfold TPS_Astar_Nav_Node.deliver
  cases hr : n.running with
  | false => simp [hflag]
  | true =>
    cases e with
    | map msg => simp [TPS_Astar_Nav_Node.callbackMap, hflag]
    | obstacles pc => simp [TPS_Astar_Nav_Node.callbackObstacles, hflag]
    | timer =>
      simp only [if_true, TPS_Astar_Nav_Node.onDoNavigation]
      cases n.m_obstacle_src with
      | none => simp [hflag]
      | some src =>
        cases n.m_init_nav_flag <;> cases env.initializeNavigatorReturns <;>
          simp [hflag, List.filter_append, OnceCall.isUpdateMap]

/-- Once the map flag is set, no sequence of events changes the grid map or
executes `updateMap` again. -/
theorem run_map_flag_set (env : TPSEnvironment) (events : List TPSEvent)
    (n : TPS_Astar_Nav_Node) (hflag : n.m_map_received_flag = true) :
    (TPS_Astar_Nav_Node.run env events n).m_grid_map = n.m_grid_map ∧
    (TPS_Astar_Nav_Node.run env events n).executed.filter OnceCall.isUpdateMap
      = n.executed.filter OnceCall.isUpdateMap := by
  induction events generalizing n with
  | nil => exact ⟨rfl, rfl⟩
  | cons e rest ih =>
    obtain ⟨h1, h2, h3⟩ := deliver_map_flag_set env n e hflag
    have hstep : TPS_Astar_Nav_Node.run env (e :: rest) n
        = TPS_Astar_Nav_Node.run env rest (TPS_Astar_Nav_Node.deliver env n e) := rfl
    rw [hstep, (ih _ h1).1, (ih _ h1).2, h2, h3]
    exact ⟨rfl, rfl⟩

/-- The invariant on the executions of `initializeNavigator`: at most one; none
while the process runs with the flag unset; none while no obstacle source is
there. -/
theorem deliver_init_invariant (env : TPSEnvironment) (n : TPS_Astar_Nav_Node) (e : TPSEvent)
    (hone : n.executed.count OnceCall.initializeNavigator ≤ 1)
    (hunset : n.running = true → n.m_init_nav_flag = false →
      n.executed.count OnceCall.initializeNavigator = 0)
    (hnosrc : n.m_obstacle_src = none → n.executed.count OnceCall.initializeNavigator = 0) :
    (TPS_Astar_Nav_Node.deliver env n e).executed.count OnceCall.initializeNavigator ≤ 1 ∧
    ((TPS_Astar_Nav_Node.deliver env n e).running = true →
      (TPS_Astar_Nav_Node.deliver env n e).m_init_nav_flag = false →
      (TPS_Astar_Nav_Node.deliver env n e).executed.count OnceCall.initializeNavigator = 0) ∧
    ((TPS_Astar_Nav_Node.deliver env n e).m_obstacle_src = none →
      (TPS_Astar_Nav_Node.deliver env n e).executed.count OnceCall.initializeNavigator = 0) := by
  unfold TPS_Astar_Nav_Node.deliver
  cases hr : n.running with
  | false =>
    simp only [Bool.false_eq_true, if_false]
    exact ⟨hone, fun h => by rw [hr] at h; exact absurd h (by simp), hnosrc⟩
  | true =>
    simp only [if_true]
    cases e with
    | map msg =>
      simp only [TPS_Astar_Nav_Node.callbackMap]
      cases n.m_map_received_flag <;> cases env.updateMapReturns msg <;>
        simp [List.count_append, hone] <;>
        first
          | exact hnosrc
          | exact ⟨hunset, hnosrc⟩
    | obstacles pc =>
      simp only [TPS_Astar_Nav_Node.callbackObstacles]
      exact ⟨hone, fun _ => hunset hr, fun h => by simp at h⟩
    | timer =>
      simp only [TPS_Astar_Nav_Node.onDoNavigation]
      cases hsrc : n.m_obstacle_src with
      | none =>
        simp only
        exact ⟨hone, fun _ => hunset hr, fun _ => hnosrc hsrc⟩
      | some src =>
        cases hflag : n.m_init_nav_flag with
        | true =>
          simp only [if_true]
          exact ⟨hone, fun _ h => by rw [hflag] at h; exact absurd h (by simp),
            fun h => by rw [hsrc] at h; exact absurd h (by simp)⟩
        | false =>
          have hzero := hunset hr hflag
          cases env.initializeNavigatorReturns <;>
            simp [List.count_append, hzero, hsrc]

/-- The invariant on the executions of `initializeNavigator` holds after any
sequence of events. -/
theorem run_init_invariant (env : TPSEnvironment) (events : List TPSEvent)
    (n : TPS_Astar_Nav_Node)
    (hone : n.executed.count OnceCall.initializeNavigator ≤ 1)
    (hunset : n.running = true → n.m_init_nav_flag = false →
      n.executed.count OnceCall.initializeNavigator = 0)
    (hnosrc : n.m_obstacle_src = none → n.executed.count OnceCall.initializeNavigator = 0) :
    (TPS_Astar_Nav_Node.run env events n).executed.count OnceCall.initializeNavigator ≤ 1 ∧
    ((TPS_Astar_Nav_Node.run env events n).m_obstacle_src = none →
      (TPS_Astar_Nav_Node.run env events n).executed.count OnceCall.initializeNavigator = 0) := by
  induction events generalizing n with
  | nil => exact ⟨hone, hnosrc⟩
  | cons e rest ih =>
    obtain ⟨h1, h2, h3⟩ := deliver_init_invariant env n e hone hunset hnosrc
    exact ih (TPS_Astar_Nav_Node.deliver env n e) h1 h2 h3

/-- As long as no obstacle cloud is delivered, the node has no obstacle source. -/
theorem run_no_obstacles (env : TPSEnvironment) (events : List TPSEvent)
    (n : TPS_Astar_Nav_Node) (hnone : n.m_obstacle_src = none)
    (hev : ∀ e ∈ events, e.isObstacles = false) :
    (TPS_Astar_Nav_Node.run env events n).m_obstacle_src = none := by
  induction events generalizing n with
  | nil => exact hnone
  | cons e rest ih =>
    apply ih _ _ (fun x hx => hev x (List.mem_cons_of_mem _ hx))
    have he := hev e (List.mem_cons_self _ _)
    unfold TPS_Astar_Nav_Node.deliver
    cases n.running with
    | false => simpa using hnone
    | true =>
      cases e with
      | map msg =>
        simp only [if_true, TPS_Astar_Nav_Node.callbackMap]
        cases n.m_map_received_flag <;> cases env.updateMapReturns msg <;> simp [hnone]
      | obstacles pc => simp [TPSEvent.isObstacles] at he
      | timer => simp [TPS_Astar_Nav_Node.onDoNavigation, hnone]

/-- C25: when the first `callbackMap` (the map flag unset) completes normally,
`updateMap` has been executed with that map and the grid map is the one
converted from it; whatever is delivered afterwards, later maps included,
`updateMap` is not executed again and `m_grid_map` stays as it is. And over
any sequence of events delivered to the node as constructed,
`initializeNavigator` is executed at most once, and not at all as long as no
obstacle cloud has been delivered. -/
theorem C25_map_and_navigator_once (env : TPSEnvironment) (first : OccupancyGrid)
    (later events : List TPSEvent) (n : TPS_Astar_Nav_Node)
    (hflag : n.m_map_received_flag = false)
    (hreturns : env.updateMapReturns first = true) :
    (TPS_Astar_Nav_Node.callbackMap env first n).executed
      = n.executed ++ [OnceCall.updateMap first] ∧
    (TPS_Astar_Nav_Node.callbackMap env first n).m_grid_map = some first.points ∧
    (TPS_Astar_Nav_Node.run env later (TPS_Astar_Nav_Node.callbackMap env first n)).m_grid_map
      = some first.points ∧
    (TPS_Astar_Nav_Node.run env later
        (TPS_Astar_Nav_Node.callbackMap env first n)).executed.filter OnceCall.isUpdateMap
      = n.executed.filter OnceCall.isUpdateMap ++ [OnceCall.updateMap first] ∧
    (TPS_Astar_Nav_Node.run env events TPS_Astar_Nav_Node.constructed).executed.count
      OnceCall.initializeNavigator ≤ 1 ∧
    ((∀ e ∈ events, e.isObstacles = false) →
      (TPS_Astar_Nav_Node.run env events TPS_Astar_Nav_Node.constructed).executed.count
        OnceCall.initializeNavigator = 0) := by
  have hcall : TPS_Astar_Nav_Node.callbackMap env first n
      = { n with m_grid_map := some first.points,
                 executed := n.executed ++ [OnceCall.updateMap first],
                 m_map_received_flag := true } := by
    simp [TPS_Astar_Nav_Node.callbackMap, hflag, hreturns]
  have hset : (TPS_Astar_Nav_Node.callbackMap env first n).m_map_received_flag = true := by
    rw [hcall]
  obtain ⟨hgrid, hexec⟩ := run_map_flag_set env later _ hset
  obtain ⟨hone, hzero⟩ := run_init_invariant env events TPS_Astar_Nav_Node.constructed
    (by decide) (fun _ _ => by decide) (fun _ => by decide)
  refine ⟨by rw [hcall], by rw [hcall], ?_, ?_, hone, fun hev => ?_⟩
  · rw [hgrid, hcall]
  · rw [hexec, hcall]
    simp [List.filter_append, OnceCall.isUpdateMap]
  · exact hzero (run_no_obstacles env events _ rfl hev)

/-- The witness of C25: two maps, then an obstacle cloud and two ticks. -/
theorem C25_map_and_navigator_once_witness :
    (TPS_Astar_Nav_Node.callbackMap calmEnvironment ⟨[(1, 1)]⟩
        TPS_Astar_Nav_Node.constructed).executed
      = TPS_Astar_Nav_Node.constructed.executed ++ [OnceCall.updateMap ⟨[(1, 1)]⟩] ∧
    (TPS_Astar_Nav_Node.callbackMap calmEnvironment ⟨[(1, 1)]⟩
        TPS_Astar_Nav_Node.constructed).m_grid_map = some [(1, 1)] ∧
    (TPS_Astar_Nav_Node.run calmEnvironment [.map ⟨[(2, 2)]⟩, .obstacles [(3, 3)], .timer]
        (TPS_Astar_Nav_Node.callbackMap calmEnvironment ⟨[(1, 1)]⟩
          TPS_Astar_Nav_Node.constructed)).m_grid_map = some [(1, 1)] ∧
    (TPS_Astar_Nav_Node.run calmEnvironment [.map ⟨[(2, 2)]⟩, .obstacles [(3, 3)], .timer]
        (TPS_Astar_Nav_Node.callbackMap calmEnvironment ⟨[(1, 1)]⟩
          TPS_Astar_Nav_Node.constructed)).executed.filter OnceCall.isUpdateMap
      = TPS_Astar_Nav_Node.constructed.executed.filter OnceCall.isUpdateMap
        ++ [OnceCall.updateMap ⟨[(1, 1)]⟩] ∧
    (TPS_Astar_Nav_Node.run calmEnvironment [.timer, .map ⟨[(1, 1)]⟩, .timer]
        TPS_Astar_Nav_Node.constructed).executed.count OnceCall.initializeNavigator ≤ 1 ∧
    (TPS_Astar_Nav_Node.run calmEnvironment [.timer, .map ⟨[(1, 1)]⟩, .timer]
        TPS_Astar_Nav_Node.constructed).executed.count OnceCall.initializeNavigator = 0 :=
  have h := C25_map_and_navigator_once calmEnvironment ⟨[(1, 1)]⟩
    [.map ⟨[(2, 2)]⟩, .obstacles [(3, 3)], .timer] [.timer, .map ⟨[(1, 1)]⟩, .timer]
    TPS_Astar_Nav_Node.constructed rfl rfl
  ⟨h.1, h.2.1, h.2.2.1, h.2.2.2.1, h.2.2.2.2.1, h.2.2.2.2.2 (by decide)⟩

/-- A run of the node: a tick before any obstacle cloud executes nothing; after
a map, a cloud and three ticks, `updateMap` and `initializeNavigator` have
each been executed once, and a second map has been ignored. -/
theorem tps_run_example :
    (TPS_Astar_Nav_Node.run calmEnvironment
        [.timer, .map ⟨[(1, 1)]⟩, .obstacles [(3, 3)], .timer, .map ⟨[(2, 2)]⟩, .timer, .timer]
        TPS_Astar_Nav_Node.constructed)
      = { m_map_received_flag := true, m_init_nav_flag := true, m_grid_map := some [(1, 1)],
          m_obstacle_src := some [(3, 3)], running := true,
          executed := [OnceCall.updateMap ⟨[(1, 1)]⟩, OnceCall.initializeNavigator] } := by
  decide

/-! ### List parameters of the TPS A* node -/

/-- Leading whitespace is skipped whatever follows it. -/
theorem dropWhile_isspace_append (pre s : List Char) (hpre : ∀ c ∈ pre, isspace c = true) :
    (pre ++ s).dropWhile isspace = s.dropWhile isspace := by
  induction pre with
  | nil => rfl
  | cons c cs ih =>
    have hc := hpre c (List.mem_cons_self _ _)
    simp only [List.cons_append, List.dropWhile_cons, hc, if_true]
    exact ih (fun x hx => hpre x (List.mem_cons_of_mem _ hx))

/-- A text that does not start with whitespace loses nothing to the skipping. -/
theorem dropWhile_isspace_of_head (s : List Char)
    (hs : ∀ c, s.head? = some c → isspace c = false) : s.dropWhile isspace = s := by
  cases s with
  | nil => rfl
  | cons c cs => simp [List.dropWhile_cons, hs c rfl]

/-- Replacing a character that does not occur changes nothing. -/
theorem replaceChar_of_not_mem (old : Char) (str : List Char) (h : ∀ c ∈ str, c ≠ old) :
    replaceChar old str = str := by
  unfold replaceChar
  induction str with
  | nil => rfl
  | cons c cs ih =>
    simp only [List.map_cons, h c (List.mem_cons_self _ _), if_false]
    rw [ih (fun x hx => h x (List.mem_cons_of_mem _ hx))]

/-- Whitespace is neither of the two brackets. -/
theorem isspace_not_bracket (c : Char) (hc : isspace c = true) : c ≠ '[' ∧ c ≠ ']' := by
  constructor
  · rintro rfl
    exact absurd hc (by decide)
  · rintro rfl
    exact absurd hc (by decide)

/-- The characters between the brackets: those of the numbers, commas, and the
whitespace after the commas. -/
theorem mem_listBody {T : Type} (render : T → List Char) (items : List (T × List Char))
    (c : Char) (hc : c ∈ listBody render items) :
    c = ',' ∨ ∃ it ∈ items, c ∈ render it.1 ∨ c ∈ it.2 := by
  induction items with
  | nil => simp [listBody] at hc
  | cons it tail ih =>
    cases tail with
    | nil =>
      simp only [listBody] at hc
      exact Or.inr ⟨it, List.mem_cons_self _ _, Or.inl hc⟩
    | cons next more =>
      simp only [listBody, List.mem_append, List.mem_cons] at hc
      rcases hc with h | h | h | h
      · exact Or.inr ⟨it, List.mem_cons_self _ _, Or.inl h⟩
      · exact Or.inl h
      · exact Or.inr ⟨it, List.mem_cons_self _ _, Or.inr h⟩
      · rcases ih h with h2 | ⟨x, hx, h2⟩
        · exact Or.inl h2
        · exact Or.inr ⟨x, List.mem_cons_of_mem _ hx, h2⟩

/-- The text between the brackets has at least one character per number. -/
theorem length_listBody {T : Type} (render : T → List Char) (items : List (T × List Char))
    (hrender : ∀ it ∈ items, render it.1 ≠ []) :
    items.length ≤ (listBody render items).length := by
  induction items with
  | nil => simp
  | cons it tail ih =>
    have hit : 1 ≤ (render it.1).length :=
      List.length_pos.mpr (hrender it (List.mem_cons_self _ _))
    cases tail with
    | nil => simpa [listBody] using hit
    | cons next more =>
      have := ih (fun x hx => hrender x (List.mem_cons_of_mem _ hx))
      simp only [listBody, List.length_append, List.length_cons] at this ⊢
      omega

/-- The loop on the text of a list, a closing blank after it and whitespace in
front: with a turn more than there are numbers, it returns the numbers. -/
theorem readValues_listBody {T : Type} (num_get : List Char → Option (T × List Char))
    (render : T → List Char) (items : List (T × List Char))
    (hnone : num_get [] = none)
    (hrender : ∀ it ∈ items, render it.1 ≠ [] ∧ ∀ c ∈ render it.1, isspace c = false)
    (hgap : ∀ it ∈ items, ∀ c ∈ it.2, isspace c = true)
    (hget : ∀ it ∈ items, ∀ rest : List Char,
      (rest.head? = some ',' ∨ rest.head? = some blank) →
      num_get (render it.1 ++ rest) = some (it.1, rest))
    (pre : List Char) (hpre : ∀ c ∈ pre, isspace c = true)
    (fuel : Nat) (hfuel : items.length < fuel) :
    readValues num_get fuel (pre ++ (listBody render items ++ [blank]))
      = items.map Prod.fst := by
  induction items generalizing pre fuel with
  | nil =>
    obtain ⟨f, rfl⟩ : ∃ f, fuel = f + 1 := ⟨fuel - 1, by simp at hfuel; omega⟩
    have hall : (pre ++ (listBody render ([] : List (T × List Char)) ++ [blank])).dropWhile isspace
        = [] := by
      rw [List.dropWhile_eq_nil_iff]
      intro c hc
      simp only [listBody, List.nil_append, List.mem_append, List.mem_singleton] at hc
      rcases hc with h | h
      · exact hpre c h
      · rw [h]; decide
    simp only [readValues, hall, hnone, List.map_nil]
  | cons it tail ih =>
    obtain ⟨f, rfl⟩ : ∃ f, fuel = f + 1 := ⟨fuel - 1, by simp at hfuel; omega⟩
    have hf : tail.length < f := by simpa using hfuel
    obtain ⟨hne, hns⟩ := hrender it (List.mem_cons_self _ _)
    have hhead : ∀ (rest : List Char) (c : Char),
        (render it.1 ++ rest).head? = some c → isspace c = false := by
      intro rest c hc
      cases hr : render it.1 with
      | nil => exact absurd hr hne
      | cons r rs =>
        rw [hr] at hc
        simp only [List.cons_append, List.head?_cons, Option.some.injEq] at hc
        exact hns c (by rw [hr, ← hc]; exact List.mem_cons_self _ _)
    have ihtail := ih (fun x hx => hrender x (List.mem_cons_of_mem _ hx))
      (fun x hx => hgap x (List.mem_cons_of_mem _ hx))
      (fun x hx => hget x (List.mem_cons_of_mem _ hx))
    cases tail with
    | nil =>
      have hskip : (pre ++ (listBody render [it] ++ [blank])).dropWhile isspace
          = render it.1 ++ [blank] := by
        rw [dropWhile_isspace_append pre _ hpre]
        exact dropWhile_isspace_of_head _ (hhead [blank])
      have hrest := ihtail [] (by simp) f hf
      simp only [listBody, List.nil_append] at hrest
      simp only [readValues, hskip,
        hget it (List.mem_cons_self _ _) [blank] (Or.inr rfl)]
      have hne2 : ¬ ([blank] : List Char).head? = some ',' := by decide
      simp only [hne2, if_false, hrest, List.map_cons, List.map_nil]
    | cons next more =>
      have hskip : (pre ++ (listBody render (it :: next :: more) ++ [blank])).dropWhile isspace
          = render it.1 ++ (',' :: (it.2 ++ (listBody render (next :: more) ++ [blank]))) := by
        rw [dropWhile_isspace_append pre _ hpre]
        have hshape : listBody render (it :: next :: more) ++ [blank]
            = render it.1 ++ (',' :: (it.2 ++ (listBody render (next :: more) ++ [blank]))) := by
          simp [listBody]
        rw [hshape]
        exact dropWhile_isspace_of_head _ (hhead _)
      have hrest := ihtail it.2 (hgap it (List.mem_cons_self _ _)) f hf
      have hgot := hget it (List.mem_cons_self _ _)
        (',' :: (it.2 ++ (listBody render (next :: more) ++ [blank]))) (Or.inl rfl)
      simp only [readValues, hskip, hgot]
      simp only [List.head?_cons, if_true, List.tail_cons, hrest, List.map_cons]

/-- The text `[x1, x2, ..., xn]` is read back as `x1..xn`, whenever the
extraction of one number reads a written number back. -/
theorem processStringParam_listText {T : Type}
    (num_get : List Char → Option (T × List Char)) (render : T → List Char)
    (items : List (T × List Char))
    (hnone : num_get [] = none)
    (hrender : ∀ it ∈ items, render it.1 ≠ [] ∧
      ∀ c ∈ render it.1, isspace c = false ∧ c ≠ '[' ∧ c ≠ ']')
    (hgap : ∀ it ∈ items, ∀ c ∈ it.2, isspace c = true)
    (hget : ∀ it ∈ items, ∀ rest : List Char,
      (rest.head? = some ',' ∨ rest.head? = some blank) →
      num_get (render it.1 ++ rest) = some (it.1, rest)) :
    TPS_Astar_Nav_Node.processStringParam num_get (listText render items)
      = items.map Prod.fst := by
  have hbody : ∀ c ∈ listBody render items, c ≠ '[' ∧ c ≠ ']' := by
    intro c hc
    rcases mem_listBody render items c hc with h | ⟨it, hit, h | h⟩
    · rw [h]; exact ⟨by decide, by decide⟩
    · exact ((hrender it hit).2 c h).2
    · exact isspace_not_bracket c (hgap it hit c h)
  have hreplaced : replaceChar ']' (replaceChar '[' (listText render items).toList)
      = [blank] ++ (listBody render items ++ [blank]) := by
    have h1 : replaceChar '[' (listText render items).toList
        = blank :: (listBody render items ++ [']']) := by
      have hrest : replaceChar '[' (listBody render items ++ [']'])
          = listBody render items ++ [']'] := by
        apply replaceChar_of_not_mem
        intro c hc
        rcases List.mem_append.mp hc with h | h
        · exact (hbody c h).1
        · rw [List.mem_singleton.mp h]; decide
      show replaceChar '[' ('[' :: (listBody render items ++ [']'])) = _
      have hcons : replaceChar '[' ('[' :: (listBody render items ++ [']']))
          = blank :: replaceChar '[' (listBody render items ++ [']']) := by
        simp [replaceChar]
      rw [hcons, hrest]
    rw [h1]
    have hinner : replaceChar ']' (listBody render items) = listBody render items :=
      replaceChar_of_not_mem _ _ (fun c hc => (hbody c hc).2)
    have hsplit : replaceChar ']' (blank :: (listBody render items ++ [']']))
        = blank :: (replaceChar ']' (listBody render items) ++ [blank]) := by
      simp [replaceChar, blank]
    rw [hsplit, hinner]
    rfl
  have hlen : items.length < (listText render items).length + 1 := by
    have h1 := length_listBody render items (fun it hit => (hrender it hit).1)
    have h2 : (listText render items).length = (listBody render items).length + 2 := by
      show ('[' :: (listBody render items ++ [']'])).length = _
      simp
    omega
  unfold TPS_Astar_Nav_Node.processStringParam
  rw [hreplaced]
  exact readValues_listBody num_get render items hnone
    (fun it hit => ⟨(hrender it hit).1, fun c hc => ((hrender it hit).2 c hc).1⟩)
    hgap hget [blank] (by intro c hc; rw [List.mem_singleton.mp hc]; decide) _ hlen

/-- C21: for every `n >= 0` and every list of numbers `x1..xn`,
`processStringParam` applied to the text `[x1, x2, ..., xn]`, each comma at
once after a number and any whitespace after the comma, returns exactly the
vector `[x1, ..., xn]`, in order; and with three numbers the result passes the
size check of the constructor, which gets the three of them. The extraction of
one number is the library's: it is taken to read a written number back and
stop at the comma or blank behind it, and to fail on an empty text; a written
number is not empty and holds no whitespace and no bracket. -/
theorem C21_processStringParam_reads_list {T : Type}
    (num_get : List Char → Option (T × List Char)) (render : T → List Char)
    (items : List (T × List Char))
    (hnone : num_get [] = none)
    (hrender : ∀ it ∈ items, render it.1 ≠ [] ∧
      ∀ c ∈ render it.1, isspace c = false ∧ c ≠ '[' ∧ c ≠ ']')
    (hgap : ∀ it ∈ items, ∀ c ∈ it.2, isspace c = true)
    (hget : ∀ it ∈ items, ∀ rest : List Char,
      (rest.head? = some ',' ∨ rest.head? = some blank) →
      num_get (render it.1 ++ rest) = some (it.1, rest)) :
    TPS_Astar_Nav_Node.processStringParam num_get (listText render items)
        = items.map Prod.fst ∧
      ∀ a b c : T × List Char, items = [a, b, c] →
        TPS_Astar_Nav_Node.poseOfParam
            (TPS_Astar_Nav_Node.processStringParam num_get (listText render items))
          = some (a.1, b.1, c.1) := by
  have h := processStringParam_listText num_get render items hnone hrender hgap hget
  refine ⟨h, ?_⟩
  intro a b c habc
  rw [h, habc]
  rfl

/-- The example extraction reads `0.0` back, in front of a comma or a blank. -/
theorem decimalGet_zero (rest : List Char)
    (hrest : rest.head? = some ',' ∨ rest.head? = some blank) :
    decimalGet (Decimal.render Decimal.zero ++ rest) = some (Decimal.zero, rest) := by
  cases rest with
  | nil => simp at hrest
  | cons c cs =>
    have hc : c = ',' ∨ c = blank := by simpa using hrest
    rcases hc with rfl | rfl <;>
      simp [decimalGet, takeDigits, Decimal.render, Decimal.zero, blank, Char.isDigit]

/-- C21, on the default: `[0.0, 0.0, 0.0]` yields three zeros, and the
constructor's size check gets the three of them. -/
theorem C21_processStringParam_reads_list_witness :
    listText Decimal.render
        [(Decimal.zero, [blank]), (Decimal.zero, [blank]), (Decimal.zero, [])]
      = "[0.0, 0.0, 0.0]" ∧
    TPS_Astar_Nav_Node.processStringParam decimalGet "[0.0, 0.0, 0.0]"
      = [Decimal.zero, Decimal.zero, Decimal.zero] ∧
    TPS_Astar_Nav_Node.poseOfParam
        (TPS_Astar_Nav_Node.processStringParam decimalGet "[0.0, 0.0, 0.0]")
      = some (Decimal.zero, Decimal.zero, Decimal.zero) := by
  have h := C21_processStringParam_reads_list decimalGet Decimal.render
    [(Decimal.zero, [blank]), (Decimal.zero, [blank]), (Decimal.zero, [])]
    rfl (by decide) (by decide)
    (by
      intro it hit rest hrest
      have hz : it.1 = Decimal.zero := by
        simp only [List.mem_cons, List.mem_singleton, List.not_mem_nil, or_false] at hit
        rcases hit with rfl | rfl | rfl <;> rfl
      rw [hz]
      exact decimalGet_zero rest hrest)
  have htext : listText Decimal.render
      [(Decimal.zero, [blank]), (Decimal.zero, [blank]), (Decimal.zero, [])]
      = "[0.0, 0.0, 0.0]" := by decide
  rw [htext] at h
  exact ⟨htext, h.1, h.2 _ _ _ rfl⟩

/-- The empty list `[]` yields no value, which fails the size check. -/
theorem processStringParam_empty :
    TPS_Astar_Nav_Node.processStringParam decimalGet "[]" = [] ∧
    TPS_Astar_Nav_Node.poseOfParam
      (TPS_Astar_Nav_Node.processStringParam decimalGet "[]") = none := by
  decide

/-- Why the comma has to come at once after the number: with a blank in
between, reading stops at the comma and only the first value is returned. -/
theorem processStringParam_blank_before_comma :
    (TPS_Astar_Nav_Node.processStringParam decimalGet "[1.0 , 2.0]").length = 1 := by
  decide

/-! ### World bounding box of the TPS A* node -/

/-- The conversion to `float` of a number whose binade and nearest multiple of
the spacing are known. -/
theorem toFloat32_eq (q : ℚ) (e z : Int) (he : -126 ≤ e)
    (hlo : (2 : ℚ) ^ e ≤ |q|) (hhi : |q| < (2 : ℚ) ^ (e + 1))
    (hzlo : (z : ℚ) - 1 / 2 < q / 2 ^ (e - 23)) (hzhi : q / 2 ^ (e - 23) < (z : ℚ) + 1 / 2) :
    toFloat32 q = (z : ℚ) * 2 ^ (e - 23) := by
  have hq : q ≠ 0 := by
    intro h
    rw [h, abs_zero] at hlo
    exact absurd hlo (not_le.mpr (by positivity))
  have hulp : ulp32 q = 2 ^ (e - 23) := by
    unfold ulp32
    rw [binade_eq q e hlo hhi, max_eq_left he]
  unfold toFloat32
  rw [if_neg hq, hulp, lrint_of_near _ z hzlo hzhi]

/-- The text `0.1`, read as a `double` and narrowed to `float`, is above the
`double`. -/
theorem toFloat32_oneTenth : toFloat32 oneTenth = 13421773 / 134217728 := by
  have h := toFloat32_eq oneTenth (-4) 13421773 (by norm_num)
    (by rw [abs_of_pos (by norm_num [oneTenth])]; norm_num [oneTenth])
    (by rw [abs_of_pos (by norm_num [oneTenth])]; norm_num [oneTenth])
    (by norm_num [oneTenth]) (by norm_num [oneTenth])
  rw [h]; norm_num

/-- The `float` of `0.1` less the margin, in `float`. -/
theorem toFloat32_oneTenth_sub :
    toFloat32 (13421773 / 134217728 - 2) = -(15938355 / 8388608) := by
  have h := toFloat32_eq (13421773 / 134217728 - 2) 0 (-15938355) (by norm_num)
    (by rw [abs_of_neg (by norm_num)]; norm_num)
    (by rw [abs_of_neg (by norm_num)]; norm_num)
    (by norm_num) (by norm_num)
  rw [h]; norm_num

/-- The `float` of `0.1` plus the margin, in `float`. -/
theorem toFloat32_oneTenth_add :
    toFloat32 (13421773 / 134217728 + 2) = 4404019 / 2097152 := by
  have h := toFloat32_eq (13421773 / 134217728 + 2) 1 8808038 (by norm_num)
    (by rw [abs_of_pos (by norm_num)]; norm_num)
    (by rw [abs_of_pos (by norm_num)]; norm_num)
    (by norm_num) (by norm_num)
  rw [h]; norm_num

/-- The number 1 is a `float`. -/
theorem toFloat32_one : toFloat32 1 = 1 := by
  have h := toFloat32_eq 1 0 8388608 (by norm_num)
    (by norm_num) (by norm_num) (by norm_num) (by norm_num)
  rw [h]; norm_num

/-- The number -1 is a `float`. -/
theorem toFloat32_neg_one : toFloat32 (-1) = -1 := by
  have h := toFloat32_eq (-1) 0 (-8388608) (by norm_num)
    (by norm_num) (by norm_num) (by norm_num) (by norm_num)
  rw [h]; norm_num

/-- The number 2 is a `float`. -/
theorem toFloat32_two : toFloat32 2 = 2 := by
  have h := toFloat32_eq 2 1 8388608 (by norm_num)
    (by norm_num) (by norm_num) (by norm_num) (by norm_num)
  rw [h]; norm_num

/-- The number -2 is a `float`. -/
theorem toFloat32_neg_two : toFloat32 (-2) = -2 := by
  have h := toFloat32_eq (-2) 1 (-8388608) (by norm_num)
    (by norm_num) (by norm_num) (by norm_num) (by norm_num)
  rw [h]; norm_num

/-- The number 3 is a `float`. -/
theorem toFloat32_three : toFloat32 3 = 3 := by
  have h := toFloat32_eq 3 1 12582912 (by norm_num)
    (by norm_num) (by norm_num) (by norm_num) (by norm_num)
  rw [h]; norm_num

/-- Zero is a `float`. -/
theorem toFloat32_zero : toFloat32 0 = 0 := by
  simp [toFloat32]

/-- The function `keep_min` returns the minimum. -/
theorem keep_min_eq (var val : ℚ) : keep_min var val = min var val := by
  unfold keep_min
  split_ifs with h
  · exact (min_eq_right (le_of_lt h)).symm
  · exact (min_eq_left (not_lt.mp h)).symm

/-- The function `keep_max` returns the maximum. -/
theorem keep_max_eq (var val : ℚ) : keep_max var val = max var val := by
  unfold keep_max
  split_ifs with h
  · exact (max_eq_right (le_of_lt h)).symm
  · exact (max_eq_left (not_lt.mp h)).symm

/-- A minimum of five numbers is below each of them. -/
theorem min5_le (o a b c d : ℚ) :
    min (min (min (min o a) b) c) d ≤ o ∧ min (min (min (min o a) b) c) d ≤ a ∧
    min (min (min (min o a) b) c) d ≤ b ∧ min (min (min (min o a) b) c) d ≤ c ∧
    min (min (min (min o a) b) c) d ≤ d :=
  ⟨min_le_of_left_le (min_le_of_left_le (min_le_of_left_le (min_le_left _ _))),
    min_le_of_left_le (min_le_of_left_le (min_le_of_left_le (min_le_right _ _))),
    min_le_of_left_le (min_le_of_left_le (min_le_right _ _)),
    min_le_of_left_le (min_le_right _ _), min_le_right _ _⟩

/-- A maximum of five numbers is above each of them. -/
theorem le_max5 (o a b c d : ℚ) :
    o ≤ max (max (max (max o a) b) c) d ∧ a ≤ max (max (max (max o a) b) c) d ∧
    b ≤ max (max (max (max o a) b) c) d ∧ c ≤ max (max (max (max o a) b) c) d ∧
    d ≤ max (max (max (max o a) b) c) d :=
  ⟨le_max_of_le_left (le_max_of_le_left (le_max_of_le_left (le_max_left _ _))),
    le_max_of_le_left (le_max_of_le_left (le_max_of_le_left (le_max_right _ _))),
    le_max_of_le_left (le_max_of_le_left (le_max_right _ _)),
    le_max_of_le_left (le_max_right _ _), le_max_right _ _⟩

/-- The corners of the world box of `do_path_plan`, as minima and maxima. -/
theorem do_path_plan_corners (toFloat : ℚ → ℚ) (obs : TBoundingBoxf) (start goal : TPose2D) :
    (TPS_Astar_Nav_Node.do_path_plan toFloat obs start goal).worldBboxMin
      = ⟨min (min (min (min obs.min.x (toFloat (toFloat start.x - 2)))
            (toFloat (toFloat start.x + 2))) (toFloat (toFloat goal.x - 2)))
            (toFloat (toFloat goal.x + 2)),
         min (min (min (min obs.min.y (toFloat (toFloat start.y - 2)))
            (toFloat (toFloat start.y + 2))) (toFloat (toFloat goal.y - 2)))
            (toFloat (toFloat goal.y + 2)), -M_PI⟩ ∧
    (TPS_Astar_Nav_Node.do_path_plan toFloat obs start goal).worldBboxMax
      = ⟨max (max (max (max obs.max.x (toFloat (toFloat start.x - 2)))
            (toFloat (toFloat start.x + 2))) (toFloat (toFloat goal.x - 2)))
            (toFloat (toFloat goal.x + 2)),
         max (max (max (max obs.max.y (toFloat (toFloat start.y - 2)))
            (toFloat (toFloat start.y + 2))) (toFloat (toFloat goal.y - 2)))
            (toFloat (toFloat goal.y + 2)), M_PI⟩ := by
  simp only [TPS_Astar_Nav_Node.do_path_plan, TBoundingBoxf.updateWithPoint, TPoint3Df.sub,
    TPoint3Df.add, keep_min_eq, keep_max_eq, and_self]

/-- C27, as it fails: the start at `0.1`, the goal at 1 and obstacles between
the origin and (1, 1). The `float` of `0.1` is above the `double`, and so is
their difference with the margin: the world box starts at -1.89999997..., to
the right of `start.x - 2`. -/
theorem C27_counterexample_margin_short :
    (TPS_Astar_Nav_Node.do_path_plan toFloat32 unitObstacles ⟨oneTenth, 0, 0⟩
        ⟨1, 0, 0⟩).worldBboxMin.x = -(15938355 / 8388608) ∧
    ¬ ((TPS_Astar_Nav_Node.do_path_plan toFloat32 unitObstacles ⟨oneTenth, 0, 0⟩
        ⟨1, 0, 0⟩).worldBboxMin.x ≤ min oneTenth 1 - 2) := by
  have e1 : toFloat32 ((1 : ℚ) - 2) = -1 := by
    rw [show (1 : ℚ) - 2 = -1 by norm_num]; exact toFloat32_neg_one
  have e2 : toFloat32 ((1 : ℚ) + 2) = 3 := by
    rw [show (1 : ℚ) + 2 = 3 by norm_num]; exact toFloat32_three
  have hx : (TPS_Astar_Nav_Node.do_path_plan toFloat32 unitObstacles ⟨oneTenth, 0, 0⟩
      ⟨1, 0, 0⟩).worldBboxMin.x = -(15938355 / 8388608) := by
    rw [(do_path_plan_corners toFloat32 unitObstacles ⟨oneTenth, 0, 0⟩ ⟨1, 0, 0⟩).1]
    simp only [unitObstacles, toFloat32_oneTenth, toFloat32_oneTenth_sub,
      toFloat32_oneTenth_add, toFloat32_one, e1, e2]
    norm_num
  refine ⟨hx, ?_⟩
  rw [hx]
  norm_num [oneTenth]

/-- C27, amended: for every narrowing to `float`, every obstacle box, start
pose and goal, the world box given to the planner contains the box of the
obstacles, and the four points that the source computes in `float`: the start
and the goal as narrowed, less and plus the margin of 2; its angular range is
`[-M_PI, M_PI]`. When the start and goal coordinates, and these less and plus
2, are `float`s, the world box contains the start and the goal with a margin of
2 in x and y. -/
theorem C27_world_bbox_contains (toFloat : ℚ → ℚ) (obs : TBoundingBoxf)
    (start goal : TPose2D) :
    ((TPS_Astar_Nav_Node.do_path_plan toFloat obs start goal).worldBboxMin.x ≤ obs.min.x ∧
      (TPS_Astar_Nav_Node.do_path_plan toFloat obs start goal).worldBboxMin.y ≤ obs.min.y ∧
      obs.max.x ≤ (TPS_Astar_Nav_Node.do_path_plan toFloat obs start goal).worldBboxMax.x ∧
      obs.max.y ≤ (TPS_Astar_Nav_Node.do_path_plan toFloat obs start goal).worldBboxMax.y) ∧
    ((TPS_Astar_Nav_Node.do_path_plan toFloat obs start goal).worldBboxMin.x
        ≤ min (toFloat (toFloat start.x - 2)) (toFloat (toFloat goal.x - 2)) ∧
      max (toFloat (toFloat start.x + 2)) (toFloat (toFloat goal.x + 2))
        ≤ (TPS_Astar_Nav_Node.do_path_plan toFloat obs start goal).worldBboxMax.x ∧
      (TPS_Astar_Nav_Node.do_path_plan toFloat obs start goal).worldBboxMin.y
        ≤ min (toFloat (toFloat start.y - 2)) (toFloat (toFloat goal.y - 2)) ∧
      max (toFloat (toFloat start.y + 2)) (toFloat (toFloat goal.y + 2))
        ≤ (TPS_Astar_Nav_Node.do_path_plan toFloat obs start goal).worldBboxMax.y) ∧
    ((TPS_Astar_Nav_Node.do_path_plan toFloat obs start goal).worldBboxMin.phi = -M_PI ∧
      (TPS_Astar_Nav_Node.do_path_plan toFloat obs start goal).worldBboxMax.phi = M_PI) ∧
    ((∀ v ∈ [start.x, start.y, goal.x, goal.y],
        toFloat v = v ∧ toFloat (v - 2) = v - 2 ∧ toFloat (v + 2) = v + 2) →
      (TPS_Astar_Nav_Node.do_path_plan toFloat obs start goal).worldBboxMin.x
          ≤ min start.x goal.x - 2 ∧
        max start.x goal.x + 2
          ≤ (TPS_Astar_Nav_Node.do_path_plan toFloat obs start goal).worldBboxMax.x ∧
        (TPS_Astar_Nav_Node.do_path_plan toFloat obs start goal).worldBboxMin.y
          ≤ min start.y goal.y - 2 ∧
        max start.y goal.y + 2
          ≤ (TPS_Astar_Nav_Node.do_path_plan toFloat obs start goal).worldBboxMax.y) := by
  obtain ⟨hmin, hmax⟩ := do_path_plan_corners toFloat obs start goal
  rw [hmin, hmax]
  have hlow := fun o a b c d : ℚ => min5_le o a b c d
  have hhigh := fun o a b c d : ℚ => le_max5 o a b c d
  refine ⟨⟨(hlow _ _ _ _ _).1, (hlow _ _ _ _ _).1, (hhigh _ _ _ _ _).1, (hhigh _ _ _ _ _).1⟩,
    ⟨le_min (hlow _ _ _ _ _).2.1 (hlow _ _ _ _ _).2.2.2.1,
      max_le (hhigh _ _ _ _ _).2.2.1 (hhigh _ _ _ _ _).2.2.2.2,
      le_min (hlow _ _ _ _ _).2.1 (hlow _ _ _ _ _).2.2.2.1,
      max_le (hhigh _ _ _ _ _).2.2.1 (hhigh _ _ _ _ _).2.2.2.2⟩,
    ⟨rfl, rfl⟩, ?_⟩
  intro hexact
  obtain ⟨h1, h2, h3⟩ := hexact start.x (by simp)
  obtain ⟨h4, h5, h6⟩ := hexact start.y (by simp)
  obtain ⟨h7, h8, h9⟩ := hexact goal.x (by simp)
  obtain ⟨h10, h11, h12⟩ := hexact goal.y (by simp)
  simp only [h1, h2, h3, h4, h5, h6, h7, h8, h9, h10, h11, h12]
  rw [← min_sub_sub_right, ← min_sub_sub_right, ← max_add_add_right, ← max_add_add_right]
  exact ⟨le_min (hlow _ _ _ _ _).2.1 (hlow _ _ _ _ _).2.2.2.1,
    max_le (hhigh _ _ _ _ _).2.2.1 (hhigh _ _ _ _ _).2.2.2.2,
    le_min (hlow _ _ _ _ _).2.1 (hlow _ _ _ _ _).2.2.2.1,
    max_le (hhigh _ _ _ _ _).2.2.1 (hhigh _ _ _ _ _).2.2.2.2⟩

/-- C27, on the defaults: with the start and the goal at the origin, the world
box reaches at least 2 to each side of them in x and y. -/
theorem C27_world_bbox_contains_witness :
    (TPS_Astar_Nav_Node.do_path_plan toFloat32 unitObstacles ⟨0, 0, 0⟩
        ⟨0, 0, 0⟩).worldBboxMin.x ≤ min 0 0 - 2 ∧
      max 0 0 + 2 ≤ (TPS_Astar_Nav_Node.do_path_plan toFloat32 unitObstacles ⟨0, 0, 0⟩
        ⟨0, 0, 0⟩).worldBboxMax.x ∧
      (TPS_Astar_Nav_Node.do_path_plan toFloat32 unitObstacles ⟨0, 0, 0⟩
        ⟨0, 0, 0⟩).worldBboxMin.y ≤ min 0 0 - 2 ∧
      max 0 0 + 2 ≤ (TPS_Astar_Nav_Node.do_path_plan toFloat32 unitObstacles ⟨0, 0, 0⟩
        ⟨0, 0, 0⟩).worldBboxMax.y :=
  (C27_world_bbox_contains toFloat32 unitObstacles ⟨0, 0, 0⟩ ⟨0, 0, 0⟩).2.2.2 (by
    intro v hv
    have hv0 : v = 0 := by simpa using hv
    rw [hv0]
    refine ⟨toFloat32_zero, ?_, ?_⟩
    · rw [show (0 : ℚ) - 2 = -2 by norm_num]; exact toFloat32_neg_two
    · rw [show (0 : ℚ) + 2 = 2 by norm_num]; exact toFloat32_two)

end MrptNav
